import Mathlib

/-!
OpenTelemetry collector: exporter delivery core and receiver assembly.

A shallow embedding of

* `exporter/otlpexporter/exporter.go`: `shouldRetry`, `getThrottleDuration`,
  the retry loop of `exportRequest`, `exportTrace`, `exportMetrics`, `stop`;
* `service/builder/receivers_builder.go`: `hasReceiver`,
  `findPipelinesToAttach`, `attachReceiverToPipelines`, `buildReceiver`,
  `Build`, `StopAll`, and the fan-out constructors;
* `exporter/jaegerexporter/exporter.go`: `pushTraceData`;
* the memory limiter, whose tests are in
  `processor/memorylimiter/memorylimiter_test.go`;
* `internal/data_generator/internal/base_structs.go`: `Resize` of the
  generated slice wrappers;
* `exporter/otlpexporter/exporter.go`: `start`;
* `translator/internaldata/metrics_to_oc.go`: `collectLabelKeys`,
  `labelValuesToOC`, `metricToOC`, `ResourceMetricsToOC`, `MetricDataToOC`;
* `processor/resourceprocessor/resource_processor.go`: `createResource`,
  `mergeResource`, `isEmptyResource`, `ConsumeTraceData`, `ConsumeMetricsData`;
* `receiver/jaegerreceiver/trace_receiver.go`: `consumeTraceData`.

Go maps are association lists given in their iteration order; results that
are claimed for every iteration order are proved for every list. Blocking
operations (the `select` of the retry loop, the wait for the background
worker) are events chosen by an environment that the model takes as input.
A run-time fault (an index out of range, a write to a `nil` map, a read through
a `nil` pointer) is a result of its own.
-/

namespace otlpexporter

/-! ## gRPC status codes and statuses -/

/-- The type `codes.Code` of gRPC: an unsigned 32 bit number. -/
abbrev Code := Nat

namespace codes

def OK : Code := 0
def Canceled : Code := 1
def Unknown : Code := 2
def InvalidArgument : Code := 3
def DeadlineExceeded : Code := 4
def NotFound : Code := 5
def AlreadyExists : Code := 6
def PermissionDenied : Code := 7
def ResourceExhausted : Code := 8
def FailedPrecondition : Code := 9
def Aborted : Code := 10
def OutOfRange : Code := 11
def Unimplemented : Code := 12
def Internal : Code := 13
def Unavailable : Code := 14
def DataLoss : Code := 15
def Unauthenticated : Code := 16

end codes

/-- The switch of `shouldRetry`, case by case in source order. -/
def shouldRetry (code : Code) : Bool :=
  if code = codes.OK then
    -- Success. The best we can do is tell the caller not to retry.
    false
  else if code = codes.Canceled ∨ code = codes.DeadlineExceeded ∨
      code = codes.PermissionDenied ∨ code = codes.Unauthenticated ∨
      code = codes.ResourceExhausted ∨ code = codes.Aborted ∨
      code = codes.OutOfRange ∨ code = codes.Unavailable ∨
      code = codes.DataLoss then
    -- These are retryable errors.
    true
  else if code = codes.Unknown ∨ code = codes.InvalidArgument ∨
      code = codes.NotFound ∨ code = codes.AlreadyExists ∨
      code = codes.FailedPrecondition ∨ code = codes.Unimplemented ∨
      code = codes.Internal then
    -- These are fatal errors, do not retry.
    false
  else
    -- Do not retry on unknown codes.
    false

/-! ## Durations -/

/-- Two's complement wrap of an integer to the range of `int64`, the
representation of `time.Duration`. -/
def wrapInt64 (x : Int) : Int := (x + 2 ^ 63) % 2 ^ 64 - 2 ^ 63

/-- One nanosecond, the unit of `time.Duration`. -/
def Nanosecond : Int := 1

/-- One second in nanoseconds. -/
def Second : Int := 1000000000

/-- One minute in nanoseconds. -/
def Minute : Int := 60 * Second

/-- The protobuf duration message read by `getThrottleDuration`: `Seconds`
is an `int64`, `Nanos` an `int32`. -/
structure Duration where
  Seconds : Int
  Nanos : Int
deriving DecidableEq, Repr

/-- A duration message whose fields fit their machine types. -/
def Duration.inRange (d : Duration) : Prop :=
  -(2 ^ 63) ≤ d.Seconds ∧ d.Seconds < 2 ^ 63 ∧ -(2 ^ 31) ≤ d.Nanos ∧ d.Nanos < 2 ^ 31

instance (d : Duration) : Decidable d.inRange := by
  unfold Duration.inRange; infer_instance

/-- One entry of `status.Details()`: a `*errdetails.RetryInfo` with its field
`RetryDelay`, a pointer to a duration message that is `none` when `nil`; or a
value of any other type (which the type switch of `getThrottleDuration`
skips). -/
inductive Detail where
  | RetryInfo (RetryDelay : Option Duration)
  | other (typeName : String)
deriving DecidableEq, Repr

/-- A gRPC status: its code and its details. -/
structure Status where
  code : Code
  details : List Detail
deriving DecidableEq, Repr

/-- A non-nil error returned by `perform`: one that carries a gRPC status, or
any other error. -/
inductive PerformError where
  | grpc (s : Status)
  | plain (msg : String)
deriving DecidableEq, Repr

/-- The function `status.Convert`: the status carried by the error, code
`Unknown` for an error that carries none, and the `OK` status for `nil`. -/
def Convert : Option PerformError → Status
  | none => { code := codes.OK, details := [] }
  | some (PerformError.grpc s) => s
  | some (PerformError.plain _) => { code := codes.Unknown, details := [] }

/-- The loop of `getThrottleDuration` over the details: the first `RetryInfo`
decides; the sum is computed in `int64`. The fields are read as
`t.RetryDelay.Seconds` and `t.RetryDelay.Nanos`, without a test of the
pointer: with a `nil` `RetryDelay` the read is a run-time panic, which is the
result `none`. -/
def getThrottleDurationLoop : List Detail → Option Int
  | [] => some 0
  | Detail.RetryInfo none :: _ => none
  | Detail.RetryInfo (some RetryDelay) :: _ =>
    if RetryDelay.Seconds > 0 ∨ RetryDelay.Nanos > 0 then
      -- We are throttled. Wait before retrying as requested by the server.
      some (wrapInt64 (wrapInt64 (RetryDelay.Seconds * Second) +
        wrapInt64 (RetryDelay.Nanos * Nanosecond)))
    else some 0
  | Detail.other _ :: rest => getThrottleDurationLoop rest

/-- The function `getThrottleDuration`; `none` when it panics. -/
def getThrottleDuration (status : Status) : Option Int :=
  getThrottleDurationLoop status.details

/-! ## The exponential backoff consulted by the retry loop -/

/-- The value `backoff.Stop`. -/
def Stop : Int := -1

/-- The backoff object of the retry loop. Its randomised interval schedule is
an input: `interval n` is the interval that the call number `n` (from zero) of
`NextBackOff` produces, in nanoseconds. -/
structure ExponentialBackOff where
  MaxElapsedTime : Int
  interval : Nat → Nat

/-- Modelled from the spec: the backoff package is not part of the sources.
The retry budget is "15 minutes of wall time per request"; once the elapsed
time is over the budget `NextBackOff` answers `Stop`, otherwise it answers the
next interval of the schedule and advances the schedule. `calls` is the number
of earlier calls, `elapsed` the time since the backoff was created. -/
def ExponentialBackOff.NextBackOff (b : ExponentialBackOff) (calls : Nat) (elapsed : Int) : Int :=
  if b.MaxElapsedTime ≠ 0 ∧ elapsed > b.MaxElapsedTime then Stop
  else (b.interval calls : Int)

/-! ## The exporter -/

/-- The error values declared by the exporter. -/
inductive ExporterError where
  | errAlreadyStarted
  | errNotStarted
  | errTimeout
  | errStopped
  | errFatalError
deriving DecidableEq, Repr

/-- The fields of `exporterImp` that the modelled functions read or write.
`stopChCloses` counts the `close(e.stopCh)` executed so far and `workerWaits`
the receives from `backgroundConnectionDoneCh`; `lastConnectErr` is the
connection state (`none` is connected). `traceExporter` and `metricExporter`
are the gRPC clients: `none` is the `nil` interface value that the fields hold
until `connect` has stored a client. -/
structure exporterImp where
  startOnceDone : Bool
  stopOnceDone : Bool
  started : Bool
  stopped : Bool
  stopChCloses : Nat
  workerWaits : Nat
  workersLaunched : Nat
  lastConnectErr : Option String
  traceExporter : Option Nat
  metricExporter : Option Nat
deriving DecidableEq, Repr

/-- The exporter is in the disconnected state. -/
def exporterImp.disconnected (e : exporterImp) : Bool := e.lastConnectErr.isSome

/-- The method `stop`: the body runs under `stopOnce`; the result is always
`nil`. -/
def exporterImp.stop (e : exporterImp) : Option ExporterError × exporterImp :=
  if e.stopOnceDone then (none, e)
  else
    let e1 := { e with stopOnceDone := true, stopped := true }
    let started := e.started
    if !started then
      -- Not yet started, nothing to do.
      (none, e1)
    else
      -- Started. Signal to stop, then wait until stopped.
      (none, { e1 with stopChCloses := e1.stopChCloses + 1, workerWaits := e1.workerWaits + 1 })

/-- The exporter after `n` successive calls of `stop`. -/
def exporterImp.stopTimes : Nat → exporterImp → exporterImp
  | 0, e => e
  | n + 1, e => exporterImp.stopTimes n e.stop.2

/-- Which case of the `select` in the retry loop fires. -/
inductive Wake where
  | stopCh
  | ctxDone
  | timer
deriving DecidableEq, Repr

/-- What one call of `perform` does: it returns an error value (`none` is
`nil`), or a run-time panic ends it. -/
inductive PerformResult where
  | returned (err : Option PerformError)
  | panicked
deriving DecidableEq, Repr

/-- The environment of one call of `exportRequest`: what call number `i` of
`perform` does and how long it takes (nanoseconds), which case of the
`select` fires in the wait after call `i`, and the interval schedule of the
backoff. -/
structure Env where
  perform : Nat → PerformResult
  performTime : Nat → Nat
  wake : Nat → Wake
  interval : Nat → Nat

/-- The state of the retry loop: calls of `perform` so far, calls of
`NextBackOff` so far, nanoseconds elapsed since the backoff was created, and
the durations handed to `time.After`, in order. -/
structure LoopState where
  calls : Nat
  backoffCalls : Nat
  clock : Nat
  waits : List Int
deriving DecidableEq, Repr

/-- The result of one pass through the loop body: return from
`exportRequest` with an error value (`none` is `nil`), go round again, or end
in a run-time panic. -/
inductive Step where
  | ret (err : Option ExporterError) (s : LoopState)
  | again (s : LoopState)
  | panic (s : LoopState)
deriving DecidableEq, Repr

/-- The `select` statement: wait for the stop channel, the context, or the
timer of `waitDuration`. A timer with a non-positive duration fires at once. -/
def waitSelect (env : Env) (i : Nat) (waitDuration : Int) (s : LoopState) : Step :=
  let s1 := { s with waits := s.waits ++ [waitDuration] }
  match env.wake i with
  | Wake.stopCh => Step.ret (some ExporterError.errStopped) s1
  | Wake.ctxDone => Step.ret (some ExporterError.errTimeout) s1
  | Wake.timer => Step.again { s1 with clock := s1.clock + waitDuration.toNat }

/-- The body of the `for` loop of `exportRequest`. -/
def iteration (env : Env) (expBackoff : ExponentialBackOff) (s : LoopState) : Step :=
  let i := s.calls
  let s1 := { s with calls := s.calls + 1, clock := s.clock + env.performTime i }
  -- Send to server.
  match env.perform i with
  | PerformResult.panicked => Step.panic s1
  | PerformResult.returned none => Step.ret none s1
  | PerformResult.returned (some err) =>
    let status := Convert (some err)
    let statusCode := status.code
    if statusCode = codes.OK then Step.ret none s1
    else if !shouldRetry statusCode then Step.ret (some ExporterError.errFatalError) s1
    else
      match getThrottleDuration status with
      | none => Step.panic s1
      | some waitDuration =>
        if waitDuration = 0 then
          let waitDuration := expBackoff.NextBackOff s1.backoffCalls (s1.clock : Int)
          let s2 := { s1 with backoffCalls := s1.backoffCalls + 1 }
          if waitDuration = Stop then Step.ret (some ExporterError.errTimeout) s2
          else waitSelect env i waitDuration s2
        else waitSelect env i waitDuration s1

/-- How a call of `exportRequest` ends: it returns an error value (`none` is
`nil`), or a run-time panic ends it. -/
inductive Exit where
  | returned (err : Option ExporterError)
  | panicked
deriving DecidableEq, Repr

/-- What a call of `exportRequest` does: how it ends and the final loop
state. -/
structure Outcome where
  exit : Exit
  state : LoopState
deriving DecidableEq, Repr

/-- The `for` loop, run for at most `fuel` passes; `none` when the loop is
still running after `fuel` passes. -/
def retryLoop (env : Env) (expBackoff : ExponentialBackOff) : Nat → LoopState → Option Outcome
  | 0, _ => none
  | fuel + 1, s =>
    match iteration env expBackoff s with
    | Step.ret err s1 => some { exit := Exit.returned err, state := s1 }
    | Step.panic s1 => some { exit := Exit.panicked, state := s1 }
    | Step.again s1 => retryLoop env expBackoff fuel s1

/-- The backoff that `exportRequest` creates: at most 15 minutes. -/
def newBackoff (env : Env) : ExponentialBackOff :=
  { MaxElapsedTime := Minute * 15, interval := env.interval }

/-- The loop state on entry. -/
def LoopState.init : LoopState := { calls := 0, backoffCalls := 0, clock := 0, waits := [] }

/-- The method `exportRequest`; `env.perform` is its argument `perform`. Of
the exporter it reads the stop channel, whose event the environment chooses;
the connection state is not read. -/
def exportRequest (_e : exporterImp) (env : Env) (fuel : Nat) : Option Outcome :=
  retryLoop env (newBackoff env) fuel LoopState.init

/-- The function that `exportTrace` and `exportMetrics` hand to
`exportRequest`: a call of `Export` on the client field. On a `nil` client the
call is a run-time panic; on a client it does what the RPC does, which
`Export i` tells for call number `i`. -/
def clientExport (client : Option Nat) (Export : Nat → PerformResult) (i : Nat) :
    PerformResult :=
  match client with
  | none => PerformResult.panicked
  | some _ => Export i

/-- The method `exportTrace`: `perform` is `e.traceExporter.Export`, and
`env.perform` tells what the RPC does. -/
def exportTrace (e : exporterImp) (env : Env) (fuel : Nat) : Option Outcome :=
  exportRequest e { env with perform := clientExport e.traceExporter env.perform } fuel

/-- The method `exportMetrics`: `perform` is `e.metricExporter.Export`, and
`env.perform` tells what the RPC does. -/
def exportMetrics (e : exporterImp) (env : Env) (fuel : Nat) : Option Outcome :=
  exportRequest e { env with perform := clientExport e.metricExporter env.perform } fuel

/-- Call number `i` of `perform` returned an error whose status code is
retryable. -/
def Env.failsRetryable (env : Env) (i : Nat) : Bool :=
  match env.perform i with
  | PerformResult.returned err => shouldRetry (Convert err).code
  | PerformResult.panicked => false

/-- The throttle duration that `getThrottleDuration` reads from the status of
what call number `i` of `perform` returned; `none` when `getThrottleDuration`
panics or the call did not return. -/
def Env.throttleAt (env : Env) (i : Nat) : Option Int :=
  match env.perform i with
  | PerformResult.returned err => getThrottleDuration (Convert err)
  | PerformResult.panicked => none

/-- The loop state at the start of pass `n` when every earlier pass went round
again. -/
def stateAt (env : Env) : Nat → LoopState
  | 0 => LoopState.init
  | n + 1 =>
    match iteration env (newBackoff env) (stateAt env n) with
    | Step.ret _ s => s
    | Step.again s => s
    | Step.panic s => s

/-! ## Concrete exporters and environments -/

/-- A started exporter whose connection is up. -/
def connectedExporter : exporterImp :=
  { startOnceDone := true, stopOnceDone := false, started := true, stopped := false,
    stopChCloses := 0, workerWaits := 0, workersLaunched := 1, lastConnectErr := none,
    traceExporter := some 1, metricExporter := some 2 }

/-- A started exporter in the disconnected state after its connection was up:
the clients of that connection are still in the fields. -/
def disconnectedExporter : exporterImp :=
  { connectedExporter with lastConnectErr := some "connection refused" }

/-- A started exporter in the disconnected state none of whose connection
attempts has succeeded: the client fields are `nil`. -/
def neverConnectedExporter : exporterImp :=
  { connectedExporter with
    lastConnectErr := some "connection refused", traceExporter := none, metricExporter := none }

/-- An exporter that was created but never started. -/
def freshExporter : exporterImp :=
  { startOnceDone := false, stopOnceDone := false, started := false, stopped := false,
    stopChCloses := 0, workerWaits := 0, workersLaunched := 0, lastConnectErr := none,
    traceExporter := none, metricExporter := none }

/-- A status with the given code and no details, as an error. -/
def codeError (code : Code) : Option PerformError :=
  some (PerformError.grpc { code := code, details := [] })

/-- A status with the given code and one `RetryInfo` detail, as an error. -/
def throttleError (code : Code) (seconds nanos : Int) : Option PerformError :=
  some (PerformError.grpc
    { code := code,
      details := [Detail.RetryInfo (some { Seconds := seconds, Nanos := nanos })] })

/-- A status with the given code and one `RetryInfo` detail whose `RetryDelay`
is `nil`, as an error. -/
def emptyRetryInfoError (code : Code) : Option PerformError :=
  some (PerformError.grpc { code := code, details := [Detail.RetryInfo none] })

/-- Every call succeeds at once. -/
def okEnv : Env :=
  { perform := fun _ => PerformResult.returned none, performTime := fun _ => 1000000,
    wake := fun _ => Wake.timer, interval := fun n => 500000000 * (n + 1) }

/-- The endpoint answers `Unavailable` to the first two calls and succeeds on
the third; every wait runs to the end of its timer. -/
def unavailableTwiceEnv : Env :=
  { okEnv with
    perform := fun i =>
      PerformResult.returned (if i < 2 then codeError codes.Unavailable else none) }

/-- The endpoint answers `InvalidArgument`. -/
def invalidArgumentEnv : Env :=
  { okEnv with perform := fun _ => PerformResult.returned (codeError codes.InvalidArgument) }

/-- The first call fails with `Unavailable` and a `RetryInfo` of 2.5 seconds,
the second succeeds. -/
def throttledOnceEnv : Env :=
  { okEnv with
    perform := fun i =>
      PerformResult.returned
        (if i = 0 then throttleError codes.Unavailable 2 500000000 else none) }

/-- The first call fails with `Unavailable` and a `RetryInfo` whose delay is
`Seconds = -1`, `Nanos = 5`; the second succeeds. -/
def negativeDelayEnv : Env :=
  { okEnv with
    perform := fun i =>
      PerformResult.returned (if i = 0 then throttleError codes.Unavailable (-1) 5 else none) }

/-- The first call fails with `Unavailable` and a `RetryInfo` whose delay is
`Seconds = 9223372037` (about 292 years), `Nanos = 0`; the second succeeds. -/
def overflowDelayEnv : Env :=
  { okEnv with
    perform := fun i =>
      PerformResult.returned
        (if i = 0 then throttleError codes.Unavailable 9223372037 0 else none) }

/-- The first call fails with `Unavailable` and a `RetryInfo` whose
`RetryDelay` is `nil`; the second succeeds. -/
def emptyRetryInfoEnv : Env :=
  { okEnv with
    perform := fun i =>
      PerformResult.returned (if i = 0 then emptyRetryInfoError codes.Unavailable else none) }

/-- Every call fails with `Unavailable`; the context is done during the
first wait. -/
def cancelledEnv : Env :=
  { okEnv with
    perform := fun _ => PerformResult.returned (codeError codes.Unavailable)
    wake := fun _ => Wake.ctxDone }

/-- Every call fails with `Unavailable`; the stop signal fires during the
first wait. -/
def stoppedEnv : Env :=
  { okEnv with
    perform := fun _ => PerformResult.returned (codeError codes.Unavailable)
    wake := fun _ => Wake.stopCh }

/-- Every call fails with `Unavailable` after sixteen minutes. -/
def exhaustedEnv : Env :=
  { okEnv with
    perform := fun _ => PerformResult.returned (codeError codes.Unavailable)
    performTime := fun _ => 960000000000 }

/-- Every call fails with `Unavailable` and a `RetryInfo` of ten minutes;
every wait runs to the end of its timer. -/
def throttledEnv : Env :=
  { okEnv with
    perform := fun _ => PerformResult.returned (throttleError codes.Unavailable 600 0) }

end otlpexporter

namespace builder

/-! ## Configuration model -/

/-- The type `configmodels.DataType`, an `int` whose declared values start
at one. -/
abbrev DataType := Nat

/-- The data type tag for traces. -/
def TracesDataType : DataType := 1

/-- The data type tag for metrics. -/
def MetricsDataType : DataType := 2

/-- The method `GetString`, defined for the two declared tags (it is only
called with one of them). -/
def DataType.GetString (dataType : DataType) : String :=
  if dataType = TracesDataType then "traces"
  else if dataType = MetricsDataType then "metrics"
  else "unknown data type"

/-- A receiver configuration (`configmodels.Receiver`): `ptr` is the identity
of the value used as map key, then `Name()` and `Type()` (written `Type_`). -/
structure Receiver where
  ptr : Nat
  Name : String
  Type_ : String
deriving DecidableEq, Repr

/-- A pipeline configuration (`configmodels.Pipeline`). -/
structure Pipeline where
  Name : String
  InputType : DataType
  Receivers : List String
  Processors : List String
  Exporters : List String
deriving DecidableEq, Repr

/-- The parts of `configmodels.Config` that the receivers builder reads: the
map of receivers and the map of pipelines, each as the list of its values in
iteration order. -/
structure Config where
  Receivers : List Receiver
  Pipelines : List Pipeline

/-! ## Consumers, pipelines and factories -/

/-- A consumer value outside the builder, identified by its pointer. -/
abbrev ConsumerRef := Nat

/-- A value of `consumer.TraceConsumerBase` as the builder produces it: the
head consumer of a pipeline itself, or one of the two fan-out connectors of
package `processor` over a list of head consumers. -/
inductive TraceConsumerBase where
  | consumer (c : ConsumerRef)
  | fanOutConnector (cs : List ConsumerRef)
  | cloningFanOutConnector (cs : List ConsumerRef)
deriving DecidableEq, Repr

/-- A value of `consumer.MetricsConsumerBase`, as for traces. -/
inductive MetricsConsumerBase where
  | consumer (c : ConsumerRef)
  | fanOutConnector (cs : List ConsumerRef)
  | cloningFanOutConnector (cs : List ConsumerRef)
deriving DecidableEq, Repr

/-- A built pipeline: its head consumers and the mutation flag. -/
structure builtPipeline where
  firstTC : ConsumerRef
  firstMC : ConsumerRef
  MutatesConsumedData : Bool
deriving DecidableEq, Repr

/-- The errors a factory returns: the sentinel
`configerror.ErrDataTypeIsNotSupported`, or any other error with its text. -/
inductive FactoryError where
  | ErrDataTypeIsNotSupported
  | other (msg : String)
deriving DecidableEq, Repr

/-- The pair returned by a create function: the receiver (`none` is `nil`,
otherwise its pointer) and the error (`none` is `nil`). -/
structure Created where
  receiver : Option Nat
  err : Option FactoryError
deriving DecidableEq, Repr

/-- A registered factory: one of the new kind (`component.ReceiverFactory`),
whose create functions are also told whether the consumer reaches them
through the internal-to-OC converter, or one of the old kind
(`component.ReceiverFactoryOld`). -/
inductive ReceiverFactoryBase where
  | factory (CreateTraceReceiver : Receiver → TraceConsumerBase → Bool → Created)
      (CreateMetricsReceiver : Receiver → MetricsConsumerBase → Bool → Created)
  | factoryOld (CreateTraceReceiver : Receiver → TraceConsumerBase → Created)
      (CreateMetricsReceiver : Receiver → MetricsConsumerBase → Created)

/-- The errors of the receivers builder: the sentinel `errUnusedReceiver`, or
an error made by `fmt.Errorf` or `errors.New` with its text. -/
inductive BuildError where
  | errUnusedReceiver
  | errorf (msg : String)
deriving DecidableEq, Repr

/-- A built receiver: the receiver pointer, `none` while it is `nil`. -/
structure builtReceiver where
  receiver : Option Nat
deriving DecidableEq, Repr

/-- The map `attachedPipelines` from data type to pipelines, as the list of
its entries. -/
abbrev attachedPipelines := List (DataType × List builtPipeline)

/-- Read `m[k]`: the empty slice for a missing key. -/
def attachedPipelines.get (m : attachedPipelines) (k : DataType) : List builtPipeline :=
  match m.find? (fun e => e.1 == k) with
  | some e => e.2
  | none => []

/-- Write `m[k] = v`: replace the entry of an existing key, add one otherwise. -/
def attachedPipelines.set : attachedPipelines → DataType → List builtPipeline → attachedPipelines
  | [], k, v => [(k, v)]
  | e :: rest, k, v =>
    if e.1 = k then (k, v) :: rest else e :: attachedPipelines.set rest k v

/-- The map `Receivers` from receiver configuration to built receiver, as the
list of its entries. -/
abbrev Receivers := List (Receiver × builtReceiver)

/-- Write `receivers[cfg] = rcv`. -/
def Receivers.set : Receivers → Receiver → builtReceiver → Receivers
  | [], k, v => [(k, v)]
  | e :: rest, k, v =>
    if e.1 = k then (k, v) :: rest else e :: Receivers.set rest k v

/-- What the builder takes from outside the sources: which consumer values
implement the new consumer interfaces (the others implement the old ones),
the order in which `range` visits the entries of an `attachedPipelines`
map, which Go leaves open, and the text that the verb `%q` of `fmt.Errorf`
writes for a string (the string as a quoted Go literal). -/
structure Runtime where
  isTraceConsumer : TraceConsumerBase → Bool
  isMetricsConsumer : MetricsConsumerBase → Bool
  rangeOrder : attachedPipelines → attachedPipelines
  quote : String → String

/-- The struct `ReceiversBuilder` (the logger apart). A map is a lookup
function. -/
structure ReceiversBuilder where
  config : Config
  builtPipelines : Pipeline → Option builtPipeline
  factories : String → Option ReceiverFactoryBase

/-! ## The builder -/

/-- The function `hasReceiver`: the loop over `pipeline.Receivers`. -/
def hasReceiverLoop (receiverName : String) : List String → Bool
  | [] => false
  | name :: rest => if name = receiverName then true else hasReceiverLoop receiverName rest

/-- The function `hasReceiver`. -/
def hasReceiver (pipeline : Pipeline) (receiverName : String) : Bool :=
  hasReceiverLoop receiverName pipeline.Receivers

/-- The loop of `findPipelinesToAttach` over all pipelines. -/
def findPipelinesLoop (rb : ReceiversBuilder) (config : Receiver) :
    List Pipeline → attachedPipelines → Except BuildError attachedPipelines
  | [], pipelinesToAttach => Except.ok pipelinesToAttach
  | pipelineCfg :: rest, pipelinesToAttach =>
    -- Get the first processor of the pipeline.
    match rb.builtPipelines pipelineCfg with
    | none =>
      Except.error (BuildError.errorf
        ("cannot find pipeline processor for pipeline " ++ pipelineCfg.Name))
    | some pipelineProcessor =>
      -- Is this receiver attached to the pipeline?
      if hasReceiver pipelineCfg config.Name then
        findPipelinesLoop rb config rest
          (pipelinesToAttach.set pipelineCfg.InputType
            (pipelinesToAttach.get pipelineCfg.InputType ++ [pipelineProcessor]))
      else findPipelinesLoop rb config rest pipelinesToAttach

/-- The method `findPipelinesToAttach`. -/
def findPipelinesToAttach (rb : ReceiversBuilder) (config : Receiver) :
    Except BuildError attachedPipelines :=
  findPipelinesLoop rb config rb.config.Pipelines
    [(TracesDataType, []), (MetricsDataType, [])]

/-- The function `buildFanoutTraceConsumer`. -/
def buildFanoutTraceConsumer (pipelines : List builtPipeline) : TraceConsumerBase :=
  match pipelines with
  | [p] =>
    -- Only one processor, no need to create a junction point.
    TraceConsumerBase.consumer p.firstTC
  | _ =>
    let pipelineConsumers := pipelines.map (fun p => p.firstTC)
    let anyPipelineMutatesData := pipelines.foldl (fun b p => b || p.MutatesConsumedData) false
    if anyPipelineMutatesData then TraceConsumerBase.cloningFanOutConnector pipelineConsumers
    else TraceConsumerBase.fanOutConnector pipelineConsumers

/-- The function `buildFanoutMetricConsumer`. -/
def buildFanoutMetricConsumer (pipelines : List builtPipeline) : MetricsConsumerBase :=
  match pipelines with
  | [p] => MetricsConsumerBase.consumer p.firstMC
  | _ =>
    let pipelineConsumers := pipelines.map (fun p => p.firstMC)
    let anyPipelineMutatesData := pipelines.foldl (fun b p => b || p.MutatesConsumedData) false
    if anyPipelineMutatesData then MetricsConsumerBase.cloningFanOutConnector pipelineConsumers
    else MetricsConsumerBase.fanOutConnector pipelineConsumers

/-- The function `createTraceReceiver`: the four combinations of factory kind
and consumer kind. -/
def createTraceReceiver (rt : Runtime) (factory : ReceiverFactoryBase) (cfg : Receiver)
    (nextConsumer : TraceConsumerBase) : Created :=
  match factory with
  | ReceiverFactoryBase.factory createTrace _ =>
    if rt.isTraceConsumer nextConsumer then createTrace cfg nextConsumer false
    else createTrace cfg nextConsumer true
  | ReceiverFactoryBase.factoryOld createTrace _ =>
    if !rt.isTraceConsumer nextConsumer then createTrace cfg nextConsumer
    else
      { receiver := none
        err := some (FactoryError.other
          "OC Traces -> internal data format translation is not supported") }

/-- The function `createMetricsReceiver`. -/
def createMetricsReceiver (rt : Runtime) (factory : ReceiverFactoryBase) (cfg : Receiver)
    (nextConsumer : MetricsConsumerBase) : Created :=
  match factory with
  | ReceiverFactoryBase.factory _ createMetrics =>
    if rt.isMetricsConsumer nextConsumer then createMetrics cfg nextConsumer false
    else createMetrics cfg nextConsumer true
  | ReceiverFactoryBase.factoryOld _ createMetrics =>
    if !rt.isMetricsConsumer nextConsumer then createMetrics cfg nextConsumer
    else
      { receiver := none
        err := some (FactoryError.other
          "OC Metrics -> internal data format translation is not supported") }

/-- The text of a factory error (`err.Error()`). -/
def FactoryError.Error : FactoryError → String
  | FactoryError.ErrDataTypeIsNotSupported => "telemetry type is not supported"
  | FactoryError.other msg => msg

/-- The method `attachReceiverToPipelines`; the result is the error, or the
built receiver after the assignment to `rcv.receiver`. -/
def attachReceiverToPipelines (rt : Runtime) (factory : ReceiverFactoryBase)
    (dataType : DataType) (config : Receiver) (rcv : builtReceiver)
    (builtPipelines : List builtPipeline) : Except BuildError builtReceiver :=
  let created : Created :=
    if dataType = TracesDataType then
      createTraceReceiver rt factory config (buildFanoutTraceConsumer builtPipelines)
    else if dataType = MetricsDataType then
      createMetricsReceiver rt factory config (buildFanoutMetricConsumer builtPipelines)
    else { receiver := none, err := none }
  match created.err with
  | some err =>
    if err = FactoryError.ErrDataTypeIsNotSupported then
      Except.error (BuildError.errorf
        ("receiver " ++ config.Name ++ " does not support " ++ dataType.GetString ++
          " but it was used in a " ++ dataType.GetString ++ " pipeline"))
    else
      Except.error (BuildError.errorf
        ("cannot create receiver " ++ config.Name ++ ": " ++ err.Error))
  | none =>
    -- Check if the factory really created the receiver.
    match created.receiver with
    | none =>
      Except.error (BuildError.errorf
        ("factory for " ++ rt.quote config.Name ++ " produced a nil receiver"))
    | some createdReceiver =>
      if rcv.receiver ≠ none ∧ rcv.receiver ≠ some createdReceiver then
        Except.error (BuildError.errorf
          ("factory for " ++ rt.quote config.Name ++ " is implemented incorrectly: " ++
            "CreateTraceReceiver and CreateMetricsReceiver must return the same " ++
            "receiver pointer when creating receivers of different data types"))
      else Except.ok { rcv with receiver := some createdReceiver }

/-- The loop of `buildReceiver` over the entries of `pipelinesToAttach`, in
the order in which `range` visits them. -/
def attachLoop (rt : Runtime) (factory : ReceiverFactoryBase) (config : Receiver) :
    List (DataType × List builtPipeline) → builtReceiver → Except BuildError builtReceiver
  | [], rcv => Except.ok rcv
  | (dataType, pipelines) :: rest, rcv =>
    if pipelines.length = 0 then
      -- No pipelines of this data type are attached to this receiver.
      attachLoop rt factory config rest rcv
    else
      match attachReceiverToPipelines rt factory dataType config rcv pipelines with
      | Except.error err => Except.error err
      | Except.ok rcv1 => attachLoop rt factory config rest rcv1

/-- The method `buildReceiver`. -/
def buildReceiver (rb : ReceiversBuilder) (rt : Runtime) (config : Receiver) :
    Except BuildError builtReceiver :=
  -- First find pipelines that must be attached to this receiver.
  match findPipelinesToAttach rb config with
  | Except.error err => Except.error err
  | Except.ok pipelinesToAttach =>
    -- Prepare to build the receiver.
    match rb.factories config.Type_ with
    | none =>
      Except.error (BuildError.errorf ("receiver factory not found for type: " ++ config.Type_))
    | some factory =>
      match attachLoop rt factory config (rt.rangeOrder pipelinesToAttach) { receiver := none } with
      | Except.error err => Except.error err
      | Except.ok rcv =>
        if rcv.receiver = none then Except.error BuildError.errUnusedReceiver
        else Except.ok rcv

/-- The loop of `Build` over the configured receivers. -/
def BuildLoop (rb : ReceiversBuilder) (rt : Runtime) :
    List Receiver → Receivers → Except BuildError Receivers
  | [], receivers => Except.ok receivers
  | cfg :: rest, receivers =>
    match buildReceiver rb rt cfg with
    | Except.error err =>
      if err = BuildError.errUnusedReceiver then
        -- Ignoring receiver as it is not used by any pipeline.
        BuildLoop rb rt rest receivers
      else Except.error err
    | Except.ok rcv => BuildLoop rb rt rest (receivers.set cfg rcv)

/-- The method `Build`. -/
def Build (rb : ReceiversBuilder) (rt : Runtime) : Except BuildError Receivers :=
  BuildLoop rb rt rb.config.Receivers []

/-! ## Concrete configurations -/

/-- A receiver of type `jaeger` that the traces pipeline uses. -/
def receiverR1 : Receiver := { ptr := 1, Name := "r1", Type_ := "jaeger" }

/-- A receiver of type `jaeger` that no pipeline uses. -/
def receiverR2 : Receiver := { ptr := 2, Name := "r2", Type_ := "jaeger" }

/-- A receiver that no pipeline uses, of a type without a registered factory. -/
def receiverR3 : Receiver := { ptr := 3, Name := "r3", Type_ := "unregistered" }

/-- The pipeline `traces`, fed by `r1`. -/
def tracesPipeline : Pipeline :=
  { Name := "traces", InputType := TracesDataType, Receivers := ["r1"],
    Processors := [], Exporters := ["e1"] }

/-- The built pipelines: the one of `tracesPipeline`. -/
def builtPipelinesOf (p : Pipeline) : Option builtPipeline :=
  if p = tracesPipeline then
    some { firstTC := 10, firstMC := 11, MutatesConsumedData := false }
  else none

/-- A factory of the old kind that creates a trace receiver and, like the
Jaeger factory, supports no metrics. -/
def jaegerFactory : ReceiverFactoryBase :=
  ReceiverFactoryBase.factoryOld
    (fun cfg _ => { receiver := some (100 + cfg.ptr), err := none })
    (fun _ _ => { receiver := none, err := some FactoryError.ErrDataTypeIsNotSupported })

/-- The registry: only the type `jaeger` has a factory. -/
def factoriesOf (typeStr : String) : Option ReceiverFactoryBase :=
  if typeStr = "jaeger" then some jaegerFactory else none

/-- The two hexadecimal digits of a number below 256. -/
def hexByte (n : Nat) : List Char :=
  [(Nat.toDigits 16 (n / 16)).headD '0', (Nat.toDigits 16 (n % 16)).headD '0']

/-- What `%q` writes for one character of an ASCII string: an escape for the
double quote, the backslash and the control characters, the character itself
otherwise. A character above 127 is copied, as `%q` copies the printable
ones. -/
def quoteChar (c : Char) : List Char :=
  let backslash := Char.ofNat 92
  if c.toNat = 34 then [backslash, Char.ofNat 34]
  else if c.toNat = 92 then [backslash, backslash]
  else if c.toNat = 7 then [backslash, 'a']
  else if c.toNat = 8 then [backslash, 'b']
  else if c.toNat = 12 then [backslash, 'f']
  else if c.toNat = 10 then [backslash, 'n']
  else if c.toNat = 13 then [backslash, 'r']
  else if c.toNat = 9 then [backslash, 't']
  else if c.toNat = 11 then [backslash, 'v']
  else if c.toNat < 32 ∨ c.toNat = 127 then [backslash, 'x'] ++ hexByte c.toNat
  else [c]

/-- The verb `%q` on an ASCII string: the escaped characters between double
quotes. -/
def quoteASCII (s : String) : String :=
  String.mk ([Char.ofNat 34] ++ s.data.flatMap quoteChar ++ [Char.ofNat 34])

/-- All consumers are of the old kind; `range` visits the entries in map
order. -/
def plainRuntime : Runtime :=
  { isTraceConsumer := fun _ => false, isMetricsConsumer := fun _ => false,
    rangeOrder := fun m => m, quote := quoteASCII }

/-- The configuration of the unused-receiver scenario: `r1` and `r2`
configured, only `r1` in a pipeline. -/
def unusedReceiverBuilder : ReceiversBuilder :=
  { config := { Receivers := [receiverR1, receiverR2], Pipelines := [tracesPipeline] }
    builtPipelines := builtPipelinesOf
    factories := factoriesOf }

/-- A configuration with an unused receiver whose type has no factory. -/
def unregisteredBuilder : ReceiversBuilder :=
  { config := { Receivers := [receiverR1, receiverR3], Pipelines := [tracesPipeline] }
    builtPipelines := builtPipelinesOf
    factories := factoriesOf }

end builder

namespace builder

/-! ## Shutdown of the built receivers -/

/-- Modelled from the spec: `oterr.CombineErrors` is not part of the sources.
The failures are combined "into a single multi-error": one error value that
holds the texts of all the errors it was built from, in order. -/
structure CombinedError where
  errs : List String
deriving DecidableEq, Repr

/-- The function `oterr.CombineErrors`, see `CombinedError`. -/
def CombineErrors (errs : List String) : CombinedError := { errs := errs }

/-- What `StopAll` did: the receivers whose `Shutdown` it called, in call
order, and the error it returns (`none` is `nil`). -/
structure StopAllResult where
  stopCalls : List Nat
  err : Option CombinedError
deriving DecidableEq, Repr

/-- The loop of `StopAll` over the entries of the map. `shutdown r` is what
`Shutdown` of the receiver `r` returns (`none` is `nil`); the method call on
a nil receiver is a runtime fault, the result `none`. -/
def StopAllLoop (shutdown : Nat → Option String) :
    Receivers → List Nat → List String → Option (List Nat × List String)
  | [], calls, errs => some (calls, errs)
  | (_, rcv) :: rest, calls, errs =>
    match rcv.receiver with
    | none => none
    | some r =>
      match shutdown r with
      | some err => StopAllLoop shutdown rest (calls ++ [r]) (errs ++ [err])
      | none => StopAllLoop shutdown rest (calls ++ [r]) errs

/-- The method `Receivers.StopAll`. -/
def Receivers.StopAll (rcvs : Receivers) (shutdown : Nat → Option String) :
    Option StopAllResult :=
  match StopAllLoop shutdown rcvs [] [] with
  | none => none
  | some (calls, errs) =>
    if errs.length ≠ 0 then some { stopCalls := calls, err := some (CombineErrors errs) }
    else some { stopCalls := calls, err := none }

/-! ## The pipelines attached to a receiver -/

/-- The built pipelines of data type `dataType` that list the receiver, in the
order of the pipelines. -/
def attachedOf (rb : ReceiversBuilder) (config : Receiver) (dataType : DataType) :
    List Pipeline → List builtPipeline
  | [] => []
  | p :: rest =>
    match rb.builtPipelines p with
    | none => attachedOf rb config dataType rest
    | some bp =>
      if hasReceiver p config.Name = true ∧ p.InputType = dataType then
        bp :: attachedOf rb config dataType rest
      else attachedOf rb config dataType rest

/-! ## More concrete configurations -/

/-- The pipeline `metrics`, fed by `r1`. -/
def metricsPipeline : Pipeline :=
  { Name := "metrics", InputType := MetricsDataType, Receivers := ["r1"],
    Processors := [], Exporters := ["e1"] }

/-- The built pipelines of `tracesPipeline` and `metricsPipeline`. -/
def builtPipelinesBoth (p : Pipeline) : Option builtPipeline :=
  if p = tracesPipeline then
    some { firstTC := 10, firstMC := 11, MutatesConsumedData := false }
  else if p = metricsPipeline then
    some { firstTC := 20, firstMC := 21, MutatesConsumedData := true }
  else none

/-- A factory of the new kind that returns one receiver instance for traces
and another one for metrics. -/
def twoInstanceFactory : ReceiverFactoryBase :=
  ReceiverFactoryBase.factory
    (fun cfg _ _ => { receiver := some (100 + cfg.ptr), err := none })
    (fun cfg _ _ => { receiver := some (200 + cfg.ptr), err := none })

/-- A factory of the new kind that returns the same receiver instance for
traces and for metrics. -/
def sharedInstanceFactory : ReceiverFactoryBase :=
  ReceiverFactoryBase.factory
    (fun cfg _ _ => { receiver := some (100 + cfg.ptr), err := none })
    (fun cfg _ _ => { receiver := some (100 + cfg.ptr), err := none })

/-- A builder with `r1` in a traces and in a metrics pipeline, and the given
factory for every type. -/
def bothTypesBuilder (factory : ReceiverFactoryBase) : ReceiversBuilder :=
  { config := { Receivers := [receiverR1], Pipelines := [tracesPipeline, metricsPipeline] }
    builtPipelines := builtPipelinesBoth
    factories := fun _ => some factory }

/-- A runtime in which `range` visits the entries in reverse map order. -/
def reverseRuntime : Runtime :=
  { isTraceConsumer := fun _ => false, isMetricsConsumer := fun _ => false,
    rangeOrder := fun m => m.reverse, quote := quoteASCII }

/-- Three built pipelines, the second of which mutates data. -/
def threePipelines : List builtPipeline :=
  [{ firstTC := 10, firstMC := 11, MutatesConsumedData := false },
   { firstTC := 20, firstMC := 21, MutatesConsumedData := true },
   { firstTC := 30, firstMC := 31, MutatesConsumedData := false }]

/-- Two built pipelines, none of which mutates data. -/
def twoReadOnlyPipelines : List builtPipeline :=
  [{ firstTC := 10, firstMC := 11, MutatesConsumedData := false },
   { firstTC := 20, firstMC := 21, MutatesConsumedData := false }]

/-- A map of three built receivers. -/
def threeReceivers : Receivers :=
  [(receiverR1, { receiver := some 101 }), (receiverR2, { receiver := some 102 }),
   (receiverR3, { receiver := some 103 })]

/-- The receivers 101 and 103 fail to shut down. -/
def shutdownFails (r : Nat) : Option String :=
  if r = 101 then some "r1 failed" else if r = 103 then some "r3 failed" else none

end builder

namespace jaegerexporter

/-! ## The Jaeger exporter: `pushTraceData` -/

/-- A span of the batch to export (`tracepb.Span`), identified by a number. -/
structure Span where
  id : Nat
deriving DecidableEq, Repr

/-- The type `consumerdata.TraceData`: `Spans` is a slice of span pointers,
`none` is a nil pointer. -/
structure TraceData where
  Spans : List (Option Span)
deriving DecidableEq, Repr

/-- The translated batch (`jaeger.Batch`): its spans. -/
structure Batch where
  Spans : List Nat
deriving DecidableEq, Repr

/-- The errors `pushTraceData` returns: an error marked by
`consumererror.Permanent`, or the error of `PostSpans` as it is. -/
inductive PushError where
  | Permanent (msg : String)
  | plain (msg : String)
deriving DecidableEq, Repr

/-- The sender: the number of entries of its metadata, and what `PostSpans`
of its client answers for a batch (`none` is a nil error); the flag tells
whether the metadata was put into the context. -/
structure protoGRPCSender where
  metadataLen : Nat
  PostSpans : Bool → Batch → Option String

/-- The method `pushTraceData`. The translation function
`OCProtoToJaegerProto` is outside the sources and is an input. The result is
the pair of `droppedSpans` and the error. -/
def protoGRPCSender.pushTraceData (s : protoGRPCSender)
    (OCProtoToJaegerProto : TraceData → Except String Batch) (td : TraceData) :
    Nat × Option PushError :=
  match OCProtoToJaegerProto td with
  | Except.error err => (td.Spans.length, some (PushError.Permanent err))
  | Except.ok protoBatch =>
    let withMetadata := decide (s.metadataLen > 0)
    match s.PostSpans withMetadata protoBatch with
    | some err => (protoBatch.Spans.length, some (PushError.plain err))
    | none => (0, none)

/-- A translation that gives one Jaeger span for every entry of `Spans`. -/
def spanBySpan (td : TraceData) : Except String Batch :=
  Except.ok { Spans := td.Spans.map (fun sp => (sp.map (fun x => x.id)).getD 0) }

/-- A translation that always fails. -/
def failingTranslation (_td : TraceData) : Except String Batch :=
  Except.error "cannot translate"

/-- A batch of two spans. -/
def twoSpans : TraceData := { Spans := [some { id := 1 }, some { id := 2 }] }

/-- A sender without metadata whose `PostSpans` always fails. -/
def failingSender : protoGRPCSender :=
  { metadataLen := 0, PostSpans := fun _ _ => some "unavailable" }

/-- A sender without metadata whose `PostSpans` always succeeds. -/
def workingSender : protoGRPCSender :=
  { metadataLen := 0, PostSpans := fun _ _ => none }

end jaegerexporter

namespace memorylimiter

/-! ## The memory limiter

The implementation of the memory limiter is not part of the sources; its
tests are. The definitions follow chapter 4.5 of the specification and are
checked against the tests below. -/

/-- The number of bytes of one MiB. -/
def mibBytes : Nat := 1024 * 1024

/-- The errors of the memory limiter that the tests name, and the errors of
the percentage mode. -/
inductive LimiterError where
  | errForcedDrop
  | errCheckIntervalOutOfRange
  | errLimitOutOfRange
  | errMemSpikeLimitOutOfRange
  | errPercentageLimitOutOfRange
  | errTotalMemory
deriving DecidableEq, Repr

/-- The configuration fields that the tests set; `CheckInterval` is a
duration in nanoseconds. -/
structure Config where
  CheckInterval : Int
  MemoryLimitMiB : Nat
  MemorySpikeLimitMiB : Nat
  MemoryLimitPercentage : Nat
  MemorySpikePercentage : Nat
  BallastSizeMiB : Nat
deriving DecidableEq, Repr

/-- The struct `dropDecision` of the tests: the hard limit and the spike
margin, in bytes. -/
structure dropDecision where
  memAllocLimit : Nat
  memSpikeLimit : Nat
deriving DecidableEq, Repr

/-- Modelled from the spec: the construction of a decision in fixed mode is
not part of the sources. The specification validates `mem_spike ≤ mem_limit`
at construction; a spike limit above the memory limit is the error
`errMemSpikeLimitOutOfRange` of the test `memSpikeLimit_gt_memAllocLimit`.
A spike limit of zero is accepted, as the test `success` of `TestNew`
requires. -/
def newFixedDecision (memAllocLimit memSpikeLimit : Nat) : Except LimiterError dropDecision :=
  if memSpikeLimit > memAllocLimit then Except.error LimiterError.errMemSpikeLimitOutOfRange
  else Except.ok { memAllocLimit := memAllocLimit, memSpikeLimit := memSpikeLimit }

/-- Modelled from the spec: the construction of a decision in percentage mode
is not part of the sources. Both percentages are "in (0, 100]" and are taken
"of total system memory, resolved once at construction". -/
def newPercentageDecision (totalMemory percentageLimit percentageSpike : Nat) :
    Except LimiterError dropDecision :=
  if percentageLimit > 100 ∨ percentageLimit = 0 ∨ percentageSpike > 100 ∨ percentageSpike = 0 then
    Except.error LimiterError.errPercentageLimitOutOfRange
  else newFixedDecision (totalMemory * percentageLimit / 100) (totalMemory * percentageSpike / 100)

/-- Modelled from the spec: `getDecision` is not part of the sources. The two
modes are mutually exclusive: a fixed limit in MiB when one is configured,
otherwise the percentages of the total memory that `getMemoryFn` reports
(`none` when it fails). -/
def getDecision (cfg : Config) (getMemoryFn : Option Nat) : Except LimiterError dropDecision :=
  if cfg.MemoryLimitMiB ≠ 0 then
    newFixedDecision (cfg.MemoryLimitMiB * mibBytes) (cfg.MemorySpikeLimitMiB * mibBytes)
  else
    match getMemoryFn with
    | none => Except.error LimiterError.errTotalMemory
    | some totalMemory =>
      newPercentageDecision totalMemory cfg.MemoryLimitPercentage cfg.MemorySpikePercentage

/-- The two states of the check loop. -/
inductive State where
  | NORMAL
  | THROTTLING
deriving DecidableEq, Repr

/-- The memory limiter: its decision, the ballast in bytes, the state of the
check loop and the number of forced collections requested so far. -/
structure memoryLimiter where
  decision : dropDecision
  ballastSize : Nat
  state : State
  forcedGCs : Nat
deriving DecidableEq, Repr

/-- Modelled from the spec: `newMemoryLimiter` is not part of the sources. The
check interval "must be > 0"; a configuration without a limit is the error
`errLimitOutOfRange`; the checks come in the order that `TestNew` shows. -/
def newMemoryLimiter (cfg : Config) (getMemoryFn : Option Nat) :
    Except LimiterError memoryLimiter :=
  if cfg.CheckInterval ≤ 0 then Except.error LimiterError.errCheckIntervalOutOfRange
  else if cfg.MemoryLimitMiB = 0 ∧ cfg.MemoryLimitPercentage = 0 then
    Except.error LimiterError.errLimitOutOfRange
  else
    match getDecision cfg getMemoryFn with
    | Except.error err => Except.error err
    | Except.ok decision =>
      Except.ok { decision := decision, ballastSize := cfg.BallastSizeMiB * mibBytes,
                  state := State.NORMAL, forcedGCs := 0 }

/-- Modelled from the spec: `shouldDrop` is not part of the sources. Data is
dropped when the allocation, the ballast already taken off, is at least
`limit − spike`. -/
def dropDecision.shouldDrop (d : dropDecision) (alloc : Nat) : Bool :=
  decide (d.memAllocLimit - d.memSpikeLimit ≤ alloc)

/-- Modelled from the spec: `memCheck` is not part of the sources. One pass of
the check loop for the observed allocation `alloc`: the effective allocation
is `alloc − ballast`, floored at zero, and the state follows the table of the
specification row by row; where the table has no row the state stays. -/
def memoryLimiter.memCheck (ml : memoryLimiter) (alloc : Nat) : memoryLimiter :=
  let effective := alloc - ml.ballastSize
  let limit := ml.decision.memAllocLimit
  let spike := ml.decision.memSpikeLimit
  match ml.state with
  | State.NORMAL =>
    if effective < limit - spike then { ml with state := State.NORMAL }
    else { ml with state := State.THROTTLING }
  | State.THROTTLING =>
    if effective < limit - spike then { ml with state := State.NORMAL }
    else if effective ≥ limit then
      { ml with state := State.THROTTLING, forcedGCs := ml.forcedGCs + 1 }
    else ml

/-- A batch of telemetry: its items. -/
abbrev Batch := List Nat

/-- What a consume call did: the batch it handed to the next consumer (`none`
when it forwarded nothing) and the error it returned (`none` is nil). -/
structure ConsumeResult where
  forwarded : Option Batch
  err : Option (LimiterError ⊕ String)
deriving DecidableEq, Repr

/-- Modelled from the spec: the consume path is not part of the sources. "If
state is THROTTLING, the processor returns a fixed forced_drop error to its
upstream WITHOUT forwarding the batch. If NORMAL, the batch is forwarded
unchanged." `next` is what the next consumer returns. -/
def memoryLimiter.ConsumeTraces (ml : memoryLimiter) (next : Batch → Option String)
    (td : Batch) : ConsumeResult :=
  match ml.state with
  | State.THROTTLING => { forwarded := none, err := some (Sum.inl LimiterError.errForcedDrop) }
  | State.NORMAL => { forwarded := some td, err := (next td).map Sum.inr }

/-- The limiter of the pressure tests: limit 1024, no spike limit, no
ballast. -/
def testLimiter : memoryLimiter :=
  { decision := { memAllocLimit := 1024, memSpikeLimit := 0 }, ballastSize := 0,
    state := State.NORMAL, forcedGCs := 0 }

/-- The limiter of the pressure tests once the spike limit is 512. -/
def testLimiterSpike : memoryLimiter :=
  { testLimiter with decision := { memAllocLimit := 1024, memSpikeLimit := 512 } }

/-- The limiter of the pressure tests once the ballast is 1000. -/
def testLimiterBallast : memoryLimiter := { testLimiter with ballastSize := 1000 }

/-- The configuration of the test `success` of `TestNew`: a check interval of
100 milliseconds, a limit of 1024 MiB, no spike limit. -/
def successConfig : Config :=
  { CheckInterval := 100000000, MemoryLimitMiB := 1024, MemorySpikeLimitMiB := 0,
    MemoryLimitPercentage := 0, MemorySpikePercentage := 0, BallastSizeMiB := 0 }

/-- A configuration in percentage mode: 50 and 10 percent. -/
def percentageConfig : Config :=
  { CheckInterval := 100000000, MemoryLimitMiB := 0, MemorySpikeLimitMiB := 0,
    MemoryLimitPercentage := 50, MemorySpikePercentage := 10, BallastSizeMiB := 0 }

/-- A next consumer that accepts every batch. -/
def nopConsumer (_td : Batch) : Option String := none

end memorylimiter

namespace internal

/-! ## The generated slice wrappers: `Resize` -/

/-- A generated slice wrapper together with the memory it points into. `orig`
is the slice `*es.orig` of element pointers, `none` for the nil slice; `heap`
holds the origin structs allocated so far, a pointer being an index into it. -/
structure Slice (α : Type) where
  orig : Option (List Nat)
  heap : List α

/-- The elements of the slice; the nil slice has none. -/
def Slice.elems {α : Type} (es : Slice α) : List Nat := es.orig.getD []

/-- The method `Len`. -/
def Slice.Len {α : Type} (es : Slice α) : Nat := es.elems.length

/-- The function `append` for slices of pointers: nothing appended leaves the
slice as it is, nil included. -/
def appendPtrs (s : Option (List Nat)) (extra : List Nat) : Option (List Nat) :=
  match extra with
  | [] => s
  | _ => some (s.getD [] ++ extra)

/-- The method `Resize`. `emptyVal` is the zero value of the origin struct;
the result is `none` for a runtime fault (slicing with a negative bound). -/
def Slice.Resize {α : Type} (emptyVal : α) (es : Slice α) (newLen : Int) : Option (Slice α) :=
  if newLen = 0 then some { es with orig := none }
  else
    let oldLen : Int := es.Len
    if newLen < oldLen then
      if newLen < 0 then none
      else some { es with orig := some (es.elems.take newLen.toNat) }
    else
      -- extraOrigs := make([]origin, newLen-oldLen)
      let n := (newLen - oldLen).toNat
      let extraPtrs := (List.range n).map (fun i => es.heap.length + i)
      some { orig := appendPtrs es.orig extraPtrs, heap := es.heap ++ List.replicate n emptyVal }

/-- A slice of seven elements, as `generateTest` makes it. -/
def sevenElements : Slice Nat :=
  { orig := some [0, 1, 2, 3, 4, 5, 6], heap := [10, 11, 12, 13, 14, 15, 16] }

end internal


namespace otlpexporter

/-! ## Starting the exporter -/

/-- What one call of `start` did: the error it returned, the exporter
afterwards, and how many times it called `connect`. -/
structure StartResult where
  err : Option ExporterError
  exporter : exporterImp
  connectCalls : Nat
deriving DecidableEq, Repr

/-- What the call of `connect` did, which is an input: the error it returned
(`none` is `nil`) and the clients that the fields of the exporter hold when it
has returned. -/
structure ConnectResult where
  err : Option String
  traceExporter : Option Nat
  metricExporter : Option Nat
deriving DecidableEq, Repr

/-- The method `start`: the body runs under `startOnce`. What the eager
`connect` does is an input; `setStateConnected` and `setStateDisconnected`
write the connection state. -/
def exporterImp.start (e : exporterImp) (connect : ConnectResult) : StartResult :=
  if e.startOnceDone then
    { err := some ExporterError.errAlreadyStarted, exporter := e, connectCalls := 0 }
  else
    let e1 := { e with startOnceDone := true }
    let stopped := e1.stopped
    let e2 := { e1 with started := true }
    if stopped then
      { err := some ExporterError.errStopped, exporter := e2, connectCalls := 0 }
    else
      -- Connect to the endpoint right away; the state records how it went.
      let e2c : exporterImp :=
        { e2 with
          traceExporter := connect.traceExporter, metricExporter := connect.metricExporter }
      let e3 : exporterImp :=
        match connect.err with
        | none => { e2c with lastConnectErr := none }
        | some err => { e2c with lastConnectErr := some err }
      -- go e.indefiniteBackgroundConnection()
      { err := none, exporter := { e3 with workersLaunched := e3.workersLaunched + 1 },
        connectCalls := 1 }

/-- A status with one `RetryInfo` detail. -/
def retryInfoStatus (seconds nanos : Int) : Status :=
  { code := codes.Unavailable,
    details := [Detail.RetryInfo (some { Seconds := seconds, Nanos := nanos })] }

/-- A `connect` that succeeds and stores the two clients. -/
def connectSucceeds : ConnectResult :=
  { err := none, traceExporter := some 1, metricExporter := some 2 }

/-- A `connect` that fails and stores no client. -/
def connectFails : ConnectResult :=
  { err := some "connection refused", traceExporter := none, metricExporter := none }

end otlpexporter

namespace internaldata

/-! ## Translation of metrics to OpenCensus -/

/-- The type `data.StringMap`: key/value pairs read by index with `Len` and
`GetStringKeyValue`. -/
abbrev StringMap := List (String × String)

/-- A data point of one of the four kinds, reduced to what the translation of
labels reads. `payload` stands for the timestamps and the value. -/
structure DataPoint where
  LabelsMap : StringMap
  payload : Nat
deriving DecidableEq, Repr

/-- The type `data.Metric`: the descriptor (`none` when `IsNil`, else its
name) and the four lists of data points. -/
structure Metric where
  MetricDescriptor : Option String
  Int64DataPoints : List DataPoint
  DoubleDataPoints : List DataPoint
  HistogramDataPoints : List DataPoint
  SummaryDataPoints : List DataPoint
deriving DecidableEq, Repr

/-- The struct `labelKeys`: the ordered keys (of `*ocmetrics.LabelKey`, each
reduced to its `Key`) and the map from a key to its index. `none` is `nil`. -/
structure labelKeys where
  keys : Option (List String)
  keyIndices : Option (List (String × Nat))
deriving DecidableEq, Repr

/-- The assignment `m[k] = v` on a `map[string]int`. -/
def mapSet : List (String × Nat) → String → Nat → List (String × Nat)
  | [], k, v => [(k, v)]
  | (k', v') :: rest, k, v => if k' = k then (k, v) :: rest else (k', v') :: mapSet rest k v

/-- The lookup `m[k]` on a `map[string]int`, `none` when the key is absent. -/
def mapGet : List (String × Nat) → String → Option Nat
  | [], _ => none
  | (k', v) :: rest, k => if k' = k then some v else mapGet rest k

/-- The assignment `keySet[k] = struct{}{}` on the set of keys. -/
def keySetAdd (keySet : List String) (k : String) : List String :=
  if k ∈ keySet then keySet else keySet ++ [k]

/-- The function `addLabelKeys`. -/
def addLabelKeys (keySet : List String) (labels : StringMap) : List String :=
  labels.foldl (fun s skv => keySetAdd s skv.1) keySet

/-- One of the four loops of `collectLabelKeys` over the points of a kind. -/
def addPointsKeys (keySet : List String) (points : List DataPoint) : List String :=
  points.foldl (fun s p => addLabelKeys s p.LabelsMap) keySet

/-- The function `sort.Strings`: increasing order of strings. -/
def sortStrings (l : List String) : List String :=
  List.insertionSort (fun a b => a ≤ b) l

/-- The last loop of `collectLabelKeys`, over `sortedKeys` from index `i`. -/
def indexLoop : List String → Nat → List String → List (String × Nat) →
    List String × List (String × Nat)
  | [], _, keys, indices => (keys, indices)
  | key :: rest, i, keys, indices => indexLoop rest (i + 1) (keys ++ [key]) (mapSet indices key i)

/-- The function `collectLabelKeys`. `rangeOrder` is the order in which the
`range` over `keySet` yields the keys. -/
def collectLabelKeys (rangeOrder : List String → List String) (metric : Metric) : labelKeys :=
  -- First, collect a set of all labels present in the metric
  let keySet0 : List String := []
  let keySet1 := addPointsKeys keySet0 metric.Int64DataPoints
  let keySet2 := addPointsKeys keySet1 metric.DoubleDataPoints
  let keySet3 := addPointsKeys keySet2 metric.HistogramDataPoints
  let keySet := addPointsKeys keySet3 metric.SummaryDataPoints
  if keySet.length = 0 then
    { keys := none, keyIndices := none }
  else
    let sortedKeys := sortStrings (rangeOrder keySet)
    let r := indexLoop sortedKeys 0 [] []
    { keys := some r.1, keyIndices := some r.2 }

/-- The message `ocmetrics.LabelValue`. -/
structure LabelValue where
  Value : String
  HasValue : Bool
deriving DecidableEq, Repr

/-- A run-time fault of the translation. -/
inductive Fault where
  | indexOutOfRange
  | nilDereference
deriving DecidableEq, Repr

/-- The first loop of `labelValuesToOC`: entry `i` becomes a fresh default
value, for `i` below `len(labelKeys.keys)`. An entry of `labelValues` is a
pointer, `none` when `nil`. -/
def defaultsLoop : Nat → Nat → List (Option LabelValue) →
    Except Fault (List (Option LabelValue))
  | 0, _, labelValues => Except.ok labelValues
  | remaining + 1, i, labelValues =>
    if i < labelValues.length then
      defaultsLoop remaining (i + 1)
        (labelValues.set i (some { Value := "", HasValue := false }))
    else Except.error Fault.indexOutOfRange

/-- The second loop of `labelValuesToOC`, over the labels of the point. A key
that the map does not hold reads as index 0. -/
def valuesLoop (keyIndices : Option (List (String × Nat))) :
    StringMap → List (Option LabelValue) → Except Fault (List (Option LabelValue))
  | [], labelValues => Except.ok labelValues
  | skv :: rest, labelValues =>
    let keyIndex := ((keyIndices.bind fun m => mapGet m skv.1).getD 0)
    match labelValues[keyIndex]? with
    | none => Except.error Fault.indexOutOfRange
    | some none => Except.error Fault.nilDereference
    | some (some _) =>
      valuesLoop keyIndices rest
        (labelValues.set keyIndex (some { Value := skv.2, HasValue := true }))

/-- The function `labelValuesToOC`; the inner `none` is the `nil` slice. -/
def labelValuesToOC (labels : StringMap) (lk : labelKeys) :
    Except Fault (Option (List (Option LabelValue))) :=
  if labels.length = 0 then
    Except.ok none
  else
    let labelValues0 : List (Option LabelValue) :=
      List.replicate (lk.keyIndices.getD []).length none
    match defaultsLoop (lk.keys.getD []).length 0 labelValues0 with
    | Except.error f => Except.error f
    | Except.ok labelValues1 =>
      match valuesLoop lk.keyIndices labels labelValues1 with
      | Except.error f => Except.error f
      | Except.ok labelValues => Except.ok (some labelValues)

/-- The kind of the value of a time series. -/
inductive PointKind where
  | int64
  | double
  | distribution
  | summary
deriving DecidableEq, Repr

/-- The message `ocmetrics.TimeSeries`, reduced to its label values, the kind
of its point and the payload of the point it was made from. -/
structure TimeSeries where
  LabelValues : Option (List (Option LabelValue))
  kind : PointKind
  payload : Nat
deriving DecidableEq, Repr

/-- The message `ocmetrics.MetricDescriptor`, reduced to its name and its
label keys. -/
structure OCMetricDescriptor where
  Name : String
  LabelKeys : Option (List String)
deriving DecidableEq, Repr

/-- The message `ocmetrics.Metric`. -/
structure OCMetric where
  MetricDescriptor : Option OCMetricDescriptor
  Timeseries : Option (List TimeSeries)
deriving DecidableEq, Repr

/-- The function `descriptorToOC`. -/
def descriptorToOC (descriptor : Option String) (lk : labelKeys) : Option OCMetricDescriptor :=
  match descriptor with
  | none => none
  | some name => some { Name := name, LabelKeys := lk.keys }

/-- The functions `int64PointToOC`, `doublePointToOC`, `histogramPointToOC`
and `summaryPointToOC`, which differ in the kind of the value. -/
def pointToOC (kind : PointKind) (point : DataPoint) (lk : labelKeys) : Except Fault TimeSeries :=
  match labelValuesToOC point.LabelsMap lk with
  | Except.error f => Except.error f
  | Except.ok labelValues =>
    Except.ok { LabelValues := labelValues, kind := kind, payload := point.payload }

/-- One of the four loops of `dataPointsToTimeseries`. -/
def pointsLoop (kind : PointKind) (lk : labelKeys) :
    List DataPoint → List TimeSeries → Except Fault (List TimeSeries)
  | [], timeseries => Except.ok timeseries
  | point :: rest, timeseries =>
    match pointToOC kind point lk with
    | Except.error f => Except.error f
    | Except.ok ts => pointsLoop kind lk rest (timeseries ++ [ts])

/-- The function `dataPointsToTimeseries`. -/
def dataPointsToTimeseries (metric : Metric) (lk : labelKeys) :
    Except Fault (Option (List TimeSeries)) :=
  let length := metric.Int64DataPoints.length + metric.DoubleDataPoints.length +
    metric.HistogramDataPoints.length + metric.SummaryDataPoints.length
  if length = 0 then
    Except.ok none
  else
    match pointsLoop PointKind.int64 lk metric.Int64DataPoints [] with
    | Except.error f => Except.error f
    | Except.ok ts1 =>
      match pointsLoop PointKind.double lk metric.DoubleDataPoints ts1 with
      | Except.error f => Except.error f
      | Except.ok ts2 =>
        match pointsLoop PointKind.distribution lk metric.HistogramDataPoints ts2 with
        | Except.error f => Except.error f
        | Except.ok ts3 =>
          match pointsLoop PointKind.summary lk metric.SummaryDataPoints ts3 with
          | Except.error f => Except.error f
          | Except.ok timeseries => Except.ok (some timeseries)

/-- The function `metricToOC`. -/
def metricToOC (rangeOrder : List String → List String) (metric : Metric) :
    Except Fault OCMetric :=
  let lk := collectLabelKeys rangeOrder metric
  match dataPointsToTimeseries metric lk with
  | Except.error f => Except.error f
  | Except.ok timeseries =>
    Except.ok { MetricDescriptor := descriptorToOC metric.MetricDescriptor lk,
                Timeseries := timeseries }

/-- The type `data.ResourceMetrics`: the resource (an identifier) and the
metrics of each instrumentation-library group. -/
structure ResourceMetrics where
  Resource : Nat
  InstrumentationLibraryMetrics : List (List Metric)
deriving DecidableEq, Repr

/-- The type `consumerdata.MetricsData`; `Metrics` is `none` when `nil`. -/
structure MetricsData where
  Node : Nat
  Resource : Nat
  Metrics : Option (List OCMetric)
deriving DecidableEq, Repr

/-- The inner loop of `ResourceMetricsToOC` over the metrics of a group. -/
def metricsLoop (rangeOrder : List String → List String) :
    List Metric → List OCMetric → Except Fault (List OCMetric)
  | [], ocMetrics => Except.ok ocMetrics
  | metric :: rest, ocMetrics =>
    match metricToOC rangeOrder metric with
    | Except.error f => Except.error f
    | Except.ok m => metricsLoop rangeOrder rest (ocMetrics ++ [m])

/-- The outer loop of `ResourceMetricsToOC`: one pass for each group that
remains, and each pass reads `ilms.Get(0).Metrics()`. -/
def groupsLoop (rangeOrder : List String → List String) (ilms : List (List Metric)) :
    List (List Metric) → List OCMetric → Except Fault (List OCMetric)
  | [], ocMetrics => Except.ok ocMetrics
  | _ :: remaining, ocMetrics =>
    match ilms[0]? with
    | none => Except.error Fault.indexOutOfRange
    | some metrics =>
      match metricsLoop rangeOrder metrics ocMetrics with
      | Except.error f => Except.error f
      | Except.ok ocMetrics1 => groupsLoop rangeOrder ilms remaining ocMetrics1

/-- The function `ResourceMetricsToOC`. The conversion of the resource,
`internalResourceToOC`, is a parameter. -/
def ResourceMetricsToOC (internalResourceToOC : Nat → Nat × Nat)
    (rangeOrder : List String → List String) (rm : ResourceMetrics) :
    Except Fault MetricsData :=
  let nr := internalResourceToOC rm.Resource
  let ocMetricsData : MetricsData := { Node := nr.1, Resource := nr.2, Metrics := none }
  let ilms := rm.InstrumentationLibraryMetrics
  if ilms.length = 0 then
    Except.ok ocMetricsData
  else
    match groupsLoop rangeOrder ilms ilms [] with
    | Except.error f => Except.error f
    | Except.ok ocMetrics =>
      if ocMetrics.length ≠ 0 then
        Except.ok { ocMetricsData with Metrics := some ocMetrics }
      else Except.ok ocMetricsData

/-- The loop of `MetricDataToOC`. -/
def resourceMetricsLoop (internalResourceToOC : Nat → Nat × Nat)
    (rangeOrder : List String → List String) :
    List ResourceMetrics → List MetricsData → Except Fault (List MetricsData)
  | [], out => Except.ok out
  | rm :: rest, out =>
    match ResourceMetricsToOC internalResourceToOC rangeOrder rm with
    | Except.error f => Except.error f
    | Except.ok d => resourceMetricsLoop internalResourceToOC rangeOrder rest (out ++ [d])

/-- The function `MetricDataToOC`; the inner `none` is `nil`. -/
def MetricDataToOC (internalResourceToOC : Nat → Nat × Nat)
    (rangeOrder : List String → List String) (resourceMetrics : List ResourceMetrics) :
    Except Fault (Option (List MetricsData)) :=
  if resourceMetrics.length = 0 then
    Except.ok none
  else
    match resourceMetricsLoop internalResourceToOC rangeOrder resourceMetrics [] with
    | Except.error f => Except.error f
    | Except.ok l => Except.ok (some l)

/-! ### Reading of the label claims -/

/-- All data points of a metric, in the order of the four loops. -/
def allPoints (metric : Metric) : List DataPoint :=
  metric.Int64DataPoints ++ metric.DoubleDataPoints ++ metric.HistogramDataPoints ++
    metric.SummaryDataPoints

/-- The key occurs among the labels of some data point of the metric. -/
def occursIn (metric : Metric) (k : String) : Prop :=
  ∃ p ∈ allPoints metric, k ∈ p.LabelsMap.map Prod.fst

/-! ### Concrete inputs -/

/-- A gauge with two int64 points: the first has the label `host`, the second
has no label. -/
def partlyLabelledMetric : Metric :=
  { MetricDescriptor := some "cpu",
    Int64DataPoints := [{ LabelsMap := [("host", "a")], payload := 1 },
                        { LabelsMap := [], payload := 2 }],
    DoubleDataPoints := [], HistogramDataPoints := [], SummaryDataPoints := [] }

/-- A metric with the given name and one int64 point without labels. -/
def namedMetric (name : String) : Metric :=
  { MetricDescriptor := some name, Int64DataPoints := [{ LabelsMap := [], payload := 0 }],
    DoubleDataPoints := [], HistogramDataPoints := [], SummaryDataPoints := [] }

/-- The translation of `namedMetric name`. -/
def namedOCMetric (name : String) : OCMetric :=
  { MetricDescriptor := some { Name := name, LabelKeys := none },
    Timeseries := some [{ LabelValues := none, kind := PointKind.int64, payload := 0 }] }

/-- Two instrumentation-library groups: the first holds the metric `a`, the
second the metrics `b` and `c`. -/
def twoGroups : ResourceMetrics :=
  { Resource := 7,
    InstrumentationLibraryMetrics := [[namedMetric "a"], [namedMetric "b", namedMetric "c"]] }

/-- A conversion of the resource that copies the identifier. -/
def copyResource (r : Nat) : Nat × Nat := (r, r)

end internaldata

namespace resourceprocessor

/-! ## The resource processor -/

/-- A `map[string]string` that is not `nil`: its entries. -/
abbrev Labels := List (String × String)

/-- The assignment `m[k] = v` on a `map[string]string`. -/
def labelsSet : Labels → String → String → Labels
  | [], k, v => [(k, v)]
  | (k', v') :: rest, k, v => if k' = k then (k, v) :: rest else (k', v') :: labelsSet rest k v

/-- The lookup `m[k]` on a `map[string]string`, `none` when the key is
absent. -/
def labelsGet : Labels → String → Option String
  | [], _ => none
  | (k', v) :: rest, k => if k' = k then some v else labelsGet rest k

/-- The message `resourcepb.Resource`; `Labels` is `none` for a `nil` map. -/
structure Resource where
  Type_ : String
  Labels : Option Labels
deriving DecidableEq, Repr

/-- The fields of `Config` that `createResource` reads. Ranging over a `nil`
map is ranging over an empty one, so the labels are a list. -/
structure Config where
  ResourceType : String
  Labels : Labels
deriving DecidableEq, Repr

/-- The run-time fault of an assignment to an entry of a `nil` map. -/
inductive Fault where
  | nilMapWrite
deriving DecidableEq, Repr

/-- The loop of `createResource`. -/
def createLoop : Labels → Labels → Labels
  | [], labels => labels
  | (k, v) :: rest, labels => createLoop rest (labelsSet labels k v)

/-- The function `createResource`. -/
def createResource (cfg : Config) : Resource :=
  { Type_ := cfg.ResourceType, Labels := some (createLoop cfg.Labels []) }

/-- The function `isEmptyResource`; the length of a `nil` map is zero. -/
def isEmptyResource (resource : Resource) : Bool :=
  resource.Type_ = "" && (resource.Labels.getD []).length = 0

/-- The loop over `from.Labels` with the assignment `to.Labels[k] = v`, on the
label map of `to`. -/
def writeLabels : Labels → Option Labels → Except Fault (Option Labels)
  | [], labels => Except.ok labels
  | _ :: _, none => Except.error Fault.nilMapWrite
  | (k, v) :: rest, some m => writeLabels rest (some (labelsSet m k v))

/-- The end of `mergeResource`, from `if from.Type != ""` on, for the object
that `to` points to. -/
def mergeInto (to_ : Resource) (from_ : Resource) : Except Fault Resource :=
  let to1 : Resource :=
    if from_.Type_ ≠ "" then
      -- Only change resource type if it was configured
      { to_ with Type_ := from_.Type_ }
    else to_
  match from_.Labels with
  | none => Except.ok to1
  | some fromLabels =>
    match writeLabels fromLabels to1.Labels with
    | Except.error f => Except.error f
    | Except.ok labels => Except.ok { to1 with Labels := labels }

/-- What `mergeResource` leaves behind: the resource that the returned pointer
points to (`none` for `nil`) and the object that the argument `to` points to,
as it is after the call. -/
structure Merged where
  result : Option Resource
  toAfter : Option Resource
deriving DecidableEq, Repr

/-- The function `mergeResource`. -/
def mergeResource (to_ : Option Resource) (from_ : Resource) : Except Fault Merged :=
  if isEmptyResource from_ then
    Except.ok { result := to_, toAfter := to_ }
  else
    match to_ with
    | none =>
      if from_.Type_ = "" then
        -- Since resource without type would be invalid, we keep resource as nil
        Except.ok { result := none, toAfter := none }
      else
        match mergeInto { Type_ := "", Labels := some [] } from_ with
        | Except.error f => Except.error f
        | Except.ok r => Except.ok { result := some r, toAfter := none }
    | some t =>
      match mergeInto t from_ with
      | Except.error f => Except.error f
      | Except.ok r => Except.ok { result := some r, toAfter := some r }

/-- The type `consumerdata.TraceData`; node and spans are identifiers. -/
structure TraceData where
  Node : Nat
  Resource : Option Resource
  Spans : List Nat
  SourceFormat : String
deriving DecidableEq, Repr

/-- The type `consumerdata.MetricsData`; node and metrics are identifiers. -/
structure MetricsData where
  Node : Nat
  Resource : Option Resource
  Metrics : List Nat
deriving DecidableEq, Repr

/-- The struct `resourceTraceProcessor`; `next` returns an error or `nil`. -/
structure resourceTraceProcessor where
  resource : Resource
  MutatesConsumedData : Bool
  next : TraceData → Option String

/-- The struct `resourceMetricProcessor`. -/
structure resourceMetricProcessor where
  resource : Resource
  MutatesConsumedData : Bool
  next : MetricsData → Option String

/-- The function `newResourceTraceProcessor`. -/
def newResourceTraceProcessor (next : TraceData → Option String) (cfg : Config) :
    resourceTraceProcessor :=
  let resource := createResource cfg
  { next := next, MutatesConsumedData := !isEmptyResource resource, resource := resource }

/-- The function `newResourceMetricProcessor`. -/
def newResourceMetricProcessor (next : MetricsData → Option String) (cfg : Config) :
    resourceMetricProcessor :=
  let resource := createResource cfg
  { resource := resource, MutatesConsumedData := !isEmptyResource resource, next := next }

/-- What one call of `ConsumeTraceData` did: the batch handed to the next
consumer, the error that consumer returned, and the batch of the caller as it
is after the call. -/
structure TraceOutcome where
  forwarded : TraceData
  err : Option String
  inputAfter : TraceData
deriving DecidableEq, Repr

/-- What one call of `ConsumeMetricsData` did. -/
structure MetricsOutcome where
  forwarded : MetricsData
  err : Option String
  inputAfter : MetricsData
deriving DecidableEq, Repr

/-- The method `ConsumeTraceData`. -/
def resourceTraceProcessor.ConsumeTraceData (rtp : resourceTraceProcessor) (td : TraceData) :
    Except Fault TraceOutcome :=
  match mergeResource td.Resource rtp.resource with
  | Except.error f => Except.error f
  | Except.ok m =>
    let forwarded : TraceData :=
      { Node := td.Node, Resource := m.result, Spans := td.Spans,
        SourceFormat := td.SourceFormat }
    Except.ok { forwarded := forwarded, err := rtp.next forwarded,
                inputAfter := { td with Resource := m.toAfter } }

/-- The method `ConsumeMetricsData`. -/
def resourceMetricProcessor.ConsumeMetricsData (rmp : resourceMetricProcessor)
    (md : MetricsData) : Except Fault MetricsOutcome :=
  match mergeResource md.Resource rmp.resource with
  | Except.error f => Except.error f
  | Except.ok m =>
    let forwarded : MetricsData :=
      { Node := md.Node, Resource := m.result, Metrics := md.Metrics }
    Except.ok { forwarded := forwarded, err := rmp.next forwarded,
                inputAfter := { md with Resource := m.toAfter } }

/-! ### Concrete inputs -/

/-- A configuration with a type and two labels. -/
def hostConfig : Config :=
  { ResourceType := "host", Labels := [("zone", "zone-1"), ("cloud", "aws")] }

/-- A configuration with labels only. -/
def labelsOnlyConfig : Config :=
  { ResourceType := "", Labels := [("zone", "zone-1")] }

/-- A configuration with neither a type nor labels. -/
def emptyConfig : Config :=
  { ResourceType := "", Labels := [] }

/-- An incoming resource with a type and an initialised label map. -/
def vmResource : Resource :=
  { Type_ := "vm", Labels := some [("zone", "zone-9"), ("k8s", "pod")] }

/-- An incoming resource with a type and a `nil` label map. -/
def unlabelledResource : Resource :=
  { Type_ := "vm", Labels := none }

/-- A batch of three spans with `vmResource`. -/
def vmBatch : TraceData :=
  { Node := 1, Resource := some vmResource, Spans := [1, 2, 3], SourceFormat := "oc" }

/-- A next consumer that accepts every batch. -/
def acceptTraces (_ : TraceData) : Option String := none

end resourceprocessor

namespace jaegerreceiver

/-! ## Submission of Jaeger batches -/

/-- The type `jaeger.Batch`: an identifier and the spans. -/
structure Batch where
  id : Nat
  Spans : List Nat
deriving DecidableEq, Repr

/-- The type `consumerdata.TraceData` that the translator produces. -/
structure TraceData where
  Spans : List Nat
  SourceFormat : String
deriving DecidableEq, Repr

/-- The type `jaeger.BatchSubmitResponse`. -/
structure BatchSubmitResponse where
  Ok : Bool
deriving DecidableEq, Repr

/-- What `consumeTraceData` did: the responses and the error it returned, the
batches it gave to the consumer, and the pairs of numbers it gave to
`RecordMetricsForTraceReceiver`, each in order. -/
structure Reception where
  jbsr : List BatchSubmitResponse
  err : Option String
  consumed : List TraceData
  recorded : List (Int × Int)
deriving DecidableEq, Repr

/-- The loop of `consumeTraceData`. The translator
`jaegertranslator.ThriftBatchToOCProto` and the consumer are parameters; what
the consumer returns is dropped. -/
def consumeLoop (ThriftBatchToOCProto : Batch → Except String TraceData)
    (consumer : TraceData → Option String) : List Batch → Reception → Reception
  | [], r => r
  | batch :: rest, r =>
    match ThriftBatchToOCProto batch with
    | Except.ok td =>
      let td1 := { td with SourceFormat := "jaeger" }
      let _ := consumer td1
      -- We MUST unconditionally record metrics from this reception.
      consumeLoop ThriftBatchToOCProto consumer rest
        { r with
          jbsr := r.jbsr ++ [{ Ok := true }]
          consumed := r.consumed ++ [td1]
          recorded := r.recorded ++
            [((batch.Spans.length : Int), (batch.Spans.length : Int) - (td.Spans.length : Int))] }
    | Except.error _ =>
      consumeLoop ThriftBatchToOCProto consumer rest { r with jbsr := r.jbsr ++ [{ Ok := false }] }

/-- The function `consumeTraceData`. -/
def consumeTraceData (ThriftBatchToOCProto : Batch → Except String TraceData)
    (consumer : TraceData → Option String) (batches : List Batch) : Reception :=
  consumeLoop ThriftBatchToOCProto consumer batches
    { jbsr := [], err := none, consumed := [], recorded := [] }

/-! ### Concrete inputs -/

/-- A translator that fails on a batch without spans. -/
def strictTranslator (batch : Batch) : Except String TraceData :=
  if batch.Spans.length = 0 then Except.error "empty batch"
  else Except.ok { Spans := batch.Spans, SourceFormat := "" }

/-- A consumer that refuses every batch. -/
def refusingConsumer (_ : TraceData) : Option String := some "refused"

/-- Three batches, the second without spans. -/
def threeBatches : List Batch :=
  [{ id := 1, Spans := [1, 2] }, { id := 2, Spans := [] }, { id := 3, Spans := [3] }]

end jaegerreceiver
namespace otlpexporter

/-! ## Facts about the retry loop -/

/-- C1: `shouldRetry` answers true for exactly the nine codes Canceled,
DeadlineExceeded, PermissionDenied, Unauthenticated, ResourceExhausted,
Aborted, OutOfRange, Unavailable and DataLoss, and false for every other
code: OK, Unknown, the other declared codes and every number outside the
enumeration. -/
theorem shouldRetry_exactly_nine_codes (code : Code) :
    (shouldRetry code = true ↔
      code ∈ [codes.Canceled, codes.DeadlineExceeded, codes.PermissionDenied,
        codes.Unauthenticated, codes.ResourceExhausted, codes.Aborted, codes.OutOfRange,
        codes.Unavailable, codes.DataLoss]) ∧
    (shouldRetry code = false ↔
      code ∉ [codes.Canceled, codes.DeadlineExceeded, codes.PermissionDenied,
        codes.Unauthenticated, codes.ResourceExhausted, codes.Aborted, codes.OutOfRange,
        codes.Unavailable, codes.DataLoss]) ∧
    shouldRetry codes.OK = false ∧ shouldRetry codes.Unknown = false ∧
    shouldRetry (code + 17) = false := by
  have key : shouldRetry code = true ↔
      code ∈ [codes.Canceled, codes.DeadlineExceeded, codes.PermissionDenied,
        codes.Unauthenticated, codes.ResourceExhausted, codes.Aborted, codes.OutOfRange,
        codes.Unavailable, codes.DataLoss] := by
    unfold shouldRetry
    simp only [codes.OK, codes.Canceled, codes.DeadlineExceeded, codes.PermissionDenied,
      codes.Unauthenticated, codes.ResourceExhausted, codes.Aborted, codes.OutOfRange,
      codes.Unavailable, codes.DataLoss, List.mem_cons, List.mem_singleton, List.not_mem_nil,
      or_false]
    split_ifs with h0 h1 h2
    · subst h0; decide
    · simp only [true_iff]; exact h1
    · simp only [false_iff, Bool.false_eq_true]; exact h1
    · simp only [false_iff, Bool.false_eq_true]; exact h1
  refine ⟨key, ?_, by decide, by decide, ?_⟩
  · rw [← key]; cases shouldRetry code <;> simp
  · unfold shouldRetry
    simp [codes.OK, codes.Canceled, codes.DeadlineExceeded, codes.PermissionDenied,
      codes.Unauthenticated, codes.ResourceExhausted, codes.Aborted, codes.OutOfRange,
      codes.Unavailable, codes.DataLoss]

/-- A retryable code is not `OK`. -/
theorem code_ne_OK_of_shouldRetry {code : Code} (h : shouldRetry code = true) :
    code ≠ codes.OK := by
  intro h0
  subst h0
  exact absurd h (by decide)

/-- An attempt whose status code is retryable returned a non-nil error. -/
theorem perform_isSome_of_shouldRetry {r : Option PerformError}
    (h : shouldRetry (Convert r).code = true) : ∃ err, r = some err := by
  cases r with
  | none => exact absurd h (by decide)
  | some err => exact ⟨err, rfl⟩

/-- A call of `perform` that failed with a retryable code returned a non-nil
error with that code. -/
theorem returned_of_failsRetryable {env : Env} {i : Nat} (h : env.failsRetryable i = true) :
    ∃ err, env.perform i = PerformResult.returned (some err) ∧
      shouldRetry (Convert (some err)).code = true := by
  unfold Env.failsRetryable at h
  cases hp : env.perform i with
  | panicked => simp [hp] at h
  | returned r =>
    simp only [hp] at h
    obtain ⟨err, rfl⟩ := perform_isSome_of_shouldRetry h
    exact ⟨err, rfl, h⟩

/-- Every pass through the loop body calls `perform` exactly once. -/
theorem iteration_calls (env : Env) (b : ExponentialBackOff) (s : LoopState) :
    (∃ err s1, iteration env b s = Step.ret err s1 ∧ s1.calls = s.calls + 1) ∨
    (∃ s1, iteration env b s = Step.again s1 ∧ s1.calls = s.calls + 1) ∨
    (∃ s1, iteration env b s = Step.panic s1 ∧ s1.calls = s.calls + 1) := by
  unfold iteration waitSelect
  dsimp only
  repeat' split
  all_goals
    first
    | exact Or.inl ⟨_, _, rfl, rfl⟩
    | exact Or.inr (Or.inl ⟨_, rfl, rfl⟩)
    | exact Or.inr (Or.inr ⟨_, rfl, rfl⟩)

/-- The state at the start of pass `n` has seen `n` calls of `perform`. -/
theorem stateAt_calls (env : Env) (n : Nat) : (stateAt env n).calls = n := by
  induction n with
  | zero => rfl
  | succ n ih =>
    rcases iteration_calls env (newBackoff env) (stateAt env n) with
      ⟨err, s1, h1, h2⟩ | ⟨s1, h1, h2⟩ | ⟨s1, h1, h2⟩
    · simp only [stateAt, h1, h2, ih]
    · simp only [stateAt, h1, h2, ih]
    · simp only [stateAt, h1, h2, ih]

/-- Within the budget the backoff of `exportRequest` never answers `Stop`. -/
theorem NextBackOff_ne_Stop (env : Env) (calls : Nat) (elapsed : Int)
    (h : elapsed ≤ Minute * 15) : (newBackoff env).NextBackOff calls elapsed ≠ Stop := by
  unfold ExponentialBackOff.NextBackOff newBackoff Stop
  simp only
  rw [if_neg (by intro hc; exact absurd hc.2 (not_lt.mpr h))]
  omega

/-- Over the budget the backoff of `exportRequest` answers `Stop`. -/
theorem NextBackOff_eq_Stop (env : Env) (calls : Nat) (elapsed : Int)
    (h : Minute * 15 < elapsed) : (newBackoff env).NextBackOff calls elapsed = Stop := by
  unfold ExponentialBackOff.NextBackOff newBackoff
  simp only
  rw [if_pos ⟨by decide, h⟩]

/-- A pass whose attempt fails with a retryable code from whose status
`getThrottleDuration` returns, within the budget, and whose wait ends with the
timer, goes round again. -/
theorem iteration_again (env : Env) (s : LoopState)
    (hfail : env.failsRetryable s.calls = true)
    (hthrottle : env.throttleAt s.calls ≠ none)
    (hwake : env.wake s.calls = Wake.timer)
    (hbudget : ((s.clock + env.performTime s.calls : Nat) : Int) ≤ Minute * 15) :
    ∃ s1, iteration env (newBackoff env) s = Step.again s1 := by
  obtain ⟨err, herr, hcode⟩ := returned_of_failsRetryable hfail
  have hne := code_ne_OK_of_shouldRetry hcode
  simp only [Env.throttleAt, herr] at hthrottle
  obtain ⟨d, hd⟩ := Option.ne_none_iff_exists'.1 hthrottle
  unfold iteration
  simp only [herr, hne, hcode, hd, if_false, Bool.not_true, Bool.false_eq_true]
  split_ifs with h0 h1
  · exact absurd h1 (NextBackOff_ne_Stop env _ _ hbudget)
  · unfold waitSelect; simp only [hwake]; exact ⟨_, rfl⟩
  · unfold waitSelect; simp only [hwake]; exact ⟨_, rfl⟩

/-- While every pass goes round again, the loop from the start is the loop
from the state at pass `k` with `k` passes less to go. -/
theorem retryLoop_stateAt (env : Env) (k : Nat)
    (hagain : ∀ i, i < k → ∃ s1, iteration env (newBackoff env) (stateAt env i) = Step.again s1)
    (fuel : Nat) :
    retryLoop env (newBackoff env) (k + fuel) LoopState.init =
      retryLoop env (newBackoff env) fuel (stateAt env k) := by
  induction k generalizing fuel with
  | zero => simp [stateAt]
  | succ k ih =>
    have h1 := ih (fun i hi => hagain i (Nat.lt_succ_of_lt hi)) (fuel + 1)
    obtain ⟨s1, hs1⟩ := hagain k (Nat.lt_succ_self k)
    have h2 : k + 1 + fuel = k + (fuel + 1) := by omega
    rw [h2, h1]
    simp only [retryLoop, hs1, stateAt]

/-- The first `k` passes all go round again when each of their attempts fails
with a retryable code from whose status `getThrottleDuration` returns, within
the budget, and each wait ends with the timer. -/
theorem again_of_retryable (env : Env) (k : Nat)
    (hfail : ∀ i, i < k → env.failsRetryable i = true)
    (hthrottle : ∀ i, i < k → env.throttleAt i ≠ none)
    (hwake : ∀ i, i < k → env.wake i = Wake.timer)
    (hbudget : ∀ i, i < k →
      (((stateAt env i).clock + env.performTime i : Nat) : Int) ≤ Minute * 15) :
    ∀ i, i < k → ∃ s1, iteration env (newBackoff env) (stateAt env i) = Step.again s1 := by
  intro i hi
  have hc := stateAt_calls env i
  apply iteration_again
  · rw [hc]; exact hfail i hi
  · rw [hc]; exact hthrottle i hi
  · rw [hc]; exact hwake i hi
  · rw [hc]; exact hbudget i hi

end otlpexporter

namespace otlpexporter

/-! ## The claims about `exportRequest` and `stop` -/

/-- C2: when the first call of `perform` fails with a status code that is not
`OK` and that `shouldRetry` rejects, `exportRequest` returns `errFatalError`
after exactly one call of `perform`, with no wait and no call of
`NextBackOff`. -/
theorem exportRequest_fatal_after_one_call (e : exporterImp) (env : Env) (fuel : Nat)
    (err : PerformError) (hfirst : env.perform 0 = PerformResult.returned (some err))
    (hcode : (Convert (some err)).code ≠ codes.OK)
    (hfatal : shouldRetry (Convert (some err)).code = false) :
    exportRequest e env (fuel + 1) =
      some { exit := Exit.returned (some ExporterError.errFatalError)
             state := { calls := 1, backoffCalls := 0, clock := env.performTime 0, waits := [] } } := by
  simp [exportRequest, retryLoop, iteration, LoopState.init, hfirst, hcode, hfatal]

/-- The witness of C2: an endpoint that answers `InvalidArgument`. -/
theorem exportRequest_fatal_after_one_call_witness :
    exportRequest connectedExporter invalidArgumentEnv (4 + 1) =
      some { exit := Exit.returned (some ExporterError.errFatalError)
             state := { calls := 1, backoffCalls := 0,
                        clock := invalidArgumentEnv.performTime 0, waits := [] } } :=
  exportRequest_fatal_after_one_call connectedExporter invalidArgumentEnv 4
    (PerformError.grpc { code := codes.InvalidArgument, details := [] }) rfl
    (by decide) (by decide)

/-- When `perform` fails with a retryable code on its first `k` calls, each
time with a status from which `getThrottleDuration` returns, and succeeds on
call `k + 1` (a nil error, or a status whose code is `OK`), every wait ends
with its timer, and the budget is not exhausted when an attempt fails,
`exportRequest` returns nil after exactly `k + 1` calls of `perform`. -/
theorem exportRequest_succeeds_after_retries (e : exporterImp) (env : Env) (k fuel : Nat)
    (hfail : ∀ i, i < k → env.failsRetryable i = true)
    (hthrottle : ∀ i, i < k → env.throttleAt i ≠ none)
    (hok : env.perform k = PerformResult.returned none ∨
      ∃ s, env.perform k = PerformResult.returned (some (PerformError.grpc s)) ∧
        s.code = codes.OK)
    (hwake : ∀ i, i < k → env.wake i = Wake.timer)
    (hbudget : ∀ i, i < k →
      (((stateAt env i).clock + env.performTime i : Nat) : Int) ≤ Minute * 15)
    (hfuel : k < fuel) :
    ∃ o, exportRequest e env fuel = some o ∧ o.exit = Exit.returned none ∧
      o.state.calls = k + 1 := by
  obtain ⟨n, rfl⟩ : ∃ n, fuel = k + (n + 1) := ⟨fuel - k - 1, by omega⟩
  have hloop := retryLoop_stateAt env k
    (again_of_retryable env k hfail hthrottle hwake hbudget) (n + 1)
  have hc := stateAt_calls env k
  unfold exportRequest
  rw [hloop]
  rcases hok with hnil | ⟨s, hs, hcode⟩
  · simp [retryLoop, iteration, hc, hnil]
  · simp [retryLoop, iteration, hc, hs, Convert, hcode, if_true]

/-- The scenario of the specification: `Unavailable` twice, then success,
gives three calls. -/
theorem exportRequest_three_attempts :
    ∃ o, exportRequest connectedExporter unavailableTwiceEnv 3 = some o ∧
      o.exit = Exit.returned none ∧ o.state.calls = 2 + 1 :=
  exportRequest_succeeds_after_retries connectedExporter unavailableTwiceEnv 2 3
    (by decide) (by decide) (Or.inl rfl) (by decide) (by decide) (by decide)

/-- C3, at the failing input: the first call of `perform` fails with
`Unavailable`, a retryable code, and its status carries a `RetryInfo` detail
whose `RetryDelay` is `nil`; the second call would succeed and every wait
would end with its timer. `getThrottleDuration` reads `t.RetryDelay.Seconds`
through the `nil` pointer: `exportRequest` ends in a panic after one call of
`perform` and does not return nil after two. -/
theorem exportRequest_panics_on_nil_RetryDelay (fuel : Nat) :
    emptyRetryInfoEnv.failsRetryable 0 = true ∧
    emptyRetryInfoEnv.perform 1 = PerformResult.returned none ∧
    emptyRetryInfoEnv.wake 0 = Wake.timer ∧
    getThrottleDuration (Convert (emptyRetryInfoError codes.Unavailable)) = none ∧
    exportRequest connectedExporter emptyRetryInfoEnv (fuel + 1) =
      some { exit := Exit.panicked
             state := { calls := 1, backoffCalls := 0, clock := 1000000, waits := [] } } := by
  refine ⟨by decide, by decide, by decide, by decide, ?_⟩
  rfl

/-- C4, at the failing inputs. A retryable failure whose `RetryInfo` has
`Seconds = -1` and `Nanos = 5` carries no positive delay, yet
`getThrottleDuration` answers -999999995 nanoseconds: `exportRequest` hands
that duration to the timer and makes the second call without a call of
`NextBackOff`. A `RetryInfo` with `Seconds = 9223372037` carries a positive
delay, yet the sum wraps in `int64` and the duration handed to the timer is
negative. -/
theorem exportRequest_negative_delay_skips_backoff :
    (Duration.mk (-1) 5).inRange ∧
    getThrottleDuration (Convert (throttleError codes.Unavailable (-1) 5)) =
      some (-999999995) ∧
    exportRequest connectedExporter negativeDelayEnv 2 =
      some { exit := Exit.returned none
             state := { calls := 2, backoffCalls := 0, clock := 2000000,
                        waits := [-999999995] } } ∧
    (Duration.mk 9223372037 0).inRange ∧
    getThrottleDuration (Convert (throttleError codes.Unavailable 9223372037 0)) =
      some (-9223372036709551616) ∧
    exportRequest connectedExporter overflowDelayEnv 2 =
      some { exit := Exit.returned none
             state := { calls := 2, backoffCalls := 0, clock := 2000000,
                        waits := [-9223372036709551616] } } := by
  refine ⟨?_, ?_, ?_, ?_, ?_, ?_⟩ <;> decide

/-- C5, the counterexample: the error returned when the context is done during
the wait is `errTimeout`, the same value as the one returned when the budget
is exhausted. -/
theorem exportRequest_cancelled_returns_errTimeout :
    (exportRequest connectedExporter cancelledEnv 1).map Outcome.exit =
      some (Exit.returned (some ExporterError.errTimeout)) ∧
    (exportRequest connectedExporter exhaustedEnv 1).map Outcome.exit =
      some (Exit.returned (some ExporterError.errTimeout)) ∧
    (exportRequest connectedExporter cancelledEnv 1).map Outcome.exit =
      (exportRequest connectedExporter exhaustedEnv 1).map Outcome.exit := by
  refine ⟨?_, ?_, ?_⟩ <;> decide

/-- C5 as amended: after `k` retried attempts, when attempt `k + 1` fails with
a retryable code and `getThrottleDuration` returns the duration `d` for its
status (as it did for the attempts before), then (1) with `d = 0` and the
budget exhausted `exportRequest` returns `errTimeout`; otherwise it waits, and
(2) when the context is done during the wait it returns `errTimeout` as well,
(3) when the stop signal fires during the wait it returns `errStopped`. -/
theorem exportRequest_wait_interrupted (e : exporterImp) (env : Env) (k fuel : Nat) (d : Int)
    (hfail : ∀ i, i < k + 1 → env.failsRetryable i = true)
    (hthrottle : ∀ i, i < k → env.throttleAt i ≠ none)
    (hd : env.throttleAt k = some d)
    (hwake : ∀ i, i < k → env.wake i = Wake.timer)
    (hbudget : ∀ i, i < k →
      (((stateAt env i).clock + env.performTime i : Nat) : Int) ≤ Minute * 15)
    (hfuel : k < fuel) :
    ((d = 0 ∧ Minute * 15 < (((stateAt env k).clock + env.performTime k : Nat) : Int)) →
      ∃ o, exportRequest e env fuel = some o ∧
        o.exit = Exit.returned (some ExporterError.errTimeout) ∧ o.state.calls = k + 1) ∧
    (¬ (d = 0 ∧ Minute * 15 < (((stateAt env k).clock + env.performTime k : Nat) : Int)) →
      (env.wake k = Wake.ctxDone →
        ∃ o, exportRequest e env fuel = some o ∧
          o.exit = Exit.returned (some ExporterError.errTimeout) ∧ o.state.calls = k + 1) ∧
      (env.wake k = Wake.stopCh →
        ∃ o, exportRequest e env fuel = some o ∧
          o.exit = Exit.returned (some ExporterError.errStopped) ∧ o.state.calls = k + 1)) := by
  obtain ⟨n, rfl⟩ : ∃ n, fuel = k + (n + 1) := ⟨fuel - k - 1, by omega⟩
  have hloop := retryLoop_stateAt env k
    (again_of_retryable env k (fun i hi => hfail i (Nat.lt_succ_of_lt hi)) hthrottle hwake
      hbudget) (n + 1)
  have hc := stateAt_calls env k
  obtain ⟨err, herr, hk⟩ := returned_of_failsRetryable (hfail k (Nat.lt_succ_self k))
  have hne := code_ne_OK_of_shouldRetry hk
  have hthr : getThrottleDuration (Convert (some err)) = some d := by
    simpa [Env.throttleAt, herr] using hd
  unfold exportRequest
  rw [hloop]
  refine ⟨?_, ?_⟩
  · rintro ⟨hzero, hover⟩
    subst hzero
    have hstop := NextBackOff_eq_Stop env (stateAt env k).backoffCalls _ hover
    rw [Nat.cast_add] at hstop
    simp [retryLoop, iteration, hc, herr, hne, hk, hthr, hstop, if_true, if_false,
        Bool.not_true, Bool.false_eq_true]
  · intro hnot
    by_cases hzero : d = 0
    · subst hzero
      have hin : (((stateAt env k).clock + env.performTime k : Nat) : Int) ≤ Minute * 15 :=
        not_lt.mp (fun h => hnot ⟨rfl, h⟩)
      have hns := NextBackOff_ne_Stop env (stateAt env k).backoffCalls _ hin
      rw [Nat.cast_add] at hns
      constructor
      · intro hw
        simp [retryLoop, iteration, waitSelect, hc, herr, hne, hk, hthr, hns, hw,
            if_true, if_false, Bool.not_true, Bool.false_eq_true]
      · intro hw
        simp [retryLoop, iteration, waitSelect, hc, herr, hne, hk, hthr, hns, hw,
            if_true, if_false, Bool.not_true, Bool.false_eq_true]
    · constructor
      · intro hw
        simp [retryLoop, iteration, waitSelect, hc, herr, hne, hk, hthr, hzero, hw,
            if_false, Bool.not_true, Bool.false_eq_true]
      · intro hw
        simp [retryLoop, iteration, waitSelect, hc, herr, hne, hk, hthr, hzero, hw,
            if_false, Bool.not_true, Bool.false_eq_true]

/-- The witness of C5 as amended: the context is done during the first wait. -/
theorem exportRequest_wait_interrupted_witness :
    ∃ o, exportRequest connectedExporter cancelledEnv 1 = some o ∧
      o.exit = Exit.returned (some ExporterError.errTimeout) ∧ o.state.calls = 0 + 1 :=
  ((exportRequest_wait_interrupted connectedExporter cancelledEnv 0 1 0
    (by decide) (by decide) (by decide) (by decide) (by decide) (by decide)).2
      (by decide)).1 (by decide)

end otlpexporter

namespace otlpexporter

/-- On `throttledEnv` every pass goes round again, whatever the clock says. -/
theorem iteration_throttledEnv (s : LoopState) :
    iteration throttledEnv (newBackoff throttledEnv) s =
      Step.again { calls := s.calls + 1, backoffCalls := s.backoffCalls,
                   clock := s.clock + 1000000 + 600000000000,
                   waits := s.waits ++ [600000000000] } := by
  have hthr : getThrottleDuration (Convert (throttleError codes.Unavailable 600 0)) =
      some 600000000000 := by decide
  have hcode : (Convert (throttleError codes.Unavailable 600 0)).code = codes.Unavailable := rfl
  have hperf : throttledEnv.perform s.calls =
      PerformResult.returned (throttleError codes.Unavailable 600 0) := rfl
  have hsome : throttleError codes.Unavailable 600 0 = some (PerformError.grpc
      { code := codes.Unavailable
        details := [Detail.RetryInfo (some { Seconds := 600, Nanos := 0 })] }) := rfl
  unfold iteration
  simp only [hperf]
  rw [hsome]
  simp only [← hsome, hthr, hcode]
  simp [waitSelect, throttledEnv, okEnv, shouldRetry, codes.Unavailable, codes.OK,
    codes.Canceled, codes.DeadlineExceeded, codes.PermissionDenied, codes.Unauthenticated,
    codes.ResourceExhausted, codes.Aborted, codes.OutOfRange, codes.DataLoss]

/-- On `throttledEnv` the loop never returns. -/
theorem retryLoop_throttledEnv (fuel : Nat) (s : LoopState) :
    retryLoop throttledEnv (newBackoff throttledEnv) fuel s = none := by
  induction fuel generalizing s with
  | zero => rfl
  | succ n ih => simp only [retryLoop, iteration_throttledEnv, ih]

/-- C6, at the failing input: when every failure carries a throttle hint of
ten minutes, the clock is past the 15 minute budget after two waits, every
later pass still waits again instead of returning `errTimeout`, and
`exportRequest` does not return within any number of passes. -/
theorem exportRequest_throttled_never_times_out (fuel : Nat) (s : LoopState) :
    Minute * 15 < ((stateAt throttledEnv 2).clock : Int) ∧
    (∃ s1, iteration throttledEnv (newBackoff throttledEnv) s = Step.again s1 ∧
      s1.backoffCalls = s.backoffCalls ∧ s1.clock = s.clock + 1000000 + 600000000000) ∧
    exportRequest connectedExporter throttledEnv fuel = none := by
  refine ⟨by decide, ⟨_, iteration_throttledEnv s, rfl, rfl⟩, ?_⟩
  exact retryLoop_throttledEnv fuel LoopState.init

/-- A loop that has ended has called `perform` at least once more. -/
theorem retryLoop_calls (env : Env) (b : ExponentialBackOff) (fuel : Nat) (s : LoopState)
    (o : Outcome) (h : retryLoop env b fuel s = some o) : s.calls + 1 ≤ o.state.calls := by
  induction fuel generalizing s with
  | zero => simp [retryLoop] at h
  | succ n ih =>
    rcases iteration_calls env b s with ⟨err, s1, h1, h2⟩ | ⟨s1, h1, h2⟩ | ⟨s1, h1, h2⟩
    · simp only [retryLoop, h1, Option.some.injEq] at h
      subst h
      simp [h2]
    · simp only [retryLoop, h1] at h
      have := ih s1 h
      omega
    · simp only [retryLoop, h1, Option.some.injEq] at h
      subst h
      simp [h2]

/-- With a client in the field the function handed to `exportRequest` is the
RPC. -/
theorem clientExport_some (client : Nat) (Export : Nat → PerformResult) :
    clientExport (some client) Export = Export := by
  funext i
  rfl

/-- With a `nil` client the first call of the function handed to
`exportRequest` panics: the loop ends there, after one call and no RPC. -/
theorem exportRequest_nil_client (e : exporterImp) (env : Env) (fuel : Nat) :
    exportRequest e { env with perform := clientExport none env.perform } (fuel + 1) =
      some { exit := Exit.panicked
             state := { calls := 1, backoffCalls := 0, clock := env.performTime 0,
                        waits := [] } } := by
  simp [exportRequest, retryLoop, iteration, LoopState.init, clientExport]

/-- C7, the counterexample: on an exporter in the disconnected state whose
client fields hold the clients of an earlier connection, `exportTrace` and
`exportMetrics` call `perform`, which makes the RPC, and return its nil
result. -/
theorem exportTrace_disconnected_calls_perform :
    disconnectedExporter.disconnected = true ∧
    exportTrace disconnectedExporter okEnv 1 =
      some { exit := Exit.returned none
             state := { calls := 1, backoffCalls := 0, clock := 1000000, waits := [] } } ∧
    exportMetrics disconnectedExporter okEnv 1 =
      some { exit := Exit.returned none
             state := { calls := 1, backoffCalls := 0, clock := 1000000, waits := [] } } := by
  refine ⟨?_, ?_, ?_⟩ <;> decide

/-- C7 as amended: `exportTrace` and `exportMetrics` read the client field of
the exporter and not its connection state. With a client in the field they do
what `exportRequest` does with the RPC as `perform`, in the disconnected state
as in the connected one; whenever the call ends, `perform` was called at least
once. With a `nil` client (no `connect` has stored one) the first call of
`perform` panics, and no error is returned. -/
theorem exportTrace_ignores_connection_state (e : exporterImp) (env : Env) (fuel : Nat)
    (state : Option String) :
    exportTrace { e with lastConnectErr := state } env fuel = exportTrace e env fuel ∧
    exportMetrics { e with lastConnectErr := state } env fuel = exportMetrics e env fuel ∧
    (e.traceExporter ≠ none → exportTrace e env fuel = exportRequest e env fuel) ∧
    (e.metricExporter ≠ none → exportMetrics e env fuel = exportRequest e env fuel) ∧
    (∀ o, exportTrace e env fuel = some o → 1 ≤ o.state.calls) ∧
    (∀ o, exportMetrics e env fuel = some o → 1 ≤ o.state.calls) ∧
    (e.traceExporter = none →
      exportTrace e env (fuel + 1) =
        some { exit := Exit.panicked
               state := { calls := 1, backoffCalls := 0, clock := env.performTime 0,
                          waits := [] } }) ∧
    (e.metricExporter = none →
      exportMetrics e env (fuel + 1) =
        some { exit := Exit.panicked
               state := { calls := 1, backoffCalls := 0, clock := env.performTime 0,
                          waits := [] } }) := by
  refine ⟨rfl, rfl, ?_, ?_, ?_, ?_, ?_, ?_⟩
  · intro h
    obtain ⟨c, hc⟩ := Option.ne_none_iff_exists'.1 h
    unfold exportTrace
    rw [hc, clientExport_some]
  · intro h
    obtain ⟨c, hc⟩ := Option.ne_none_iff_exists'.1 h
    unfold exportMetrics
    rw [hc, clientExport_some]
  · intro o h
    have := retryLoop_calls _ _ fuel LoopState.init o h
    simp only [LoopState.init] at this
    omega
  · intro o h
    have := retryLoop_calls _ _ fuel LoopState.init o h
    simp only [LoopState.init] at this
    omega
  · intro h
    unfold exportTrace
    rw [h]
    exact exportRequest_nil_client e env fuel
  · intro h
    unfold exportMetrics
    rw [h]
    exact exportRequest_nil_client e env fuel

/-- The two cases of C7 as amended on concrete exporters: in the disconnected
state with the clients of an earlier connection the RPC is made; on an
exporter none of whose connection attempts has succeeded the call panics. -/
theorem exportTrace_replay :
    exportTrace disconnectedExporter okEnv 1 = exportTrace connectedExporter okEnv 1 ∧
    neverConnectedExporter.disconnected = true ∧
    exportTrace neverConnectedExporter okEnv 1 =
      some { exit := Exit.panicked
             state := { calls := 1, backoffCalls := 0, clock := 1000000, waits := [] } } ∧
    exportMetrics neverConnectedExporter okEnv 1 =
      some { exit := Exit.panicked
             state := { calls := 1, backoffCalls := 0, clock := 1000000, waits := [] } } := by
  refine ⟨?_, ?_, ?_, ?_⟩ <;> decide

/-- After its first call `stop` has run its body. -/
theorem stop_stopOnceDone (e : exporterImp) : e.stop.2.stopOnceDone = true := by
  unfold exporterImp.stop
  dsimp only
  split_ifs with h1
  · exact h1
  · rfl
  · rfl

/-- Once the body of `stop` has run, any number of calls changes nothing. -/
theorem stopTimes_of_done (n : Nat) (e : exporterImp) (h : e.stopOnceDone = true) :
    exporterImp.stopTimes n e = e := by
  induction n with
  | zero => rfl
  | succ n ih =>
    have h1 : e.stop = (none, e) := by unfold exporterImp.stop; rw [if_pos h]
    simp only [exporterImp.stopTimes, h1, ih]

/-- C8: `stop` is idempotent. Every call returns nil; a call after the first
changes nothing, so that any number of calls leaves the exporter as the first
call left it; the first call on a started exporter closes the stop channel
once and waits for the background worker once; a call on an exporter that
was never started neither closes the channel nor waits. -/
theorem stop_idempotent (e : exporterImp) (n : Nat) :
    e.stop.1 = none ∧
    (exporterImp.stopTimes n e).stop.1 = none ∧
    e.stop.2.stop = (none, e.stop.2) ∧
    exporterImp.stopTimes (n + 1) e = e.stop.2 ∧
    (e.stopOnceDone = true → e.stop = (none, e)) ∧
    (e.stopOnceDone = false → e.started = true →
      e.stop.2.stopChCloses = e.stopChCloses + 1 ∧ e.stop.2.workerWaits = e.workerWaits + 1) ∧
    (e.started = false →
      e.stop.2.stopChCloses = e.stopChCloses ∧ e.stop.2.workerWaits = e.workerWaits) := by
  have hnil : ∀ x : exporterImp, x.stop.1 = none := by
    intro x
    unfold exporterImp.stop
    dsimp only
    split_ifs <;> rfl
  have hdone : ∀ x : exporterImp, x.stopOnceDone = true → x.stop = (none, x) := by
    intro x hx
    unfold exporterImp.stop
    rw [if_pos hx]
  refine ⟨hnil e, hnil _, hdone _ (stop_stopOnceDone e), ?_, hdone e, ?_, ?_⟩
  · simp only [exporterImp.stopTimes]
    exact stopTimes_of_done n _ (stop_stopOnceDone e)
  · intro h1 h2
    unfold exporterImp.stop
    simp [h1, h2]
  · intro h2
    unfold exporterImp.stop
    split_ifs <;> simp_all

/-- The witness of C8: three calls of `stop` on a started exporter close the
stop channel once and wait once; on an exporter that was never started they
do neither. -/
theorem stop_idempotent_witness :
    (exporterImp.stopTimes 3 connectedExporter).stopChCloses = 1 ∧
    (exporterImp.stopTimes 3 connectedExporter).workerWaits = 1 ∧
    (exporterImp.stopTimes 3 freshExporter).stopChCloses = 0 ∧
    (exporterImp.stopTimes 3 freshExporter).workerWaits = 0 := by
  have h1 := (stop_idempotent connectedExporter 2).2.2.2.1
  have h2 := (stop_idempotent freshExporter 2).2.2.2.1
  rw [h1, h2]
  decide

end otlpexporter

namespace builder

/-! ## Facts about the receivers builder -/

/-- The loop of `hasReceiver` finds a name exactly when it is in the list. -/
theorem hasReceiverLoop_iff (receiverName : String) (names : List String) :
    hasReceiverLoop receiverName names = true ↔ receiverName ∈ names := by
  induction names with
  | nil => simp [hasReceiverLoop]
  | cons name rest ih =>
    unfold hasReceiverLoop
    by_cases h : name = receiverName
    · simp [h]
    · have h1 : ¬ receiverName = name := fun h2 => h h2.symm
      simp [h, h1, ih]

/-- The function `hasReceiver` answers true exactly for the names in the
receivers list of the pipeline. -/
theorem hasReceiver_iff (pipeline : Pipeline) (receiverName : String) :
    hasReceiver pipeline receiverName = true ↔ receiverName ∈ pipeline.Receivers :=
  hasReceiverLoop_iff receiverName pipeline.Receivers

/-- An entry of the map after a write is the written one or an old one. -/
theorem attachedPipelines_mem_set (m : attachedPipelines) (k : DataType)
    (v : List builtPipeline) (e : DataType × List builtPipeline)
    (h : e ∈ attachedPipelines.set m k v) : e = (k, v) ∨ e ∈ m := by
  induction m with
  | nil =>
    simp only [attachedPipelines.set, List.mem_singleton] at h
    exact Or.inl h
  | cons x rest ih =>
    unfold attachedPipelines.set at h
    split_ifs at h with hx
    · rcases List.mem_cons.mp h with h1 | h1
      · exact Or.inl h1
      · exact Or.inr (List.mem_cons_of_mem _ h1)
    · rcases List.mem_cons.mp h with h1 | h1
      · exact Or.inr (h1 ▸ List.mem_cons_self _ _)
      · rcases ih h1 with h2 | h2
        · exact Or.inl h2
        · exact Or.inr (List.mem_cons_of_mem _ h2)

/-- The written entry is in the map after the write. -/
theorem attachedPipelines_set_mem (m : attachedPipelines) (k : DataType)
    (v : List builtPipeline) : (k, v) ∈ attachedPipelines.set m k v := by
  induction m with
  | nil => simp [attachedPipelines.set]
  | cons x rest ih =>
    unfold attachedPipelines.set
    split_ifs with hx
    · exact List.mem_cons_self _ _
    · exact List.mem_cons_of_mem _ ih

/-- An entry of another key stays in the map after a write. -/
theorem attachedPipelines_mem_set_of_ne (m : attachedPipelines) (k : DataType)
    (v : List builtPipeline) (e : DataType × List builtPipeline) (h : e ∈ m) (hk : e.1 ≠ k) :
    e ∈ attachedPipelines.set m k v := by
  induction m with
  | nil => simp at h
  | cons x rest ih =>
    unfold attachedPipelines.set
    rcases List.mem_cons.mp h with h1 | h1
    · subst h1
      rw [if_neg hk]
      exact List.mem_cons_self _ _
    · split_ifs with hx
      · exact List.mem_cons_of_mem _ h1
      · exact List.mem_cons_of_mem _ (ih h1)

/-- A non-empty entry of the map that `findPipelinesToAttach` returns was
non-empty at the start or comes from a pipeline of its data type that lists
the receiver. -/
theorem findPipelinesLoop_entry (rb : ReceiversBuilder) (config : Receiver)
    (ps : List Pipeline) (acc m : attachedPipelines)
    (h : findPipelinesLoop rb config ps acc = Except.ok m)
    (d : DataType) (l : List builtPipeline) (hmem : (d, l) ∈ m) (hl : l ≠ []) :
    (∃ l1, (d, l1) ∈ acc ∧ l1 ≠ []) ∨
      ∃ p, p ∈ ps ∧ config.Name ∈ p.Receivers ∧ p.InputType = d := by
  induction ps generalizing acc with
  | nil =>
    simp only [findPipelinesLoop, Except.ok.injEq] at h
    subst h
    exact Or.inl ⟨l, hmem, hl⟩
  | cons p rest ih =>
    unfold findPipelinesLoop at h
    cases hb : rb.builtPipelines p with
    | none => simp [hb] at h
    | some bp =>
      simp only [hb] at h
      by_cases hr : hasReceiver p config.Name = true
      · rw [if_pos hr] at h
        rcases ih _ h with ⟨l1, h1, h2⟩ | ⟨q, hq, hq1, hq2⟩
        · rcases attachedPipelines_mem_set _ _ _ _ h1 with h3 | h3
          · have hd : d = p.InputType := (Prod.mk.inj h3).1
            exact Or.inr ⟨p, List.mem_cons_self _ _, (hasReceiver_iff _ _).mp hr, hd.symm⟩
          · exact Or.inl ⟨l1, h3, h2⟩
        · exact Or.inr ⟨q, List.mem_cons_of_mem _ hq, hq1, hq2⟩
      · rw [if_neg hr] at h
        rcases ih _ h with h1 | ⟨q, hq, hq1, hq2⟩
        · exact Or.inl h1
        · exact Or.inr ⟨q, List.mem_cons_of_mem _ hq, hq1, hq2⟩

/-- A data type that had a non-empty entry or that has a pipeline listing the
receiver has a non-empty entry in the map that `findPipelinesToAttach`
returns. -/
theorem findPipelinesLoop_nonempty (rb : ReceiversBuilder) (config : Receiver)
    (ps : List Pipeline) (acc m : attachedPipelines)
    (h : findPipelinesLoop rb config ps acc = Except.ok m) (d : DataType)
    (hd : (∃ l1, (d, l1) ∈ acc ∧ l1 ≠ []) ∨
      ∃ p, p ∈ ps ∧ config.Name ∈ p.Receivers ∧ p.InputType = d) :
    ∃ l, (d, l) ∈ m ∧ l ≠ [] := by
  induction ps generalizing acc with
  | nil =>
    simp only [findPipelinesLoop, Except.ok.injEq] at h
    subst h
    rcases hd with h1 | ⟨p, hp, _⟩
    · exact h1
    · simp at hp
  | cons p rest ih =>
    unfold findPipelinesLoop at h
    cases hb : rb.builtPipelines p with
    | none => simp [hb] at h
    | some bp =>
      simp only [hb] at h
      by_cases hr : hasReceiver p config.Name = true
      · rw [if_pos hr] at h
        apply ih _ h
        by_cases hk : d = p.InputType
        · subst hk
          exact Or.inl ⟨_, attachedPipelines_set_mem _ _ _, by simp⟩
        · rcases hd with ⟨l1, h1, h2⟩ | ⟨q, hq, hq1, hq2⟩
          · exact Or.inl ⟨l1, attachedPipelines_mem_set_of_ne _ _ _ _ h1 hk, h2⟩
          · rcases List.mem_cons.mp hq with h3 | h3
            · subst h3; exact absurd hq2.symm hk
            · exact Or.inr ⟨q, h3, hq1, hq2⟩
      · rw [if_neg hr] at h
        apply ih _ h
        rcases hd with h1 | ⟨q, hq, hq1, hq2⟩
        · exact Or.inl h1
        · rcases List.mem_cons.mp hq with h3 | h3
          · subst h3; exact absurd ((hasReceiver_iff _ _).mpr hq1) hr
          · exact Or.inr ⟨q, h3, hq1, hq2⟩

/-- The errors of `findPipelinesToAttach` are never `errUnusedReceiver`. -/
theorem findPipelinesLoop_error (rb : ReceiversBuilder) (config : Receiver)
    (ps : List Pipeline) (acc : attachedPipelines) (err : BuildError)
    (h : findPipelinesLoop rb config ps acc = Except.error err) :
    err ≠ BuildError.errUnusedReceiver := by
  induction ps generalizing acc with
  | nil => simp [findPipelinesLoop] at h
  | cons p rest ih =>
    unfold findPipelinesLoop at h
    cases hb : rb.builtPipelines p with
    | none =>
      simp only [hb, Except.error.injEq] at h
      subst h
      simp
    | some bp =>
      simp only [hb] at h
      split_ifs at h
      · exact ih _ h
      · exact ih _ h

/-- When every pipeline is built and none lists the receiver,
`findPipelinesToAttach` returns the map it started with. -/
theorem findPipelinesLoop_unused (rb : ReceiversBuilder) (config : Receiver)
    (ps : List Pipeline) (acc : attachedPipelines)
    (hbuilt : ∀ p, p ∈ ps → (rb.builtPipelines p).isSome = true)
    (hunused : ∀ p, p ∈ ps → config.Name ∉ p.Receivers) :
    findPipelinesLoop rb config ps acc = Except.ok acc := by
  induction ps generalizing acc with
  | nil => rfl
  | cons p rest ih =>
    unfold findPipelinesLoop
    obtain ⟨bp, hbp⟩ := Option.isSome_iff_exists.mp (hbuilt p (List.mem_cons_self _ _))
    have hr : ¬ hasReceiver p config.Name = true := fun h =>
      hunused p (List.mem_cons_self _ _) ((hasReceiver_iff _ _).mp h)
    simp only [hbp, if_neg hr]
    exact ih acc (fun q hq => hbuilt q (List.mem_cons_of_mem _ hq))
      (fun q hq => hunused q (List.mem_cons_of_mem _ hq))

/-- A successful `attachReceiverToPipelines` was for traces or metrics and
leaves a receiver that is not nil. -/
theorem attachReceiverToPipelines_ok (rt : Runtime) (factory : ReceiverFactoryBase)
    (dataType : DataType) (config : Receiver) (rcv rcv1 : builtReceiver)
    (pipelines : List builtPipeline)
    (h : attachReceiverToPipelines rt factory dataType config rcv pipelines = Except.ok rcv1) :
    rcv1.receiver ≠ none ∧ (dataType = TracesDataType ∨ dataType = MetricsDataType) := by
  unfold attachReceiverToPipelines at h
  by_cases ht : dataType = TracesDataType
  · simp only [ht, if_true] at h
    refine ⟨?_, Or.inl ht⟩
    split at h
    · split_ifs at h
    · split at h
      · simp at h
      · split_ifs at h
        simp only [Except.ok.injEq] at h
        subst h
        simp
  · by_cases hm : dataType = MetricsDataType
    · simp only [ht, hm, if_true, if_false] at h
      refine ⟨?_, Or.inr hm⟩
      split at h
      · split_ifs at h
      · split at h
        · simp at h
        · split_ifs at h
          simp only [Except.ok.injEq] at h
          subst h
          simp
    · simp [ht, hm] at h

/-- The errors of `attachReceiverToPipelines` are never `errUnusedReceiver`. -/
theorem attachReceiverToPipelines_error (rt : Runtime) (factory : ReceiverFactoryBase)
    (dataType : DataType) (config : Receiver) (rcv : builtReceiver)
    (pipelines : List builtPipeline) (err : BuildError)
    (h : attachReceiverToPipelines rt factory dataType config rcv pipelines = Except.error err) :
    err ≠ BuildError.errUnusedReceiver := by
  unfold attachReceiverToPipelines at h
  simp only at h
  split at h
  · split_ifs at h <;> (simp only [Except.error.injEq] at h; subst h; simp)
  · split at h
    · simp only [Except.error.injEq] at h; subst h; simp
    · split_ifs at h
      simp only [Except.error.injEq] at h; subst h; simp

/-- A successful loop over the entries leaves a receiver that is not nil
exactly when it had one or some entry has pipelines; every entry with
pipelines is then for traces or metrics. -/
theorem attachLoop_ok (rt : Runtime) (factory : ReceiverFactoryBase) (config : Receiver)
    (entries : List (DataType × List builtPipeline)) (rcv rcv1 : builtReceiver)
    (h : attachLoop rt factory config entries rcv = Except.ok rcv1) :
    (rcv1.receiver ≠ none ↔ rcv.receiver ≠ none ∨ ∃ e, e ∈ entries ∧ e.2 ≠ []) ∧
    (∀ e, e ∈ entries → e.2 ≠ [] → e.1 = TracesDataType ∨ e.1 = MetricsDataType) := by
  induction entries generalizing rcv with
  | nil =>
    simp only [attachLoop, Except.ok.injEq] at h
    subst h
    simp
  | cons x rest ih =>
    obtain ⟨d, l⟩ := x
    unfold attachLoop at h
    by_cases hl : l.length = 0
    · rw [if_pos hl] at h
      have hnil : l = [] := List.length_eq_zero.mp hl
      obtain ⟨h1, h2⟩ := ih rcv h
      constructor
      · rw [h1]
        constructor
        · rintro (h3 | ⟨e, he, he2⟩)
          · exact Or.inl h3
          · exact Or.inr ⟨e, List.mem_cons_of_mem _ he, he2⟩
        · rintro (h3 | ⟨e, he, he2⟩)
          · exact Or.inl h3
          · rcases List.mem_cons.mp he with h4 | h4
            · subst h4; exact absurd hnil he2
            · exact Or.inr ⟨e, h4, he2⟩
      · intro e he he2
        rcases List.mem_cons.mp he with h4 | h4
        · subst h4; exact absurd hnil he2
        · exact h2 e h4 he2
    · rw [if_neg hl] at h
      have hne : l ≠ [] := fun h0 => hl (by simp [h0])
      cases ha : attachReceiverToPipelines rt factory d config rcv l with
      | error err => simp [ha] at h
      | ok rcv2 =>
        simp only [ha] at h
        obtain ⟨h1, h2⟩ := ih rcv2 h
        obtain ⟨h3, h4⟩ := attachReceiverToPipelines_ok rt factory d config rcv rcv2 l ha
        constructor
        · constructor
          · intro _
            exact Or.inr ⟨(d, l), List.mem_cons_self _ _, hne⟩
          · intro _
            exact h1.mpr (Or.inl h3)
        · intro e he he2
          rcases List.mem_cons.mp he with h5 | h5
          · subst h5; exact h4
          · exact h2 e h5 he2

/-- The errors of the loop over the entries are never `errUnusedReceiver`. -/
theorem attachLoop_error (rt : Runtime) (factory : ReceiverFactoryBase) (config : Receiver)
    (entries : List (DataType × List builtPipeline)) (rcv : builtReceiver) (err : BuildError)
    (h : attachLoop rt factory config entries rcv = Except.error err) :
    err ≠ BuildError.errUnusedReceiver := by
  induction entries generalizing rcv with
  | nil => simp [attachLoop] at h
  | cons x rest ih =>
    obtain ⟨d, l⟩ := x
    unfold attachLoop at h
    split_ifs at h with hl
    · exact ih rcv h
    · cases ha : attachReceiverToPipelines rt factory d config rcv l with
      | error err1 =>
        simp only [ha, Except.error.injEq] at h
        subst h
        exact attachReceiverToPipelines_error rt factory d config rcv l _ ha
      | ok rcv2 =>
        simp only [ha] at h
        exact ih rcv2 h

/-- A loop over entries that all have no pipelines leaves the receiver as it
was. -/
theorem attachLoop_all_empty (rt : Runtime) (factory : ReceiverFactoryBase) (config : Receiver)
    (entries : List (DataType × List builtPipeline)) (rcv : builtReceiver)
    (h : ∀ e, e ∈ entries → e.2 = []) :
    attachLoop rt factory config entries rcv = Except.ok rcv := by
  induction entries with
  | nil => rfl
  | cons x rest ih =>
    obtain ⟨d, l⟩ := x
    have hl : l = [] := h (d, l) (List.mem_cons_self _ _)
    subst hl
    unfold attachLoop
    simp only [List.length_nil, if_true]
    exact ih (fun e he => h e (List.mem_cons_of_mem _ he))

end builder

namespace builder

/-- A receiver that `buildReceiver` builds is listed by a pipeline of type
traces or metrics. -/
theorem buildReceiver_ok_used (rb : ReceiversBuilder) (rt : Runtime)
    (hperm : ∀ m, (rt.rangeOrder m).Perm m) (config : Receiver) (rcv : builtReceiver)
    (h : buildReceiver rb rt config = Except.ok rcv) :
    ∃ p, p ∈ rb.config.Pipelines ∧
      (p.InputType = TracesDataType ∨ p.InputType = MetricsDataType) ∧
      config.Name ∈ p.Receivers := by
  unfold buildReceiver at h
  cases hf : findPipelinesToAttach rb config with
  | error err => simp [hf] at h
  | ok m =>
    simp only [hf] at h
    cases hfac : rb.factories config.Type_ with
    | none => simp [hfac] at h
    | some factory =>
      simp only [hfac] at h
      cases hl : attachLoop rt factory config (rt.rangeOrder m) { receiver := none } with
      | error err => simp [hl] at h
      | ok rcv1 =>
        simp only [hl] at h
        split_ifs at h with hnone
        obtain ⟨h1, h2⟩ := attachLoop_ok rt factory config _ _ _ hl
        rcases h1.mp hnone with h3 | ⟨e, he, he2⟩
        · exact absurd rfl h3
        · have hty := h2 e he he2
          have hem : e ∈ m := (hperm m).mem_iff.mp he
          obtain ⟨d, l⟩ := e
          rcases findPipelinesLoop_entry rb config _ _ m hf d l hem he2 with
            ⟨l1, hl1, hl2⟩ | ⟨p, hp, hp1, hp2⟩
          · simp only [List.mem_cons, Prod.mk.injEq, List.mem_singleton, List.not_mem_nil,
              or_false] at hl1
            rcases hl1 with ⟨_, h5⟩ | ⟨_, h5⟩ <;> exact absurd h5 hl2
          · exact ⟨p, hp, by rw [hp2]; exact hty, hp1⟩

/-- A receiver for which `buildReceiver` answers `errUnusedReceiver` is listed
by no pipeline. -/
theorem buildReceiver_errUnused_not_listed (rb : ReceiversBuilder) (rt : Runtime)
    (hperm : ∀ m, (rt.rangeOrder m).Perm m) (config : Receiver)
    (h : buildReceiver rb rt config = Except.error BuildError.errUnusedReceiver) :
    ∀ p, p ∈ rb.config.Pipelines → config.Name ∉ p.Receivers := by
  intro p hp hmem
  unfold buildReceiver at h
  cases hf : findPipelinesToAttach rb config with
  | error err =>
    simp only [hf, Except.error.injEq] at h
    exact findPipelinesLoop_error rb config _ _ err hf h
  | ok m =>
    simp only [hf] at h
    cases hfac : rb.factories config.Type_ with
    | none => simp [hfac] at h
    | some factory =>
      simp only [hfac] at h
      cases hl : attachLoop rt factory config (rt.rangeOrder m) { receiver := none } with
      | error err =>
        simp only [hl, Except.error.injEq] at h
        exact attachLoop_error rt factory config _ _ err hl h
      | ok rcv1 =>
        simp only [hl] at h
        split_ifs at h with hnone
        obtain ⟨h1, _⟩ := attachLoop_ok rt factory config _ _ _ hl
        obtain ⟨l, hl1, hl2⟩ := findPipelinesLoop_nonempty rb config _ _ m hf p.InputType
          (Or.inr ⟨p, hp, hmem, rfl⟩)
        have : rcv1.receiver ≠ none :=
          h1.mpr (Or.inr ⟨(p.InputType, l), (hperm m).mem_iff.mpr hl1, hl2⟩)
        exact this hnone

/-- The keys of the map after `receivers[cfg] = rcv`. -/
theorem Receivers_keys_set (m : Receivers) (k : Receiver) (v : builtReceiver) (c : Receiver) :
    c ∈ (Receivers.set m k v).map Prod.fst ↔ c = k ∨ c ∈ m.map Prod.fst := by
  induction m with
  | nil => simp [Receivers.set]
  | cons x rest ih =>
    unfold Receivers.set
    split_ifs with hx
    · simp only [List.map_cons, List.mem_cons, hx]
      tauto
    · simp only [List.map_cons, List.mem_cons, ih]
      tauto

/-- The keys of the map that the loop of `Build` returns: the keys it
started with and the receivers of the list that a pipeline of type traces or
metrics lists. -/
theorem BuildLoop_keys (rb : ReceiversBuilder) (rt : Runtime)
    (hperm : ∀ m, (rt.rangeOrder m).Perm m) (cfgs : List Receiver) (acc rcvs : Receivers)
    (h : BuildLoop rb rt cfgs acc = Except.ok rcvs) (c : Receiver) :
    c ∈ rcvs.map Prod.fst ↔
      c ∈ acc.map Prod.fst ∨
        (c ∈ cfgs ∧ ∃ p, p ∈ rb.config.Pipelines ∧
          (p.InputType = TracesDataType ∨ p.InputType = MetricsDataType) ∧
          c.Name ∈ p.Receivers) := by
  induction cfgs generalizing acc with
  | nil =>
    simp only [BuildLoop, Except.ok.injEq] at h
    subst h
    simp
  | cons cfg rest ih =>
    unfold BuildLoop at h
    cases hb : buildReceiver rb rt cfg with
    | error err =>
      simp only [hb] at h
      split_ifs at h with he
      subst he
      have hun := buildReceiver_errUnused_not_listed rb rt hperm cfg hb
      rw [ih acc h]
      constructor
      · rintro (h1 | ⟨h1, h2⟩)
        · exact Or.inl h1
        · exact Or.inr ⟨List.mem_cons_of_mem _ h1, h2⟩
      · rintro (h1 | ⟨h1, p, hp, hty, hn⟩)
        · exact Or.inl h1
        · rcases List.mem_cons.mp h1 with h3 | h3
          · subst h3; exact absurd hn (hun p hp)
          · exact Or.inr ⟨h3, p, hp, hty, hn⟩
    | ok rcv =>
      simp only [hb] at h
      have hused := buildReceiver_ok_used rb rt hperm cfg rcv hb
      rw [ih _ h, Receivers_keys_set]
      constructor
      · rintro ((h1 | h1) | ⟨h1, h2⟩)
        · subst h1; exact Or.inr ⟨List.mem_cons_self _ _, hused⟩
        · exact Or.inl h1
        · exact Or.inr ⟨List.mem_cons_of_mem _ h1, h2⟩
      · rintro (h1 | ⟨h1, h2⟩)
        · exact Or.inl (Or.inr h1)
        · rcases List.mem_cons.mp h1 with h3 | h3
          · exact Or.inl (Or.inl h3)
          · exact Or.inr ⟨h3, h2⟩

/-! ## The claims about `Build` and `buildReceiver` -/

/-- C9: when `Build` succeeds, the keys of the returned map are exactly the
configured receivers whose name is in the receivers list of at least one
pipeline of type traces or metrics; a configured receiver that no pipeline
lists is not in the map. This holds for every order in which `range` visits
the maps. -/
theorem Build_keys_are_used_receivers (rb : ReceiversBuilder) (rt : Runtime)
    (rcvs : Receivers) (cfg : Receiver)
    (hperm : ∀ m, (rt.rangeOrder m).Perm m)
    (hbuild : Build rb rt = Except.ok rcvs) :
    (cfg ∈ rcvs.map Prod.fst ↔
      cfg ∈ rb.config.Receivers ∧ ∃ p, p ∈ rb.config.Pipelines ∧
        (p.InputType = TracesDataType ∨ p.InputType = MetricsDataType) ∧
        cfg.Name ∈ p.Receivers) ∧
    ((∀ p, p ∈ rb.config.Pipelines → cfg.Name ∉ p.Receivers) →
      cfg ∉ rcvs.map Prod.fst) := by
  have key := BuildLoop_keys rb rt hperm rb.config.Receivers [] rcvs hbuild cfg
  simp only [List.map_nil, List.not_mem_nil, false_or] at key
  refine ⟨key, ?_⟩
  intro hno hin
  obtain ⟨_, p, hp, _, hn⟩ := key.mp hin
  exact hno p hp hn

/-- The witness of C9: in the unused-receiver scenario `Build` succeeds, `r1`
is in the map and `r2` is not. -/
theorem Build_keys_are_used_receivers_witness :
    Build unusedReceiverBuilder plainRuntime = Except.ok [(receiverR1, { receiver := some 101 })] ∧
    receiverR1 ∈ ([(receiverR1, { receiver := some 101 })] : Receivers).map Prod.fst ∧
    receiverR2 ∉ ([(receiverR1, { receiver := some 101 })] : Receivers).map Prod.fst := by
  have h := Build_keys_are_used_receivers unusedReceiverBuilder plainRuntime
    [(receiverR1, { receiver := some 101 })] receiverR2 (fun m => List.Perm.refl m) rfl
  refine ⟨rfl, by decide, h.2 ?_⟩
  decide

/-- C10, the counterexample: `r3` is listed by no pipeline and its type has
no registered factory; `buildReceiver` does not answer `errUnusedReceiver`
but "receiver factory not found", and `Build` fails with that error. -/
theorem buildReceiver_unused_without_factory_fails :
    (∀ p, p ∈ unregisteredBuilder.config.Pipelines → receiverR3.Name ∉ p.Receivers) ∧
    receiverR3 ∈ unregisteredBuilder.config.Receivers ∧
    buildReceiver unregisteredBuilder plainRuntime receiverR3 =
      Except.error (BuildError.errorf "receiver factory not found for type: unregistered") ∧
    buildReceiver unregisteredBuilder plainRuntime receiverR3 ≠
      Except.error BuildError.errUnusedReceiver ∧
    Build unregisteredBuilder plainRuntime =
      Except.error (BuildError.errorf "receiver factory not found for type: unregistered") := by
  refine ⟨by decide, by decide, rfl, ?_, rfl⟩
  have h : buildReceiver unregisteredBuilder plainRuntime receiverR3 =
      Except.error (BuildError.errorf "receiver factory not found for type: unregistered") := rfl
  rw [h]
  simp

/-- C10 as amended: for a receiver that no pipeline lists, in a builder all of
whose pipelines are built: when a factory is registered for its type,
`buildReceiver` answers `errUnusedReceiver` and `Build` skips the receiver and
goes on with the rest; when no factory is registered for its type,
`buildReceiver` answers "receiver factory not found" and `Build` fails with
that error. -/
theorem buildReceiver_unused_receiver (rb : ReceiversBuilder) (rt : Runtime)
    (cfg : Receiver) (rest : List Receiver) (receivers : Receivers)
    (hperm : ∀ m, (rt.rangeOrder m).Perm m)
    (hbuilt : ∀ p, p ∈ rb.config.Pipelines → (rb.builtPipelines p).isSome = true)
    (hunused : ∀ p, p ∈ rb.config.Pipelines → cfg.Name ∉ p.Receivers) :
    ((rb.factories cfg.Type_).isSome = true →
      buildReceiver rb rt cfg = Except.error BuildError.errUnusedReceiver ∧
      BuildLoop rb rt (cfg :: rest) receivers = BuildLoop rb rt rest receivers) ∧
    (rb.factories cfg.Type_ = none →
      buildReceiver rb rt cfg =
        Except.error (BuildError.errorf ("receiver factory not found for type: " ++ cfg.Type_)) ∧
      BuildLoop rb rt (cfg :: rest) receivers =
        Except.error (BuildError.errorf ("receiver factory not found for type: " ++ cfg.Type_))) := by
  have hfind : findPipelinesToAttach rb cfg =
      Except.ok [(TracesDataType, []), (MetricsDataType, [])] :=
    findPipelinesLoop_unused rb cfg _ _ hbuilt hunused
  constructor
  · intro hsome
    obtain ⟨factory, hfac⟩ := Option.isSome_iff_exists.mp hsome
    have hloop : attachLoop rt factory cfg
        (rt.rangeOrder [(TracesDataType, []), (MetricsDataType, [])]) { receiver := none } =
        Except.ok { receiver := none } := by
      apply attachLoop_all_empty
      intro e he
      have := (hperm _).mem_iff.mp he
      simp only [List.mem_cons, List.mem_singleton, List.not_mem_nil, or_false] at this
      rcases this with h1 | h1 <;> (subst h1; rfl)
    have hb : buildReceiver rb rt cfg = Except.error BuildError.errUnusedReceiver := by
      unfold buildReceiver
      simp only [hfind, hfac, hloop, if_true]
    refine ⟨hb, ?_⟩
    simp only [BuildLoop, hb, if_true]
  · intro hnone
    have hb : buildReceiver rb rt cfg =
        Except.error (BuildError.errorf ("receiver factory not found for type: " ++ cfg.Type_)) := by
      unfold buildReceiver
      simp only [hfind, hnone]
    refine ⟨hb, ?_⟩
    simp only [BuildLoop, hb]
    rw [if_neg (by simp)]

/-- The witness of C10 as amended: `r2` is unused and of a registered type; it
is skipped, and `Build` succeeds without it. -/
theorem buildReceiver_unused_receiver_witness :
    buildReceiver unusedReceiverBuilder plainRuntime receiverR2 =
      Except.error BuildError.errUnusedReceiver ∧
    BuildLoop unusedReceiverBuilder plainRuntime (receiverR2 :: [])
        [(receiverR1, { receiver := some 101 })] =
      BuildLoop unusedReceiverBuilder plainRuntime [] [(receiverR1, { receiver := some 101 })] :=
  (buildReceiver_unused_receiver unusedReceiverBuilder plainRuntime receiverR2 []
    [(receiverR1, { receiver := some 101 })] (fun m => List.Perm.refl m)
    (by decide) (by decide)).1 (by rfl)

end builder

namespace builder

/-! ## Attachment to pipelines of both data types -/

/-- When every pipeline is built and is of type traces or metrics, the map of
`findPipelinesToAttach` has the two entries of the two data types, each with
the built pipelines of that type that list the receiver. -/
theorem findPipelinesLoop_typed (rb : ReceiversBuilder) (config : Receiver)
    (ps : List Pipeline) (x y : List builtPipeline)
    (hbuilt : ∀ p, p ∈ ps → (rb.builtPipelines p).isSome = true)
    (htypes : ∀ p, p ∈ ps → p.InputType = TracesDataType ∨ p.InputType = MetricsDataType) :
    findPipelinesLoop rb config ps [(TracesDataType, x), (MetricsDataType, y)] =
      Except.ok [(TracesDataType, x ++ attachedOf rb config TracesDataType ps),
                 (MetricsDataType, y ++ attachedOf rb config MetricsDataType ps)] := by
  induction ps generalizing x y with
  | nil => simp [findPipelinesLoop, attachedOf]
  | cons p rest ih =>
    obtain ⟨bp, hbp⟩ := Option.isSome_iff_exists.mp (hbuilt p (List.mem_cons_self _ _))
    have hb := fun q hq => hbuilt q (List.mem_cons_of_mem _ hq)
    have ht := fun q hq => htypes q (List.mem_cons_of_mem _ hq)
    have hTM : TracesDataType ≠ MetricsDataType := by decide
    unfold findPipelinesLoop
    simp only [hbp, attachedOf]
    by_cases hr : hasReceiver p config.Name = true
    · rcases htypes p (List.mem_cons_self _ _) with hty | hty
      · have h1 : ¬ p.InputType = MetricsDataType := by rw [hty]; exact hTM
        simp only [hr, hty, if_true, true_and, attachedPipelines.set, attachedPipelines.get,
          List.find?, beq_self_eq_true]
        rw [ih _ _ hb ht]
        simp [hTM]
      · have h1 : ¬ p.InputType = TracesDataType := by rw [hty]; exact hTM.symm
        have h2 : (TracesDataType == MetricsDataType) = false := by decide
        simp only [hr, hty, if_true, true_and, attachedPipelines.set, attachedPipelines.get,
          List.find?, beq_self_eq_true, h2, hTM, if_false]
        rw [ih _ _ hb ht]
        simp [hTM.symm]
    · simp only [hr, false_and, if_false, Bool.false_eq_true]
      exact ih _ _ hb ht

/-- A list that is a permutation of two entries is one of the two orders. -/
theorem perm_two {α : Type} (l : List α) (x y : α) (h : l.Perm [x, y]) :
    l = [x, y] ∨ l = [y, x] := by
  have hlen := h.length_eq
  match l, hlen with
  | [u, v], _ =>
    have hu : u ∈ [x, y] := h.mem_iff.mp (List.mem_cons_self _ _)
    have hv : v ∈ [x, y] := h.mem_iff.mp (by simp)
    have hx : x ∈ [u, v] := h.mem_iff.mpr (List.mem_cons_self _ _)
    have hy : y ∈ [u, v] := h.mem_iff.mpr (by simp)
    simp only [List.mem_cons, List.mem_singleton, List.not_mem_nil, or_false] at hu hv hx hy
    rcases hu with rfl | rfl
    · rcases hv with rfl | rfl
      · rcases hy with rfl | rfl <;> exact Or.inl rfl
      · exact Or.inl rfl
    · rcases hv with rfl | rfl
      · exact Or.inr rfl
      · rcases hx with rfl | rfl <;> exact Or.inl rfl

end builder

namespace builder

/-- The text of the error for a factory that returns different receivers for
different data types. -/
theorem attach_second_data_type (rt : Runtime) (factory : ReceiverFactoryBase)
    (dataType : DataType) (config : Receiver) (pipelines : List builtPipeline) (a b : Nat)
    (hcreated : (if dataType = TracesDataType then
        createTraceReceiver rt factory config (buildFanoutTraceConsumer pipelines)
      else if dataType = MetricsDataType then
        createMetricsReceiver rt factory config (buildFanoutMetricConsumer pipelines)
      else { receiver := none, err := none }) = { receiver := some b, err := none }) :
    attachReceiverToPipelines rt factory dataType config { receiver := none } pipelines =
      Except.ok { receiver := some b } ∧
    (a = b → attachReceiverToPipelines rt factory dataType config { receiver := some a }
      pipelines = Except.ok { receiver := some b }) ∧
    (a ≠ b → attachReceiverToPipelines rt factory dataType config { receiver := some a }
      pipelines = Except.error (BuildError.errorf
        ("factory for " ++ rt.quote config.Name ++ " is implemented incorrectly: " ++
          "CreateTraceReceiver and CreateMetricsReceiver must return the same " ++
          "receiver pointer when creating receivers of different data types"))) := by
  refine ⟨?_, ?_, ?_⟩
  · unfold attachReceiverToPipelines
    simp only [hcreated]
    simp
  · intro hab
    unfold attachReceiverToPipelines
    simp only [hcreated]
    simp [hab]
  · intro hab
    unfold attachReceiverToPipelines
    simp only [hcreated]
    simp [hab]

/-- The verb `%q` of the concrete runtimes on a plain name and on a name
with a double quote. -/
theorem quoteASCII_replay :
    quoteASCII "r1" = "\"r1\"" ∧
    quoteASCII "a\"b" = "\"a\\\"b\"" := by
  decide

/-- C11: a receiver is attached to pipelines of both traces and metrics, in a
builder whose pipelines are all built and of one of these two types, and its
factory creates the receiver `a` for traces and the receiver `b` for metrics.
When `a` and `b` differ, `buildReceiver` fails with the error "must return the
same receiver pointer", whose text names the receiver as `%q` writes it, and
when they are the same receiver it succeeds with it, whatever the order in
which `range` visits the two data types. -/
theorem buildReceiver_same_receiver_pointer (rb : ReceiversBuilder) (rt : Runtime)
    (config : Receiver) (factory : ReceiverFactoryBase) (a b : Nat)
    (hperm : ∀ m, (rt.rangeOrder m).Perm m)
    (hbuilt : ∀ p, p ∈ rb.config.Pipelines → (rb.builtPipelines p).isSome = true)
    (htypes : ∀ p, p ∈ rb.config.Pipelines →
      p.InputType = TracesDataType ∨ p.InputType = MetricsDataType)
    (hT : attachedOf rb config TracesDataType rb.config.Pipelines ≠ [])
    (hM : attachedOf rb config MetricsDataType rb.config.Pipelines ≠ [])
    (hfac : rb.factories config.Type_ = some factory)
    (htrace : createTraceReceiver rt factory config
      (buildFanoutTraceConsumer (attachedOf rb config TracesDataType rb.config.Pipelines)) =
        { receiver := some a, err := none })
    (hmetrics : createMetricsReceiver rt factory config
      (buildFanoutMetricConsumer (attachedOf rb config MetricsDataType rb.config.Pipelines)) =
        { receiver := some b, err := none }) :
    (a ≠ b → buildReceiver rb rt config = Except.error (BuildError.errorf
      ("factory for " ++ rt.quote config.Name ++ " is implemented incorrectly: " ++
        "CreateTraceReceiver and CreateMetricsReceiver must return the same " ++
        "receiver pointer when creating receivers of different data types"))) ∧
    (a = b → buildReceiver rb rt config = Except.ok { receiver := some a }) := by
  have hfind : findPipelinesToAttach rb config =
      Except.ok [(TracesDataType, attachedOf rb config TracesDataType rb.config.Pipelines),
                 (MetricsDataType, attachedOf rb config MetricsDataType rb.config.Pipelines)] := by
    have := findPipelinesLoop_typed rb config rb.config.Pipelines [] [] hbuilt htypes
    simpa [findPipelinesToAttach] using this
  have hlT : ¬ (attachedOf rb config TracesDataType rb.config.Pipelines).length = 0 :=
    fun h => hT (List.length_eq_zero.mp h)
  have hlM : ¬ (attachedOf rb config MetricsDataType rb.config.Pipelines).length = 0 :=
    fun h => hM (List.length_eq_zero.mp h)
  have hcT : (if TracesDataType = TracesDataType then
        createTraceReceiver rt factory config
          (buildFanoutTraceConsumer (attachedOf rb config TracesDataType rb.config.Pipelines))
      else if TracesDataType = MetricsDataType then
        createMetricsReceiver rt factory config
          (buildFanoutMetricConsumer (attachedOf rb config TracesDataType rb.config.Pipelines))
      else { receiver := none, err := none }) = { receiver := some a, err := none } := by
    rw [if_pos rfl]; exact htrace
  have hcM : (if MetricsDataType = TracesDataType then
        createTraceReceiver rt factory config
          (buildFanoutTraceConsumer (attachedOf rb config MetricsDataType rb.config.Pipelines))
      else if MetricsDataType = MetricsDataType then
        createMetricsReceiver rt factory config
          (buildFanoutMetricConsumer (attachedOf rb config MetricsDataType rb.config.Pipelines))
      else { receiver := none, err := none }) = { receiver := some b, err := none } := by
    rw [if_neg (by decide), if_pos rfl]; exact hmetrics
  obtain ⟨hT0, hTsame, hTdiff⟩ := attach_second_data_type rt factory TracesDataType config _ b a hcT
  obtain ⟨hM0, hMsame, hMdiff⟩ := attach_second_data_type rt factory MetricsDataType config _ a b hcM
  rcases perm_two _ _ _ (hperm [(TracesDataType, attachedOf rb config TracesDataType rb.config.Pipelines),
      (MetricsDataType, attachedOf rb config MetricsDataType rb.config.Pipelines)]) with hord | hord
  · constructor
    · intro hab
      unfold buildReceiver
      simp only [hfind, hfac, hord, attachLoop, hlT, hlM, if_false, hT0, hMdiff hab]
    · intro hab
      unfold buildReceiver
      simp only [hfind, hfac, hord, attachLoop, hlT, hlM, if_false, hT0, hMsame hab]
      simp [hab]
  · constructor
    · intro hab
      unfold buildReceiver
      simp only [hfind, hfac, hord, attachLoop, hlT, hlM, if_false, hM0,
        hTdiff (fun h => hab h.symm)]
    · intro hab
      unfold buildReceiver
      simp only [hfind, hfac, hord, attachLoop, hlT, hlM, if_false, hM0, hTsame hab.symm]
      simp

/-- The witness of C11: a factory with two instances fails in reverse
visiting order. -/
theorem buildReceiver_same_receiver_pointer_witness :
    buildReceiver (bothTypesBuilder twoInstanceFactory) reverseRuntime receiverR1 =
      Except.error (BuildError.errorf
        ("factory for " ++ reverseRuntime.quote receiverR1.Name ++ " is implemented incorrectly: " ++
          "CreateTraceReceiver and CreateMetricsReceiver must return the same " ++
          "receiver pointer when creating receivers of different data types")) :=
  (buildReceiver_same_receiver_pointer (bothTypesBuilder twoInstanceFactory) reverseRuntime
    receiverR1 twoInstanceFactory 101 201 (fun m => List.reverse_perm m)
    (by decide) (by decide) (by decide) (by decide) rfl rfl rfl).1 (by decide)

end builder

namespace builder

/-- In a successful loop over the entries every entry with pipelines was
attached successfully. -/
theorem attachLoop_ok_each (rt : Runtime) (factory : ReceiverFactoryBase) (config : Receiver)
    (entries : List (DataType × List builtPipeline)) (rcv rcv1 : builtReceiver)
    (h : attachLoop rt factory config entries rcv = Except.ok rcv1)
    (e : DataType × List builtPipeline) (he : e ∈ entries) (hne : e.2 ≠ []) :
    ∃ rcv2 rcv3, attachReceiverToPipelines rt factory e.1 config rcv2 e.2 = Except.ok rcv3 := by
  induction entries generalizing rcv with
  | nil => simp at he
  | cons x rest ih =>
    obtain ⟨d, l⟩ := x
    unfold attachLoop at h
    by_cases hl : l.length = 0
    · rw [if_pos hl] at h
      rcases List.mem_cons.mp he with h1 | h1
      · subst h1; exact absurd (List.length_eq_zero.mp hl) hne
      · exact ih rcv h h1
    · rw [if_neg hl] at h
      cases ha : attachReceiverToPipelines rt factory d config rcv l with
      | error err => simp [ha] at h
      | ok rcv2 =>
        simp only [ha] at h
        rcases List.mem_cons.mp he with h1 | h1
        · subst h1; exact ⟨rcv, rcv2, ha⟩
        · exact ih rcv2 h h1

/-- When `Build` succeeds, `buildReceiver` built every configured receiver or
found it unused. -/
theorem BuildLoop_ok_each (rb : ReceiversBuilder) (rt : Runtime) (cfgs : List Receiver)
    (acc rcvs : Receivers) (h : BuildLoop rb rt cfgs acc = Except.ok rcvs)
    (c : Receiver) (hc : c ∈ cfgs) :
    (∃ rcv, buildReceiver rb rt c = Except.ok rcv) ∨
      buildReceiver rb rt c = Except.error BuildError.errUnusedReceiver := by
  induction cfgs generalizing acc with
  | nil => simp at hc
  | cons cfg rest ih =>
    unfold BuildLoop at h
    cases hb : buildReceiver rb rt cfg with
    | error err =>
      simp only [hb] at h
      split_ifs at h with he
      subst he
      rcases List.mem_cons.mp hc with h1 | h1
      · subst h1; exact Or.inr hb
      · exact ih acc h h1
    | ok rcv =>
      simp only [hb] at h
      rcases List.mem_cons.mp hc with h1 | h1
      · subst h1; exact Or.inl ⟨rcv, hb⟩
      · exact ih _ h h1

/-- C12: `dataType` is traces or metrics and the factory reports
`ErrDataTypeIsNotSupported` for it. Then `attachReceiverToPipelines` returns
the error "receiver NAME does not support TYPE but it was used in a TYPE
pipeline", and when a configured receiver with this factory is listed by a
pipeline of that data type, `Build` returns an error and no receivers. -/
theorem attachReceiverToPipelines_unsupported_data_type (rb : ReceiversBuilder) (rt : Runtime)
    (config : Receiver) (factory : ReceiverFactoryBase) (dataType : DataType)
    (hperm : ∀ m, (rt.rangeOrder m).Perm m)
    (hunsupported :
      (dataType = TracesDataType ∧ ∀ next, (createTraceReceiver rt factory config next).err =
        some FactoryError.ErrDataTypeIsNotSupported) ∨
      (dataType = MetricsDataType ∧ ∀ next, (createMetricsReceiver rt factory config next).err =
        some FactoryError.ErrDataTypeIsNotSupported)) :
    (∀ rcv pipelines, attachReceiverToPipelines rt factory dataType config rcv pipelines =
      Except.error (BuildError.errorf
        ("receiver " ++ config.Name ++ " does not support " ++ dataType.GetString ++
          " but it was used in a " ++ dataType.GetString ++ " pipeline"))) ∧
    (config ∈ rb.config.Receivers → rb.factories config.Type_ = some factory →
      (∃ p, p ∈ rb.config.Pipelines ∧ p.InputType = dataType ∧ config.Name ∈ p.Receivers) →
      ∃ err, Build rb rt = Except.error err) := by
  have hattach : ∀ rcv pipelines,
      attachReceiverToPipelines rt factory dataType config rcv pipelines =
      Except.error (BuildError.errorf
        ("receiver " ++ config.Name ++ " does not support " ++ dataType.GetString ++
          " but it was used in a " ++ dataType.GetString ++ " pipeline")) := by
    intro rcv pipelines
    unfold attachReceiverToPipelines
    rcases hunsupported with ⟨hd, hu⟩ | ⟨hd, hu⟩
    · subst hd
      simp only [if_true, hu]
    · subst hd
      have hMT : ¬ MetricsDataType = TracesDataType := by decide
      simp only [hMT, if_true, if_false, hu]
  refine ⟨hattach, ?_⟩
  rintro hcfg hfac ⟨p, hp, hty, hname⟩
  cases hB : Build rb rt with
  | error err => exact ⟨err, rfl⟩
  | ok rcvs =>
    exfalso
    rcases BuildLoop_ok_each rb rt _ _ rcvs hB config hcfg with ⟨rcv, hok⟩ | hun
    · unfold buildReceiver at hok
      cases hf : findPipelinesToAttach rb config with
      | error err => simp [hf] at hok
      | ok m =>
        simp only [hf, hfac] at hok
        cases hl : attachLoop rt factory config (rt.rangeOrder m) { receiver := none } with
        | error err => simp [hl] at hok
        | ok rcv1 =>
          obtain ⟨l, hl1, hl2⟩ := findPipelinesLoop_nonempty rb config _ _ m hf dataType
            (Or.inr ⟨p, hp, hname, hty⟩)
          obtain ⟨r2, r3, h3⟩ := attachLoop_ok_each rt factory config _ _ _ hl (dataType, l)
            ((hperm m).mem_iff.mpr hl1) hl2
          rw [hattach] at h3
          simp at h3
    · exact buildReceiver_errUnused_not_listed rb rt hperm config hun p hp hname

/-- The witness of C12: the Jaeger factory supports no metrics; with `r1` in a
metrics pipeline the attachment fails with the text of the claim and `Build`
returns an error. -/
theorem attachReceiverToPipelines_unsupported_data_type_witness :
    attachReceiverToPipelines plainRuntime jaegerFactory MetricsDataType receiverR1
        { receiver := none } [] =
      Except.error (BuildError.errorf
        ("receiver " ++ receiverR1.Name ++ " does not support " ++
          DataType.GetString MetricsDataType ++ " but it was used in a " ++
          DataType.GetString MetricsDataType ++ " pipeline")) ∧
    ∃ err, Build (bothTypesBuilder jaegerFactory) plainRuntime = Except.error err := by
  have h := attachReceiverToPipelines_unsupported_data_type (bothTypesBuilder jaegerFactory)
    plainRuntime receiverR1 jaegerFactory MetricsDataType (fun m => List.Perm.refl m)
    (Or.inr ⟨rfl, fun _ => rfl⟩)
  exact ⟨h.1 _ _, h.2 (by decide) rfl ⟨metricsPipeline, by decide, rfl, by decide⟩⟩

/-- C13: for a list with exactly one built pipeline the fan-out constructors
return the head consumer of that pipeline itself, with no connector around
it, whatever its mutation flag. -/
theorem buildFanout_single_pipeline (p : builtPipeline) :
    buildFanoutTraceConsumer [p] = TraceConsumerBase.consumer p.firstTC ∧
    buildFanoutMetricConsumer [p] = MetricsConsumerBase.consumer p.firstMC ∧
    buildFanoutTraceConsumer [{ p with MutatesConsumedData := true }] =
      TraceConsumerBase.consumer p.firstTC ∧
    buildFanoutTraceConsumer [{ p with MutatesConsumedData := false }] =
      TraceConsumerBase.consumer p.firstTC ∧
    buildFanoutMetricConsumer [{ p with MutatesConsumedData := true }] =
      MetricsConsumerBase.consumer p.firstMC ∧
    buildFanoutMetricConsumer [{ p with MutatesConsumedData := false }] =
      MetricsConsumerBase.consumer p.firstMC :=
  ⟨rfl, rfl, rfl, rfl, rfl, rfl⟩

/-- The flag computed by the loop of the fan-out constructors is set exactly
when the flag it started with was set or some pipeline mutates data. -/
theorem anyPipelineMutatesData_iff (pipelines : List builtPipeline) (b : Bool) :
    pipelines.foldl (fun b p => b || p.MutatesConsumedData) b = true ↔
      b = true ∨ ∃ p, p ∈ pipelines ∧ p.MutatesConsumedData = true := by
  induction pipelines generalizing b with
  | nil => simp
  | cons x rest ih =>
    simp only [List.foldl_cons, ih, Bool.or_eq_true, List.mem_cons]
    constructor
    · rintro ((h | h) | ⟨p, hp, hm⟩)
      · exact Or.inl h
      · exact Or.inr ⟨x, Or.inl rfl, h⟩
      · exact Or.inr ⟨p, Or.inr hp, hm⟩
    · rintro (h | ⟨p, hp | hp, hm⟩)
      · exact Or.inl (Or.inl h)
      · subst hp; exact Or.inl (Or.inr hm)
      · exact Or.inr ⟨p, hp, hm⟩

/-- C14: for a list of two or more built pipelines the fan-out constructors
build the cloning connector when at least one pipeline of the list mutates
data and the shared connector when none does, in both cases over the head
consumers of the pipelines in list order. -/
theorem buildFanout_connector_choice (pipelines : List builtPipeline)
    (hlen : 2 ≤ pipelines.length) :
    ((∃ p, p ∈ pipelines ∧ p.MutatesConsumedData = true) →
      buildFanoutTraceConsumer pipelines =
        TraceConsumerBase.cloningFanOutConnector (pipelines.map (fun p => p.firstTC)) ∧
      buildFanoutMetricConsumer pipelines =
        MetricsConsumerBase.cloningFanOutConnector (pipelines.map (fun p => p.firstMC))) ∧
    ((¬ ∃ p, p ∈ pipelines ∧ p.MutatesConsumedData = true) →
      buildFanoutTraceConsumer pipelines =
        TraceConsumerBase.fanOutConnector (pipelines.map (fun p => p.firstTC)) ∧
      buildFanoutMetricConsumer pipelines =
        MetricsConsumerBase.fanOutConnector (pipelines.map (fun p => p.firstMC))) := by
  have hfold := anyPipelineMutatesData_iff pipelines false
  simp only [Bool.false_eq_true, false_or] at hfold
  match pipelines, hlen with
  | x :: y :: rest, _ =>
    constructor
    · intro hex
      have h1 := hfold.mpr hex
      constructor
      · simp only [buildFanoutTraceConsumer, h1, if_true]
      · simp only [buildFanoutMetricConsumer, h1, if_true]
    · intro hex
      have h1 : ¬ (x :: y :: rest).foldl (fun b p => b || p.MutatesConsumedData) false = true :=
        fun h => hex (hfold.mp h)
      constructor
      · simp [buildFanoutTraceConsumer, h1]
      · simp [buildFanoutMetricConsumer, h1]

/-- The witness of C14: three pipelines of which one mutates data get the
cloning connector over the three head consumers. -/
theorem buildFanout_connector_choice_witness :
    buildFanoutTraceConsumer threePipelines =
      TraceConsumerBase.cloningFanOutConnector (threePipelines.map (fun p => p.firstTC)) ∧
    buildFanoutMetricConsumer threePipelines =
      MetricsConsumerBase.cloningFanOutConnector (threePipelines.map (fun p => p.firstMC)) :=
  (buildFanout_connector_choice threePipelines (by decide)).1 (by decide)

/-- The loop of `StopAll` calls `Shutdown` on every receiver in map order and
collects every failure. -/
theorem StopAllLoop_eq (shutdown : Nat → Option String) (rcvs : Receivers)
    (calls : List Nat) (errs : List String)
    (hnotnil : ∀ e, e ∈ rcvs → e.2.receiver ≠ none) :
    StopAllLoop shutdown rcvs calls errs =
      some (calls ++ rcvs.filterMap (fun e => e.2.receiver),
            errs ++ (rcvs.filterMap (fun e => e.2.receiver)).filterMap shutdown) := by
  induction rcvs generalizing calls errs with
  | nil => simp [StopAllLoop]
  | cons x rest ih =>
    obtain ⟨cfg, rcv⟩ := x
    have hrest := fun e he => hnotnil e (List.mem_cons_of_mem _ he)
    cases hr : rcv.receiver with
    | none => exact absurd hr (hnotnil (cfg, rcv) (List.mem_cons_self _ _))
    | some r =>
      unfold StopAllLoop
      simp only [hr]
      cases hs : shutdown r with
      | none => simp [hs, hr, ih _ _ hrest]
      | some err => simp [hs, hr, ih _ _ hrest]

/-- C15: on a map whose receivers are not nil, `StopAll` calls `Stop` on each
receiver of the map once, in map order, whether or not earlier ones failed;
it returns nil exactly when every `Stop` returned nil, and otherwise the
combined error of all the failures. -/
theorem StopAll_stops_every_receiver (rcvs : Receivers) (shutdown : Nat → Option String)
    (hnotnil : ∀ e, e ∈ rcvs → e.2.receiver ≠ none) :
    ∃ res, rcvs.StopAll shutdown = some res ∧
      res.stopCalls = rcvs.filterMap (fun e => e.2.receiver) ∧
      res.stopCalls.length = rcvs.length ∧
      (res.err = none ↔ ∀ r, r ∈ res.stopCalls → shutdown r = none) ∧
      (res.err ≠ none →
        res.err = some (CombineErrors (res.stopCalls.filterMap shutdown))) := by
  have hloop := StopAllLoop_eq shutdown rcvs [] [] hnotnil
  simp only [List.nil_append] at hloop
  have hlen : (rcvs.filterMap (fun e => e.2.receiver)).length = rcvs.length := by
    clear hloop
    induction rcvs with
    | nil => rfl
    | cons x rest ih =>
      have hx := hnotnil x (List.mem_cons_self _ _)
      obtain ⟨r, hr⟩ := Option.ne_none_iff_exists'.mp hx
      simp [List.filterMap_cons, hr, ih (fun e he => hnotnil e (List.mem_cons_of_mem _ he))]
  have hnil : ∀ l : List Nat, l.filterMap shutdown = [] ↔ ∀ r, r ∈ l → shutdown r = none := by
    intro l
    induction l with
    | nil => simp
    | cons x rest ih =>
      cases hx : shutdown x with
      | none => simp [List.filterMap_cons, hx, ih]
      | some err => simp [List.filterMap_cons, hx]
  unfold Receivers.StopAll
  rw [hloop]
  dsimp only
  by_cases he : ((rcvs.filterMap (fun e => e.2.receiver)).filterMap shutdown).length ≠ 0
  · rw [if_pos he]
    refine ⟨{ stopCalls := rcvs.filterMap (fun e => e.2.receiver),
              err := some (CombineErrors
                ((rcvs.filterMap (fun e => e.2.receiver)).filterMap shutdown)) },
      rfl, rfl, hlen, ?_, fun _ => rfl⟩
    constructor
    · intro h; simp at h
    · intro hall
      exact absurd (by rw [(hnil _).mpr hall]; rfl) he
  · rw [if_neg he]
    refine ⟨{ stopCalls := rcvs.filterMap (fun e => e.2.receiver), err := none },
      rfl, rfl, hlen, ?_, fun h => absurd rfl h⟩
    constructor
    · intro _
      exact (hnil _).mp (List.length_eq_zero.mp (not_not.mp he))
    · intro _; rfl

/-- The witness of C15: of three receivers the first and the third fail; all
three are stopped and the error combines the two failures. -/
theorem StopAll_stops_every_receiver_witness :
    ∃ res, threeReceivers.StopAll shutdownFails = some res ∧
      res.stopCalls = threeReceivers.filterMap (fun e => e.2.receiver) ∧
      res.stopCalls.length = threeReceivers.length ∧
      (res.err = none ↔ ∀ r, r ∈ res.stopCalls → shutdownFails r = none) ∧
      (res.err ≠ none →
        res.err = some (CombineErrors (res.stopCalls.filterMap shutdownFails))) :=
  StopAll_stops_every_receiver threeReceivers shutdownFails (by decide)

end builder

namespace builder

/-- An entry of the map after `receivers[cfg] = rcv` is the written one or an
old one. -/
theorem Receivers_mem_set (m : Receivers) (k : Receiver) (v : builtReceiver)
    (e : Receiver × builtReceiver) (h : e ∈ Receivers.set m k v) : e = (k, v) ∨ e ∈ m := by
  induction m with
  | nil =>
    simp only [Receivers.set, List.mem_singleton] at h
    exact Or.inl h
  | cons x rest ih =>
    unfold Receivers.set at h
    split_ifs at h with hx
    · rcases List.mem_cons.mp h with h1 | h1
      · exact Or.inl h1
      · exact Or.inr (List.mem_cons_of_mem _ h1)
    · rcases List.mem_cons.mp h with h1 | h1
      · exact Or.inr (h1 ▸ List.mem_cons_self _ _)
      · rcases ih h1 with h2 | h2
        · exact Or.inl h2
        · exact Or.inr (List.mem_cons_of_mem _ h2)

/-- A receiver that `buildReceiver` returns is not nil. -/
theorem buildReceiver_ok_not_nil (rb : ReceiversBuilder) (rt : Runtime) (config : Receiver)
    (rcv : builtReceiver) (h : buildReceiver rb rt config = Except.ok rcv) :
    rcv.receiver ≠ none := by
  unfold buildReceiver at h
  split at h
  · simp at h
  · split at h
    · simp at h
    · split at h
      · simp at h
      · split_ifs at h with hnone
        simp only [Except.ok.injEq] at h
        subst h
        exact hnone

/-- Every receiver of a map that `Build` returns is not nil, so that
`StopAll` runs on it without a fault. -/
theorem BuildLoop_receivers_not_nil (rb : ReceiversBuilder) (rt : Runtime)
    (cfgs : List Receiver) (acc rcvs : Receivers)
    (hacc : ∀ e, e ∈ acc → e.2.receiver ≠ none)
    (h : BuildLoop rb rt cfgs acc = Except.ok rcvs) :
    ∀ e, e ∈ rcvs → e.2.receiver ≠ none := by
  induction cfgs generalizing acc with
  | nil =>
    simp only [BuildLoop, Except.ok.injEq] at h
    subst h
    exact hacc
  | cons cfg rest ih =>
    unfold BuildLoop at h
    cases hb : buildReceiver rb rt cfg with
    | error err =>
      simp only [hb] at h
      split_ifs at h
      exact ih acc hacc h
    | ok rcv =>
      simp only [hb] at h
      apply ih _ _ h
      intro e he
      rcases Receivers_mem_set _ _ _ _ he with h1 | h1
      · subst h1; exact buildReceiver_ok_not_nil rb rt cfg rcv hb
      · exact hacc e h1

end builder

namespace jaegerexporter

/-! ## The claim about `pushTraceData` -/

/-- The three ways through `pushTraceData`: when the translation fails the
result is the number of spans of the batch and a permanent error; when
`PostSpans` fails the dropped count is `len(protoBatch.Spans)`, the number of
spans of the translated batch, and the error is the one of `PostSpans`; when
it succeeds the result is zero and nil. -/
theorem pushTraceData_cases (s : protoGRPCSender)
    (OCProtoToJaegerProto : TraceData → Except String Batch) (td : TraceData) :
    (∀ err, OCProtoToJaegerProto td = Except.error err →
      s.pushTraceData OCProtoToJaegerProto td =
        (td.Spans.length, some (PushError.Permanent err))) ∧
    (∀ protoBatch err, OCProtoToJaegerProto td = Except.ok protoBatch →
      s.PostSpans (decide (s.metadataLen > 0)) protoBatch = some err →
      s.pushTraceData OCProtoToJaegerProto td =
        (protoBatch.Spans.length, some (PushError.plain err))) ∧
    (∀ protoBatch, OCProtoToJaegerProto td = Except.ok protoBatch →
      s.PostSpans (decide (s.metadataLen > 0)) protoBatch = none →
      s.pushTraceData OCProtoToJaegerProto td = (0, none)) := by
  refine ⟨?_, ?_, ?_⟩
  · intro err h
    simp only [protoGRPCSender.pushTraceData, h]
  · intro b err h hp
    simp only [protoGRPCSender.pushTraceData, h, hp]
  · intro b h hp
    simp only [protoGRPCSender.pushTraceData, h, hp]

/-- C16: for a batch of `n` spans and a translation that, when it succeeds,
gives a Jaeger batch of as many spans: when the translation fails the result
is `n` and a permanent error; when `PostSpans` fails the dropped count is `n`
and the error is the one of `PostSpans`; when it succeeds the result is zero
and nil. In every case the dropped count is at most `n`. -/
theorem pushTraceData_dropped_count (s : protoGRPCSender)
    (OCProtoToJaegerProto : TraceData → Except String Batch) (td : TraceData)
    (hcount : ∀ protoBatch, OCProtoToJaegerProto td = Except.ok protoBatch →
      protoBatch.Spans.length = td.Spans.length) :
    (∀ err, OCProtoToJaegerProto td = Except.error err →
      s.pushTraceData OCProtoToJaegerProto td =
        (td.Spans.length, some (PushError.Permanent err))) ∧
    (∀ protoBatch err, OCProtoToJaegerProto td = Except.ok protoBatch →
      s.PostSpans (decide (s.metadataLen > 0)) protoBatch = some err →
      s.pushTraceData OCProtoToJaegerProto td =
        (td.Spans.length, some (PushError.plain err))) ∧
    (∀ protoBatch, OCProtoToJaegerProto td = Except.ok protoBatch →
      s.PostSpans (decide (s.metadataLen > 0)) protoBatch = none →
      s.pushTraceData OCProtoToJaegerProto td = (0, none)) ∧
    (s.pushTraceData OCProtoToJaegerProto td).1 ≤ td.Spans.length := by
  refine ⟨?_, ?_, ?_, ?_⟩
  · intro err h
    simp only [protoGRPCSender.pushTraceData, h]
  · intro b err h hp
    simp only [protoGRPCSender.pushTraceData, h, hp, hcount b h]
  · intro b h hp
    simp only [protoGRPCSender.pushTraceData, h, hp]
  · cases h : OCProtoToJaegerProto td with
    | error err => simp [protoGRPCSender.pushTraceData, h]
    | ok b =>
      have hb := hcount b h
      cases hp : s.PostSpans (decide (s.metadataLen > 0)) b with
      | none => simp [protoGRPCSender.pushTraceData, h, hp]
      | some err => simp [protoGRPCSender.pushTraceData, h, hp, hb]

/-- The witness of C16: a batch of two spans, translated span by span, sent
by a sender whose `PostSpans` fails. -/
theorem pushTraceData_dropped_count_witness :
    (∀ err, spanBySpan twoSpans = Except.error err →
      failingSender.pushTraceData spanBySpan twoSpans =
        (twoSpans.Spans.length, some (PushError.Permanent err))) ∧
    (∀ protoBatch err, spanBySpan twoSpans = Except.ok protoBatch →
      failingSender.PostSpans (decide (failingSender.metadataLen > 0)) protoBatch = some err →
      failingSender.pushTraceData spanBySpan twoSpans =
        (twoSpans.Spans.length, some (PushError.plain err))) ∧
    (∀ protoBatch, spanBySpan twoSpans = Except.ok protoBatch →
      failingSender.PostSpans (decide (failingSender.metadataLen > 0)) protoBatch = none →
      failingSender.pushTraceData spanBySpan twoSpans = (0, none)) ∧
    (failingSender.pushTraceData spanBySpan twoSpans).1 ≤ twoSpans.Spans.length :=
  pushTraceData_dropped_count failingSender spanBySpan twoSpans
    (fun protoBatch h => by simp [spanBySpan, twoSpans] at h; simp [← h, twoSpans])

/-- The three ways through `pushTraceData` on a batch of two spans. -/
theorem pushTraceData_replay :
    failingSender.pushTraceData failingTranslation twoSpans =
      (2, some (PushError.Permanent "cannot translate")) ∧
    failingSender.pushTraceData spanBySpan twoSpans =
      (2, some (PushError.plain "unavailable")) ∧
    workingSender.pushTraceData spanBySpan twoSpans = (0, none) := by
  refine ⟨?_, ?_, ?_⟩ <;> rfl

end jaegerexporter

namespace memorylimiter

/-! ## The model against the tests -/

/-- The decisions and the answers of `TestDropDecision`. -/
theorem TestDropDecision_replay :
    newPercentageDecision 1000 60 30 = Except.ok { memAllocLimit := 600, memSpikeLimit := 300 } ∧
    newPercentageDecision 1000 60 50 = Except.ok { memAllocLimit := 600, memSpikeLimit := 500 } ∧
    newPercentageDecision 1000 40 20 = Except.ok { memAllocLimit := 400, memSpikeLimit := 200 } ∧
    newPercentageDecision 1000 40 60 = Except.error LimiterError.errMemSpikeLimitOutOfRange ∧
    dropDecision.shouldDrop { memAllocLimit := 600, memSpikeLimit := 300 } 600 = true ∧
    dropDecision.shouldDrop { memAllocLimit := 600, memSpikeLimit := 300 } 100 = false ∧
    dropDecision.shouldDrop { memAllocLimit := 600, memSpikeLimit := 500 } 300 = true ∧
    dropDecision.shouldDrop { memAllocLimit := 400, memSpikeLimit := 200 } 250 = true := by
  refine ⟨rfl, rfl, rfl, rfl, ?_, ?_, ?_, ?_⟩ <;> decide

/-- The results of `TestGetDecision` and of `TestNew`. -/
theorem TestGetDecision_replay :
    getDecision { successConfig with MemoryLimitMiB := 100, MemorySpikeLimitMiB := 20 } none =
      Except.ok { memAllocLimit := 100 * mibBytes, memSpikeLimit := 20 * mibBytes } ∧
    getDecision { successConfig with MemoryLimitMiB := 20, MemorySpikeLimitMiB := 100 } none =
      Except.error LimiterError.errMemSpikeLimitOutOfRange ∧
    getDecision percentageConfig (some (100 * mibBytes)) =
      Except.ok { memAllocLimit := 50 * mibBytes, memSpikeLimit := 10 * mibBytes } ∧
    getDecision { percentageConfig with MemoryLimitPercentage := 101 } (some (100 * mibBytes)) =
      Except.error LimiterError.errPercentageLimitOutOfRange ∧
    getDecision { percentageConfig with MemoryLimitPercentage := 99, MemorySpikePercentage := 101 }
        (some (100 * mibBytes)) = Except.error LimiterError.errPercentageLimitOutOfRange ∧
    newMemoryLimiter { successConfig with CheckInterval := 0, MemoryLimitMiB := 0 } none =
      Except.error LimiterError.errCheckIntervalOutOfRange ∧
    newMemoryLimiter { successConfig with MemoryLimitMiB := 0 } none =
      Except.error LimiterError.errLimitOutOfRange ∧
    newMemoryLimiter { successConfig with MemoryLimitMiB := 1, MemorySpikeLimitMiB := 2 } none =
      Except.error LimiterError.errMemSpikeLimitOutOfRange := by
  refine ⟨rfl, rfl, rfl, rfl, rfl, rfl, rfl, rfl⟩

/-- The steps of `TestTraceMemoryPressureResponse`, each check run on the
limiter that the step before left. -/
theorem TestTraceMemoryPressureResponse_replay :
    ((testLimiter.memCheck 800).ConsumeTraces nopConsumer []).err = none ∧
    (((testLimiter.memCheck 800).memCheck 1800).ConsumeTraces nopConsumer []).err =
      some (Sum.inl LimiterError.errForcedDrop) ∧
    (({ (testLimiter.memCheck 1800) with ballastSize := 1000 }.memCheck 1800).ConsumeTraces
      nopConsumer []).err = none ∧
    (({ (testLimiter.memCheck 800) with ballastSize := 1000 }.memCheck 2800).ConsumeTraces
      nopConsumer []).err = some (Sum.inl LimiterError.errForcedDrop) ∧
    (({ (testLimiter.memCheck 1800) with
        decision := { memAllocLimit := 1024, memSpikeLimit := 512 } }.memCheck 500).ConsumeTraces
      nopConsumer []).err = none ∧
    (({ (testLimiter.memCheck 800) with
        decision := { memAllocLimit := 1024, memSpikeLimit := 512 } }.memCheck 550).ConsumeTraces
      nopConsumer []).err = some (Sum.inl LimiterError.errForcedDrop) := by
  refine ⟨?_, ?_, ?_, ?_, ?_, ?_⟩ <;> decide

/-! ## The claims about the memory limiter -/

/-- After a check the limiter is throttling exactly when the effective
allocation is at least `limit − spike`, whatever its state was. -/
theorem memCheck_state (ml : memoryLimiter) (alloc : Nat) :
    (ml.memCheck alloc).state = State.THROTTLING ↔
      ml.decision.memAllocLimit - ml.decision.memSpikeLimit ≤ alloc - ml.ballastSize := by
  unfold memoryLimiter.memCheck
  cases hs : ml.state with
  | NORMAL =>
    simp only
    split_ifs with h1
    · simp only [reduceCtorEq, false_iff]; omega
    · simp only [true_iff]; omega
  | THROTTLING =>
    simp only
    split_ifs with h1 h2
    · simp only [reduceCtorEq, false_iff]; omega
    · simp only [true_iff]; omega
    · simp only [hs, true_iff]; omega

/-- C17: the drop decision after a memory check is true exactly when the
effective allocation, the observed allocation minus the ballast, is at least
`memAllocLimit` minus `memSpikeLimit`. With limit 1024 and spike 512,
allocation 500 does not drop and 550 drops; with limit 1024, no spike and
ballast 1000, allocation 1800 does not drop and 2800 drops. -/
theorem memCheck_drop_decision (ml : memoryLimiter) (alloc : Nat) :
    ((ml.memCheck alloc).state = State.THROTTLING ↔
      (ml.decision.memAllocLimit : Int) - (ml.decision.memSpikeLimit : Int) ≤
        ((alloc - ml.ballastSize : Nat) : Int)) ∧
    ((ml.memCheck alloc).state = State.THROTTLING ↔
      ml.decision.shouldDrop (alloc - ml.ballastSize) = true) ∧
    (testLimiterSpike.memCheck 500).state = State.NORMAL ∧
    (testLimiterSpike.memCheck 550).state = State.THROTTLING ∧
    (testLimiterBallast.memCheck 1800).state = State.NORMAL ∧
    (testLimiterBallast.memCheck 2800).state = State.THROTTLING := by
  refine ⟨?_, ?_, by decide, by decide, by decide, by decide⟩
  · rw [memCheck_state]; omega
  · rw [memCheck_state]; simp [dropDecision.shouldDrop]

/-- C18, the counterexample: with limit 1024, spike 512 and no ballast, after
a check that observes an allocation of 550 the consume call returns the
forced-drop error, although 550 is below the limit. -/
theorem ConsumeTraces_drops_below_limit :
    ((testLimiterSpike.memCheck 550).ConsumeTraces nopConsumer [1, 2]) =
      { forwarded := none, err := some (Sum.inl LimiterError.errForcedDrop) } ∧
    ¬ (550 - testLimiterSpike.ballastSize ≥ testLimiterSpike.decision.memAllocLimit) := by
  constructor <;> decide

/-- C18 as amended: after a check that observes the allocation `a`, the next
consume call returns the forced-drop error and forwards nothing exactly when
`a − ballast ≥ limit − spike`; otherwise it hands the batch unchanged to the
next consumer and returns the result of that consumer. -/
theorem ConsumeTraces_after_memCheck (ml : memoryLimiter) (a : Nat)
    (next : Batch → Option String) (td : Batch) :
    ((ml.memCheck a).ConsumeTraces next td =
        { forwarded := none, err := some (Sum.inl LimiterError.errForcedDrop) } ↔
      (ml.decision.memAllocLimit : Int) - (ml.decision.memSpikeLimit : Int) ≤
        ((a - ml.ballastSize : Nat) : Int)) ∧
    (¬ ((ml.decision.memAllocLimit : Int) - (ml.decision.memSpikeLimit : Int) ≤
        ((a - ml.ballastSize : Nat) : Int)) →
      (ml.memCheck a).ConsumeTraces next td =
        { forwarded := some td, err := (next td).map Sum.inr }) := by
  have hst : (ml.memCheck a).state = State.THROTTLING ↔
      (ml.decision.memAllocLimit : Int) - (ml.decision.memSpikeLimit : Int) ≤
        ((a - ml.ballastSize : Nat) : Int) := by
    rw [memCheck_state]; omega
  constructor
  · rw [← hst]
    unfold memoryLimiter.ConsumeTraces
    cases (ml.memCheck a).state <;> simp
  · intro hnot
    rw [← hst] at hnot
    unfold memoryLimiter.ConsumeTraces
    cases hs : (ml.memCheck a).state with
    | NORMAL => rfl
    | THROTTLING => exact absurd hs hnot

/-- C19, the counterexample: the configuration of the test `success` of
`TestNew` (limit 1024 MiB, no spike limit) is accepted, and its spike limit
is zero. -/
theorem newMemoryLimiter_accepts_zero_spike :
    newMemoryLimiter successConfig none =
      Except.ok { decision := { memAllocLimit := 1024 * mibBytes, memSpikeLimit := 0 },
                  ballastSize := 0, state := State.NORMAL, forcedGCs := 0 } ∧
    ¬ (0 < successConfig.MemorySpikeLimitMiB) := by
  constructor
  · rfl
  · decide

/-- C19 as amended: a check interval of zero is rejected with
`errCheckIntervalOutOfRange`, a configuration without a limit with
`errLimitOutOfRange`, a spike limit above the memory limit with
`errMemSpikeLimitOutOfRange`; in percentage mode a limit or spike percentage
above 100 is rejected, and so is a spike percentage above the limit
percentage when the total memory is at least 100 bytes. Every accepted
configuration satisfies `mem_spike ≤ mem_limit`, and in percentage mode the
limits are `total * pct / 100`. -/
theorem newMemoryLimiter_validates (cfg : Config) (getMemoryFn : Option Nat)
    (ml : memoryLimiter) (total : Nat) :
    (cfg.CheckInterval = 0 →
      newMemoryLimiter cfg getMemoryFn = Except.error LimiterError.errCheckIntervalOutOfRange) ∧
    (0 < cfg.CheckInterval → cfg.MemoryLimitMiB = 0 → cfg.MemoryLimitPercentage = 0 →
      newMemoryLimiter cfg getMemoryFn = Except.error LimiterError.errLimitOutOfRange) ∧
    (0 < cfg.CheckInterval → cfg.MemoryLimitMiB ≠ 0 →
      cfg.MemorySpikeLimitMiB > cfg.MemoryLimitMiB →
      newMemoryLimiter cfg getMemoryFn = Except.error LimiterError.errMemSpikeLimitOutOfRange) ∧
    (0 < cfg.CheckInterval → cfg.MemoryLimitMiB = 0 →
      (cfg.MemoryLimitPercentage > 100 ∨ cfg.MemorySpikePercentage > 100) →
      ∃ err, newMemoryLimiter cfg (some total) = Except.error err) ∧
    (0 < cfg.CheckInterval → cfg.MemoryLimitMiB = 0 → 100 ≤ total →
      cfg.MemorySpikePercentage > cfg.MemoryLimitPercentage →
      ∃ err, newMemoryLimiter cfg (some total) = Except.error err) ∧
    (newMemoryLimiter cfg getMemoryFn = Except.ok ml →
      ml.decision.memSpikeLimit ≤ ml.decision.memAllocLimit) ∧
    (cfg.MemoryLimitMiB = 0 → newMemoryLimiter cfg (some total) = Except.ok ml →
      ml.decision.memAllocLimit = total * cfg.MemoryLimitPercentage / 100 ∧
      ml.decision.memSpikeLimit = total * cfg.MemorySpikePercentage / 100) ∧
    (newMemoryLimiter percentageConfig (some (100 * mibBytes))).map (fun l => l.decision) =
      Except.ok { memAllocLimit := 50 * mibBytes, memSpikeLimit := 10 * mibBytes } := by
  have hfixed : ∀ a b d, newFixedDecision a b = Except.ok d →
      d.memAllocLimit = a ∧ d.memSpikeLimit = b ∧ b ≤ a := by
    intro a b d h
    unfold newFixedDecision at h
    split_ifs at h with h1
    simp only [Except.ok.injEq] at h
    subst h
    exact ⟨rfl, rfl, by omega⟩
  refine ⟨?_, ?_, ?_, ?_, ?_, ?_, ?_, rfl⟩
  · intro h
    simp [newMemoryLimiter, h]
  · intro h1 h2 h3
    have : ¬ cfg.CheckInterval ≤ 0 := by omega
    simp [newMemoryLimiter, this, h2, h3]
  · intro h1 h2 h3
    have : ¬ cfg.CheckInterval ≤ 0 := by omega
    have h4 : cfg.MemorySpikeLimitMiB * mibBytes > cfg.MemoryLimitMiB * mibBytes :=
      Nat.mul_lt_mul_of_pos_right h3 (by decide)
    simp [newMemoryLimiter, this, h2, getDecision, newFixedDecision, h4]
  · intro h1 h2 h3
    have : ¬ cfg.CheckInterval ≤ 0 := by omega
    by_cases h0 : cfg.MemoryLimitPercentage = 0
    · exact ⟨LimiterError.errLimitOutOfRange, by simp [newMemoryLimiter, this, h2, h0]⟩
    · have h5 : cfg.MemoryLimitPercentage > 100 ∨ cfg.MemoryLimitPercentage = 0 ∨
          cfg.MemorySpikePercentage > 100 ∨ cfg.MemorySpikePercentage = 0 := by omega
      refine ⟨LimiterError.errPercentageLimitOutOfRange, ?_⟩
      unfold newMemoryLimiter
      rw [if_neg this, if_neg (fun h => h0 h.2)]
      unfold getDecision
      rw [if_neg (by simp [h2])]
      simp only [newPercentageDecision, if_pos h5]
  · intro h1 h2 h3 h4
    cases hres : newMemoryLimiter cfg (some total) with
    | error err => exact ⟨err, rfl⟩
    | ok l =>
      exfalso
      have : ¬ cfg.CheckInterval ≤ 0 := by omega
      unfold newMemoryLimiter at hres
      rw [if_neg this] at hres
      split_ifs at hres with h5
      simp only [getDecision, h2, ne_eq, not_true_eq_false, if_false] at hres
      unfold newPercentageDecision at hres
      split_ifs at hres with h6
      cases hd : newFixedDecision (total * cfg.MemoryLimitPercentage / 100)
          (total * cfg.MemorySpikePercentage / 100) with
      | error err => simp [hd] at hres
      | ok d =>
        obtain ⟨_, _, hle⟩ := hfixed _ _ d hd
        have hmul : total * cfg.MemoryLimitPercentage + 100 ≤
            total * cfg.MemorySpikePercentage := by
          have : total * (cfg.MemoryLimitPercentage + 1) ≤ total * cfg.MemorySpikePercentage :=
            Nat.mul_le_mul_left _ h4
          nlinarith
        have h7 : total * cfg.MemoryLimitPercentage / 100 + 1 ≤
            total * cfg.MemorySpikePercentage / 100 := by
          have := Nat.div_le_div_right (c := 100) hmul
          rwa [Nat.add_div_right _ (by decide : 0 < 100)] at this
        omega
  · intro hres
    unfold newMemoryLimiter at hres
    split_ifs at hres with h1 h2
    cases hd : getDecision cfg getMemoryFn with
    | error err => simp [hd] at hres
    | ok d =>
      simp only [hd, Except.ok.injEq] at hres
      subst hres
      simp only
      unfold getDecision at hd
      split_ifs at hd with h3
      · obtain ⟨ha, hb, hle⟩ := hfixed _ _ d hd
        omega
      · cases hm : getMemoryFn with
        | none => simp [hm] at hd
        | some t =>
          simp only [hm] at hd
          unfold newPercentageDecision at hd
          split_ifs at hd with h4
          obtain ⟨ha, hb, hle⟩ := hfixed _ _ d hd
          omega
  · intro h2 hres
    unfold newMemoryLimiter at hres
    split_ifs at hres with h1 h3
    cases hd : getDecision cfg (some total) with
    | error err => simp [hd] at hres
    | ok d =>
      simp only [hd, Except.ok.injEq] at hres
      subst hres
      simp only
      simp only [getDecision, h2, ne_eq, not_true_eq_false, if_false] at hd
      unfold newPercentageDecision at hd
      split_ifs at hd with h4
      obtain ⟨ha, hb, _⟩ := hfixed _ _ d hd
      exact ⟨ha, hb⟩

end memorylimiter

namespace internal

/-! ## The claim about `Resize` -/

/-- The elements after `append`. -/
theorem appendPtrs_elems (s : Option (List Nat)) (extra : List Nat) :
    (appendPtrs s extra).getD [] = s.getD [] ++ extra := by
  cases extra with
  | nil => simp [appendPtrs]
  | cons x rest => simp [appendPtrs]

/-- C20: for a slice wrapper of length `len` and every `newLen ≥ 0`,
`Resize(newLen)` returns and leaves the slice with `Len() = newLen`. For
`newLen = 0` the slice is the nil slice; for `newLen < len` it holds the first
`newLen` element pointers in their order; for `newLen ≥ len` it holds all the
old element pointers in place followed by `newLen − len` pointers to newly
allocated, pairwise different, empty elements, and no old element is
touched. -/
theorem Resize_spec {α : Type} (emptyVal : α) (es : Slice α) (newLen : Int)
    (hnonneg : 0 ≤ newLen) :
    ∃ es1, es.Resize emptyVal newLen = some es1 ∧
      (es1.Len : Int) = newLen ∧
      (newLen = 0 → es1.orig = none) ∧
      (newLen < es.Len → es1.elems = es.elems.take newLen.toNat ∧ es1.heap = es.heap) ∧
      ((es.Len : Int) ≤ newLen →
        ∃ fresh, es1.elems = es.elems ++ fresh ∧
          fresh.length = (newLen - es.Len).toNat ∧ fresh.Nodup ∧
          (∀ p, p ∈ fresh → es.heap.length ≤ p ∧ es1.heap[p]? = some emptyVal) ∧
          (∀ p, p < es.heap.length → es1.heap[p]? = es.heap[p]?)) := by
  unfold Slice.Resize
  by_cases h0 : newLen = 0
  · rw [if_pos h0]
    refine ⟨_, rfl, ?_, fun _ => rfl, ?_, ?_⟩
    · simp [Slice.Len, Slice.elems, h0]
    · intro _
      simp [Slice.elems, h0]
    · intro hle
      have hlen : es.Len = 0 := by omega
      have hel : es.elems = [] := List.length_eq_zero.mp hlen
      refine ⟨[], ?_, ?_, List.nodup_nil, ?_, fun _ _ => rfl⟩
      · simp [Slice.elems] at hel ⊢
        exact hel
      · simp [h0, hlen]
      · intro p hp; simp at hp
  · rw [if_neg h0]
    simp only
    by_cases hlt : newLen < (es.Len : Int)
    · rw [if_pos hlt, if_neg (by omega)]
      refine ⟨_, rfl, ?_, fun h => absurd h h0, fun _ => ⟨?_, rfl⟩, fun hle => absurd hlt (by omega)⟩
      · have hl : newLen.toNat ≤ es.elems.length := by
          have : (es.elems.length : Int) = es.Len := rfl
          omega
        simp only [Slice.Len, Slice.elems, Option.getD_some, List.length_take]
        rw [Nat.min_eq_left (by simpa [Slice.elems] using hl)]
        omega
      · simp [Slice.elems]
    · rw [if_neg hlt]
      refine ⟨_, rfl, ?_, fun h => absurd h h0, fun h => absurd h hlt, fun _ => ?_⟩
      · simp only [Slice.Len, Slice.elems, appendPtrs_elems, List.length_append, List.length_map,
          List.length_range]
        have : ((es.orig.getD []).length : Int) = es.Len := rfl
        omega
      · refine ⟨(List.range (newLen - es.Len).toNat).map (fun i => es.heap.length + i),
          ?_, ?_, ?_, ?_, ?_⟩
        · simp only [Slice.elems, appendPtrs_elems]
        · simp
        · apply List.Nodup.map _ (List.nodup_range _)
          intro a b hab
          simpa using hab
        · intro p hp
          simp only [List.mem_map, List.mem_range] at hp
          obtain ⟨i, hi, rfl⟩ := hp
          refine ⟨Nat.le_add_right _ _, ?_⟩
          simp only
          rw [List.getElem?_append_right (Nat.le_add_right _ _)]
          simp only [Nat.add_sub_cancel_left, List.getElem?_replicate, hi, if_true]
        · intro p hp
          simp only
          rw [List.getElem?_append_left hp]

/-- The witness of C20: a slice of seven elements resized to four keeps its
first four element pointers. -/
theorem Resize_spec_witness :
    ∃ es1, sevenElements.Resize 0 4 = some es1 ∧ (es1.Len : Int) = 4 ∧
      es1.elems = sevenElements.elems.take 4 := by
  obtain ⟨es1, h1, h2, _, h4, _⟩ := Resize_spec (0 : Nat) sevenElements 4 (by decide)
  exact ⟨es1, h1, h2, (h4 (by decide)).1⟩

end internal

namespace otlpexporter

/-! ## Facts about `start` -/

/-- A call of `stop` leaves the `startOnce` guard as it was. -/
theorem stop_startOnceDone (e : exporterImp) : e.stop.2.startOnceDone = e.startOnceDone := by
  unfold exporterImp.stop
  dsimp only
  split_ifs <;> rfl

/-- After its first `stop` the exporter is marked stopped. -/
theorem stop_stopped (e : exporterImp) (h : e.stopOnceDone = true → e.stopped = true) :
    e.stop.2.stopped = true := by
  unfold exporterImp.stop
  dsimp only
  split_ifs with h1 h2
  · exact h h1
  · rfl
  · rfl

/-- The run of the source's lifecycle on a fresh exporter: a start whose
connection attempt fails, a second start, a stop; and, on another fresh
exporter, a stop followed by a start. -/
theorem start_replay :
    (freshExporter.start connectFails).err = none ∧
    (freshExporter.start connectFails).exporter.disconnected = true ∧
    (freshExporter.start connectFails).exporter = neverConnectedExporter ∧
    (freshExporter.start connectSucceeds).exporter.disconnected = false ∧
    (freshExporter.start connectSucceeds).exporter = connectedExporter ∧
    (((freshExporter.start connectSucceeds).exporter.start connectSucceeds).err =
      some ExporterError.errAlreadyStarted) ∧
    ((freshExporter.stop.2.start connectSucceeds).err = some ExporterError.errStopped) ∧
    ((freshExporter.stop.2.start connectSucceeds).connectCalls = 0) ∧
    ((freshExporter.stop.2.start connectSucceeds).exporter.workersLaunched = 0) ∧
    (((freshExporter.stop.2.start connectSucceeds).exporter.start connectSucceeds).err =
      some ExporterError.errAlreadyStarted) := by
  decide

/-- C24: `start` follows the lifecycle of the exporter. The first start of an
exporter that was not stopped returns `nil` whatever `connect` returned, calls
`connect` once, launches the background worker, and leaves the state connected
exactly when `connect` returned `nil`, with the clients that `connect` stored.
A first start after a `stop` returns
`errStopped`, does not call `connect` and launches no worker. After any start
the guard is set, `stop` never clears it, and a start with the guard set
returns `errAlreadyStarted` and changes nothing. -/
theorem start_follows_lifecycle (e : exporterImp) (connect : ConnectResult) :
    (e.startOnceDone = false → e.stopped = false →
      (e.start connect).err = none ∧
      ((e.start connect).exporter.disconnected = false ↔ connect.err = none) ∧
      (e.start connect).exporter.lastConnectErr = connect.err ∧
      (e.start connect).connectCalls = 1 ∧
      (e.start connect).exporter.workersLaunched = e.workersLaunched + 1 ∧
      (e.start connect).exporter.started = true ∧
      (e.start connect).exporter.traceExporter = connect.traceExporter ∧
      (e.start connect).exporter.metricExporter = connect.metricExporter) ∧
    (e.startOnceDone = false → (e.stopOnceDone = true → e.stopped = true) →
      (e.stop.2.start connect).err = some ExporterError.errStopped ∧
      (e.stop.2.start connect).connectCalls = 0 ∧
      (e.stop.2.start connect).exporter.workersLaunched = e.stop.2.workersLaunched ∧
      (e.stop.2.start connect).exporter.lastConnectErr = e.stop.2.lastConnectErr) ∧
    (e.start connect).exporter.startOnceDone = true ∧
    e.stop.2.startOnceDone = e.startOnceDone ∧
    (e.startOnceDone = true →
      e.start connect =
        { err := some ExporterError.errAlreadyStarted, exporter := e, connectCalls := 0 }) := by
  refine ⟨?_, ?_, ?_, ?_, ?_⟩
  · intro h1 h2
    cases hc : connect.err <;>
      simp [exporterImp.start, h1, h2, hc, exporterImp.disconnected]
  · intro h1 h2
    have h3 : e.stop.2.startOnceDone = false := by rw [stop_startOnceDone, h1]
    have h4 : e.stop.2.stopped = true := stop_stopped e h2
    simp [exporterImp.start, h3, h4]
  · unfold exporterImp.start
    dsimp only
    split_ifs with h1 h2
    · exact h1
    · rfl
    · cases connect.err <;> rfl
  · exact stop_startOnceDone e
  · intro h1
    simp [exporterImp.start, h1]

/-! ## Facts about the throttle duration -/

/-- For a delay whose fields are not negative and whose total fits `int64`,
`getThrottleDuration` returns the requested delay, which is not negative. -/
theorem getThrottleDuration_of_wellformed (code : Code) (seconds nanos : Int)
    (hs : 0 ≤ seconds) (hn : 0 ≤ nanos) (hfit : seconds * Second + nanos < 2 ^ 63) :
    getThrottleDuration
        { code := code,
          details := [Detail.RetryInfo (some { Seconds := seconds, Nanos := nanos })] } =
      some (seconds * Second + nanos) ∧
    0 ≤ seconds * Second + nanos := by
  have hw : ∀ x : Int, 0 ≤ x → x < 2 ^ 63 → wrapInt64 x = x := by
    intro x h0 h1
    unfold wrapInt64
    omega
  have hS : Second = 1000000000 := rfl
  have h1 : wrapInt64 (seconds * Second) = seconds * Second := by
    apply hw
    · rw [hS]; omega
    · rw [hS] at hfit ⊢; omega
  have h2 : wrapInt64 (nanos * Nanosecond) = nanos := by
    have : nanos * Nanosecond = nanos := by simp [Nanosecond]
    rw [this]
    apply hw _ hn
    rw [hS] at hfit; omega
  have h3 : wrapInt64 (seconds * Second + nanos) = seconds * Second + nanos := by
    apply hw
    · rw [hS]; omega
    · exact hfit
  refine ⟨?_, by rw [hS]; omega⟩
  unfold getThrottleDuration getThrottleDurationLoop
  dsimp only
  split_ifs with hpos
  · rw [h1, h2, h3]
  · congr 1
    rw [hS]; omega

/-- A `RetryInfo` detail whose `RetryDelay` is `nil`, first among the details
of its type: `getThrottleDuration` panics. -/
theorem getThrottleDuration_nil_RetryDelay (code : Code) (rest : List Detail) :
    getThrottleDuration { code := code, details := Detail.RetryInfo none :: rest } = none :=
  rfl

/-- C25: the result of `getThrottleDuration` can be negative. A delay of
`Seconds = -1`, `Nanos = 5` passes the test `Seconds > 0 || Nanos > 0` and
yields -999999995 nanoseconds; a delay of `Seconds = 9223372037` overflows
`int64` and yields a negative duration as well. -/
theorem getThrottleDuration_negative_result :
    getThrottleDuration (retryInfoStatus (-1) 5) = some (-999999995) ∧
    getThrottleDuration (retryInfoStatus 9223372037 0) = some (-9223372036709551616) := by
  decide

end otlpexporter

namespace jaegerreceiver

/-! ## Facts about `consumeTraceData` -/

/-- The response for a batch: `Ok` tells whether the translation succeeded. -/
theorem consumeLoop_jbsr (tr : Batch → Except String TraceData)
    (consumer : TraceData → Option String) (batches : List Batch) (r : Reception) :
    (consumeLoop tr consumer batches r).jbsr =
      r.jbsr ++ batches.map fun b =>
        { Ok := match tr b with
            | Except.ok _ => true
            | Except.error _ => false } := by
  induction batches generalizing r with
  | nil => simp [consumeLoop]
  | cons b rest ih =>
    unfold consumeLoop
    cases h : tr b with
    | ok td => simp [ih, h]
    | error e => simp [ih, h]

/-- The loop never sets the error. -/
theorem consumeLoop_err (tr : Batch → Except String TraceData)
    (consumer : TraceData → Option String) (batches : List Batch) (r : Reception) :
    (consumeLoop tr consumer batches r).err = r.err := by
  induction batches generalizing r with
  | nil => simp [consumeLoop]
  | cons b rest ih =>
    unfold consumeLoop
    cases h : tr b with
    | ok td => simp [ih]
    | error e => simp [ih]

/-- The batches given to the consumer are the translated ones, in order. -/
theorem consumeLoop_consumed (tr : Batch → Except String TraceData)
    (consumer : TraceData → Option String) (batches : List Batch) (r : Reception) :
    (consumeLoop tr consumer batches r).consumed =
      r.consumed ++ batches.filterMap fun b =>
        match tr b with
        | Except.ok td => some { td with SourceFormat := "jaeger" }
        | Except.error _ => none := by
  induction batches generalizing r with
  | nil => simp [consumeLoop]
  | cons b rest ih =>
    unfold consumeLoop
    cases h : tr b with
    | ok td => simp [ih, h, List.filterMap_cons]
    | error e => simp [ih, h, List.filterMap_cons]

/-- The source's loop on three batches of which the second does not
translate, with a consumer that refuses every batch. -/
theorem consumeTraceData_replay :
    consumeTraceData strictTranslator refusingConsumer threeBatches =
      { jbsr := [{ Ok := true }, { Ok := false }, { Ok := true }],
        err := none,
        consumed := [{ Spans := [1, 2], SourceFormat := "jaeger" },
                     { Spans := [3], SourceFormat := "jaeger" }],
        recorded := [(2, 0), (1, 0)] } := by
  decide

/-- C29: `consumeTraceData` returns a `nil` error and one response for each
batch, in input order, whose `Ok` is true exactly when the translation of the
batch succeeded; the consumer receives exactly the successfully translated
batches, once each and in order; and the responses are the same whatever the
consumer returns. -/
theorem consumeTraceData_one_response_per_batch (tr : Batch → Except String TraceData)
    (consumer : TraceData → Option String) (batches : List Batch) :
    (consumeTraceData tr consumer batches).err = none ∧
    (consumeTraceData tr consumer batches).jbsr =
      (batches.map fun b =>
        { Ok := match tr b with
            | Except.ok _ => true
            | Except.error _ => false }) ∧
    (consumeTraceData tr consumer batches).consumed =
      (batches.filterMap fun b =>
        match tr b with
        | Except.ok td => some { td with SourceFormat := "jaeger" }
        | Except.error _ => none) ∧
    ∀ other : TraceData → Option String,
      (consumeTraceData tr other batches).jbsr = (consumeTraceData tr consumer batches).jbsr ∧
      (consumeTraceData tr other batches).err = (consumeTraceData tr consumer batches).err := by
  unfold consumeTraceData
  refine ⟨?_, ?_, ?_, ?_⟩
  · rw [consumeLoop_err]
  · rw [consumeLoop_jbsr]; rfl
  · rw [consumeLoop_consumed]; rfl
  · intro other
    rw [consumeLoop_jbsr, consumeLoop_jbsr, consumeLoop_err, consumeLoop_err]
    exact ⟨rfl, rfl⟩

end jaegerreceiver

namespace resourceprocessor

/-! ## Facts about the label maps -/

/-- The keys of a label map, in order. -/
theorem labelsSet_keys (m : Labels) (k v : String) :
    (labelsSet m k v).map Prod.fst =
      if k ∈ m.map Prod.fst then m.map Prod.fst else m.map Prod.fst ++ [k] := by
  induction m with
  | nil => simp [labelsSet]
  | cons e rest ih =>
    obtain ⟨k', v'⟩ := e
    unfold labelsSet
    by_cases h : k' = k
    · simp [h]
    · have h' : ¬ k = k' := fun h2 => h h2.symm
      simp only [h, if_false, List.map_cons, ih, List.mem_cons, h', false_or]
      split_ifs <;> simp

/-- An assignment keeps every key of a label map unique. -/
theorem labelsSet_nodup (m : Labels) (k v : String) (h : (m.map Prod.fst).Nodup) :
    ((labelsSet m k v).map Prod.fst).Nodup := by
  rw [labelsSet_keys]
  split_ifs with hk
  · exact h
  · exact List.Nodup.append h (List.nodup_singleton k) (by simpa using hk)

/-- Reading a label map after an assignment. -/
theorem labelsGet_labelsSet (m : Labels) (k v k' : String) :
    labelsGet (labelsSet m k v) k' = if k = k' then some v else labelsGet m k' := by
  induction m with
  | nil => simp [labelsSet, labelsGet]
  | cons e rest ih =>
    obtain ⟨k0, v0⟩ := e
    unfold labelsSet
    by_cases h : k0 = k
    · subst h
      by_cases h2 : k0 = k' <;> simp [labelsGet, h2]
    · by_cases h2 : k0 = k'
      · subst h2
        have h3 : ¬ k = k0 := fun h4 => h h4.symm
        simp [labelsGet, h, h3]
      · simp [labelsGet, h, h2, ih]

/-- A key that a label map does not hold reads as absent. -/
theorem labelsGet_eq_none (m : Labels) (k : String) (h : k ∉ m.map Prod.fst) :
    labelsGet m k = none := by
  induction m with
  | nil => rfl
  | cons e rest ih =>
    obtain ⟨k0, v0⟩ := e
    simp only [List.map_cons, List.mem_cons, not_or] at h
    have h0 : ¬ k0 = k := fun h2 => h.1 h2.symm
    simp [labelsGet, h0, ih h.2]

/-- An assignment never leaves a label map empty. -/
theorem labelsSet_ne_nil (m : Labels) (k v : String) : labelsSet m k v ≠ [] := by
  cases m with
  | nil => simp [labelsSet]
  | cons e rest =>
    obtain ⟨k0, v0⟩ := e
    unfold labelsSet
    split_ifs <;> simp

/-- The loop of `createResource` keeps a map that is not empty not empty. -/
theorem createLoop_ne_nil (l acc : Labels) (h : acc ≠ []) : createLoop l acc ≠ [] := by
  induction l generalizing acc with
  | nil => simpa [createLoop] using h
  | cons e rest ih =>
    obtain ⟨k, v⟩ := e
    unfold createLoop
    exact ih _ (labelsSet_ne_nil acc k v)

/-- The configured resource is empty exactly when the configuration has
neither a type nor labels. -/
theorem isEmptyResource_createResource (cfg : Config) :
    isEmptyResource (createResource cfg) = true ↔ cfg.ResourceType = "" ∧ cfg.Labels = [] := by
  unfold isEmptyResource createResource
  cases hl : cfg.Labels with
  | nil => simp [createLoop]
  | cons e rest =>
    obtain ⟨k, v⟩ := e
    have h := createLoop_ne_nil rest (labelsSet [] k v) (labelsSet_ne_nil [] k v)
    simp [createLoop, h]

/-- The loop over the labels of `from` on an initialised map: it ends without
a fault, and the map then holds the labels of `from` over the earlier ones. -/
theorem writeLabels_some (fromLabels : Labels) (m : Labels)
    (hnodup : (fromLabels.map Prod.fst).Nodup) :
    ∃ rl, writeLabels fromLabels (some m) = Except.ok (some rl) ∧
      (∀ k, labelsGet rl k =
        match labelsGet fromLabels k with
        | some v => some v
        | none => labelsGet m k) ∧
      ((m.map Prod.fst).Nodup → (rl.map Prod.fst).Nodup) := by
  induction fromLabels generalizing m with
  | nil => exact ⟨m, rfl, fun k => rfl, fun h => h⟩
  | cons e rest ih =>
    obtain ⟨k0, v0⟩ := e
    simp only [List.map_cons, List.nodup_cons] at hnodup
    obtain ⟨rl, h1, h2, h3⟩ := ih (labelsSet m k0 v0) hnodup.2
    refine ⟨rl, ?_, ?_, ?_⟩
    · simpa [writeLabels] using h1
    · intro k
      rw [h2 k, labelsGet_labelsSet]
      by_cases hk : k0 = k
      · subst hk
        simp [labelsGet, labelsGet_eq_none rest k0 hnodup.1]
      · simp [labelsGet, hk]
    · intro hm
      exact h3 (labelsSet_nodup m k0 v0 hm)

/-- The loop over the labels of `from` faults on a `nil` map as soon as there
is a label to write. -/
theorem writeLabels_none (fromLabels : Labels) (h : fromLabels ≠ []) :
    writeLabels fromLabels none = Except.error Fault.nilMapWrite := by
  cases fromLabels with
  | nil => exact absurd rfl h
  | cons e rest => rfl

/-- An empty configured resource leaves the incoming resource alone. -/
theorem mergeResource_of_empty (to_ : Option Resource) (from_ : Resource)
    (h : isEmptyResource from_ = true) :
    mergeResource to_ from_ = Except.ok { result := to_, toAfter := to_ } := by
  simp [mergeResource, h]

/-- The source's cases on concrete resources: a merge into an initialised
resource, into `nil` with and without a configured type. -/
theorem mergeResource_replay :
    mergeResource (some vmResource) (createResource hostConfig) =
      Except.ok
        { result := some { Type_ := "host",
                           Labels := some [("zone", "zone-1"), ("k8s", "pod"), ("cloud", "aws")] },
          toAfter := some { Type_ := "host",
                            Labels := some [("zone", "zone-1"), ("k8s", "pod"), ("cloud", "aws")] } } ∧
    mergeResource none (createResource hostConfig) =
      Except.ok
        { result := some { Type_ := "host", Labels := some [("zone", "zone-1"), ("cloud", "aws")] },
          toAfter := none } ∧
    mergeResource none (createResource labelsOnlyConfig) =
      Except.ok { result := none, toAfter := none } :=
  ⟨rfl, rfl, rfl⟩

/-- C23: `mergeResource` with a configured resource `from` that is not empty.
For a `to` whose label map is initialised the call returns `to` itself, whose
type is now the type of `from` if that is not empty and its own type
otherwise, and whose labels are its own overridden by those of `from`: a key
of `from` reads as in `from`, every other key as before. For a `nil` `to` the
result is `nil` if `from` has no type, and otherwise a new resource with the
type of `from` and exactly the labels of `from`; the argument stays `nil`. -/
theorem mergeResource_merges (t : Resource) (toLabels : Labels) (from_ : Resource)
    (hne : isEmptyResource from_ = false)
    (hinit : t.Labels = some toLabels)
    (hnodup : ((from_.Labels.getD []).map Prod.fst).Nodup) :
    (∃ rl,
      mergeResource (some t) from_ =
        Except.ok
          { result := some { Type_ := if from_.Type_ ≠ "" then from_.Type_ else t.Type_,
                             Labels := some rl },
            toAfter := some { Type_ := if from_.Type_ ≠ "" then from_.Type_ else t.Type_,
                              Labels := some rl } } ∧
      (∀ k, labelsGet rl k =
        match labelsGet (from_.Labels.getD []) k with
        | some v => some v
        | none => labelsGet toLabels k) ∧
      ((toLabels.map Prod.fst).Nodup → (rl.map Prod.fst).Nodup)) ∧
    (from_.Type_ = "" →
      mergeResource none from_ = Except.ok { result := none, toAfter := none }) ∧
    (from_.Type_ ≠ "" →
      ∃ rl,
        mergeResource none from_ =
          Except.ok { result := some { Type_ := from_.Type_, Labels := some rl },
                      toAfter := none } ∧
        (∀ k, labelsGet rl k = labelsGet (from_.Labels.getD []) k) ∧
        (rl.map Prod.fst).Nodup) := by
  obtain ⟨tType, tLabels⟩ := t
  simp only at hinit
  subst hinit
  refine ⟨?_, ?_, ?_⟩
  · cases hfl : from_.Labels with
    | none =>
      refine ⟨toLabels, ?_, ?_, fun h => h⟩
      · unfold mergeResource mergeInto
        simp only [hne, hfl]
        by_cases ht : from_.Type_ = "" <;> simp [ht]
      · intro k
        simp [labelsGet]
    | some fl =>
      rw [hfl] at hnodup
      obtain ⟨rl, h1, h2, h3⟩ := writeLabels_some fl toLabels hnodup
      refine ⟨rl, ?_, ?_, h3⟩
      · unfold mergeResource mergeInto
        simp only [hne, hfl]
        by_cases ht : from_.Type_ = "" <;> simp [ht, h1]
      · intro k
        simpa using h2 k
  · intro ht
    simp [mergeResource, hne, ht]
  · intro ht
    cases hfl : from_.Labels with
    | none =>
      refine ⟨[], ?_, ?_, List.nodup_nil⟩
      · unfold mergeResource mergeInto
        simp [hne, hfl, ht]
      · intro k
        simp [labelsGet]
    | some fl =>
      rw [hfl] at hnodup
      obtain ⟨rl, h1, h2, h3⟩ := writeLabels_some fl [] hnodup
      refine ⟨rl, ?_, ?_, h3 List.nodup_nil⟩
      · unfold mergeResource mergeInto
        simp [hne, hfl, ht, h1]
      · intro k
        have := h2 k
        simp only [Option.getD_some]
        rw [this]
        cases labelsGet fl k <;> simp [labelsGet]

/-- Witness of C23 on `vmResource` and the resource configured by
`hostConfig`. -/
theorem mergeResource_merges_witness :
    (∃ rl,
      mergeResource (some vmResource) (createResource hostConfig) =
        Except.ok
          { result := some { Type_ := if (createResource hostConfig).Type_ ≠ "" then
                                        (createResource hostConfig).Type_ else vmResource.Type_,
                             Labels := some rl },
            toAfter := some { Type_ := if (createResource hostConfig).Type_ ≠ "" then
                                         (createResource hostConfig).Type_ else vmResource.Type_,
                              Labels := some rl } } ∧
      (∀ k, labelsGet rl k =
        match labelsGet ((createResource hostConfig).Labels.getD []) k with
        | some v => some v
        | none => labelsGet [("zone", "zone-9"), ("k8s", "pod")] k) ∧
      (([("zone", "zone-9"), ("k8s", "pod")].map Prod.fst).Nodup → (rl.map Prod.fst).Nodup)) ∧
    ((createResource hostConfig).Type_ = "" →
      mergeResource none (createResource hostConfig) =
        Except.ok { result := none, toAfter := none }) ∧
    ((createResource hostConfig).Type_ ≠ "" →
      ∃ rl,
        mergeResource none (createResource hostConfig) =
          Except.ok { result := some { Type_ := (createResource hostConfig).Type_,
                                       Labels := some rl },
                      toAfter := none } ∧
        (∀ k, labelsGet rl k = labelsGet ((createResource hostConfig).Labels.getD []) k) ∧
        (rl.map Prod.fst).Nodup) :=
  mergeResource_merges vmResource [("zone", "zone-9"), ("k8s", "pod")]
    (createResource hostConfig) (by decide) rfl (by decide)

/-- A `to` with a `nil` label map and a `from` with a label: the call
faults. -/
theorem mergeResource_nil_map_write (toType : String) (from_ : Resource)
    (e : String × String) (rest : Labels) (hfrom : from_.Labels = some (e :: rest)) :
    mergeResource (some { Type_ := toType, Labels := none }) from_ =
      Except.error Fault.nilMapWrite := by
  have hne : isEmptyResource from_ = false := by
    simp [isEmptyResource, hfrom]
  unfold mergeResource mergeInto
  simp only [hne, hfrom]
  by_cases ht : from_.Type_ = "" <;> simp [ht, writeLabels]

/-- C27: `mergeResource` is not total. For an incoming resource that is not
`nil` and has a `nil` label map, and a configured resource with a label, the
loop over the labels of `from` writes to the `nil` map. -/
theorem mergeResource_nil_label_map_faults :
    mergeResource (some unlabelledResource) (createResource hostConfig) =
      Except.error Fault.nilMapWrite ∧
    mergeResource (some { Type_ := "vm", Labels := none }) (createResource labelsOnlyConfig) =
      Except.error Fault.nilMapWrite :=
  ⟨rfl, rfl⟩

/-- C26: a resource processor declares `MutatesConsumedData = false` exactly
when its configuration has an empty type and no labels. When it does,
`ConsumeTraceData` and `ConsumeMetricsData` hand the next consumer the batch
they were given, return what it returns, and leave the batch of the caller as
it was. Hence a processor under which some call does anything else declares
`MutatesConsumedData = true`. -/
theorem resourceProcessor_declares_mutation (cfg : Config)
    (nextT : TraceData → Option String) (nextM : MetricsData → Option String) :
    ((newResourceTraceProcessor nextT cfg).MutatesConsumedData = false ↔
      cfg.ResourceType = "" ∧ cfg.Labels = []) ∧
    ((newResourceMetricProcessor nextM cfg).MutatesConsumedData = false ↔
      cfg.ResourceType = "" ∧ cfg.Labels = []) ∧
    (∀ td : TraceData, (newResourceTraceProcessor nextT cfg).MutatesConsumedData = false →
      (newResourceTraceProcessor nextT cfg).ConsumeTraceData td =
        Except.ok { forwarded := td, err := nextT td, inputAfter := td }) ∧
    (∀ md : MetricsData, (newResourceMetricProcessor nextM cfg).MutatesConsumedData = false →
      (newResourceMetricProcessor nextM cfg).ConsumeMetricsData md =
        Except.ok { forwarded := md, err := nextM md, inputAfter := md }) ∧
    (∀ td : TraceData,
      (newResourceTraceProcessor nextT cfg).ConsumeTraceData td ≠
        Except.ok { forwarded := td, err := nextT td, inputAfter := td } →
      (newResourceTraceProcessor nextT cfg).MutatesConsumedData = true) ∧
    (∀ md : MetricsData,
      (newResourceMetricProcessor nextM cfg).ConsumeMetricsData md ≠
        Except.ok { forwarded := md, err := nextM md, inputAfter := md } →
      (newResourceMetricProcessor nextM cfg).MutatesConsumedData = true) := by
  have hT : ∀ td : TraceData, (newResourceTraceProcessor nextT cfg).MutatesConsumedData = false →
      (newResourceTraceProcessor nextT cfg).ConsumeTraceData td =
        Except.ok { forwarded := td, err := nextT td, inputAfter := td } := by
    intro td h
    have he : isEmptyResource (createResource cfg) = true := by
      simpa [newResourceTraceProcessor] using h
    unfold resourceTraceProcessor.ConsumeTraceData
    simp only [newResourceTraceProcessor, mergeResource_of_empty _ _ he]
  have hM : ∀ md : MetricsData, (newResourceMetricProcessor nextM cfg).MutatesConsumedData = false →
      (newResourceMetricProcessor nextM cfg).ConsumeMetricsData md =
        Except.ok { forwarded := md, err := nextM md, inputAfter := md } := by
    intro md h
    have he : isEmptyResource (createResource cfg) = true := by
      simpa [newResourceMetricProcessor] using h
    unfold resourceMetricProcessor.ConsumeMetricsData
    simp only [newResourceMetricProcessor, mergeResource_of_empty _ _ he]
  refine ⟨?_, ?_, hT, hM, ?_, ?_⟩
  · rw [← isEmptyResource_createResource]
    simp [newResourceTraceProcessor]
  · rw [← isEmptyResource_createResource]
    simp [newResourceMetricProcessor]
  · intro td h
    by_contra hc
    exact h (hT td (by simpa using hc))
  · intro md h
    by_contra hc
    exact h (hM md (by simpa using hc))

/-- The pass-through of C26 on a concrete batch, and the in-place change that
a configured resource makes to the batch of the caller. -/
theorem ConsumeTraceData_replay :
    (newResourceTraceProcessor acceptTraces emptyConfig).MutatesConsumedData = false ∧
    (newResourceTraceProcessor acceptTraces emptyConfig).ConsumeTraceData vmBatch =
      Except.ok { forwarded := vmBatch, err := none, inputAfter := vmBatch } ∧
    (newResourceTraceProcessor acceptTraces hostConfig).MutatesConsumedData = true ∧
    (newResourceTraceProcessor acceptTraces hostConfig).ConsumeTraceData vmBatch =
      Except.ok
        { forwarded :=
            { vmBatch with
              Resource := some { Type_ := "host",
                                 Labels := some [("zone", "zone-1"), ("k8s", "pod"), ("cloud", "aws")] } },
          err := none,
          inputAfter :=
            { vmBatch with
              Resource := some { Type_ := "host",
                                 Labels := some [("zone", "zone-1"), ("k8s", "pod"), ("cloud", "aws")] } } } :=
  ⟨rfl, rfl, rfl, rfl⟩

end resourceprocessor

namespace internaldata

/-! ## Facts about the label keys -/

/-- Membership in the key set after one assignment. -/
theorem mem_keySetAdd (s : List String) (k k' : String) :
    k' ∈ keySetAdd s k ↔ k' ∈ s ∨ k' = k := by
  unfold keySetAdd
  split_ifs with h
  · constructor
    · exact Or.inl
    · rintro (h1 | h1)
      · exact h1
      · rw [h1]; exact h
  · simp

/-- An assignment keeps the key set free of duplicates. -/
theorem nodup_keySetAdd (s : List String) (k : String) (h : s.Nodup) :
    (keySetAdd s k).Nodup := by
  unfold keySetAdd
  split_ifs with hk
  · exact h
  · exact List.Nodup.append h (List.nodup_singleton k) (by simpa using hk)

/-- The keys that `addLabelKeys` leaves in the set. -/
theorem mem_addLabelKeys (labels : StringMap) (s : List String) (k : String) :
    k ∈ addLabelKeys s labels ↔ k ∈ s ∨ k ∈ labels.map Prod.fst := by
  unfold addLabelKeys
  induction labels generalizing s with
  | nil => simp
  | cons e rest ih =>
    simp only [List.foldl_cons, ih, mem_keySetAdd, List.map_cons, List.mem_cons]
    tauto

/-- The function `addLabelKeys` keeps the key set free of duplicates. -/
theorem nodup_addLabelKeys (labels : StringMap) (s : List String) (h : s.Nodup) :
    (addLabelKeys s labels).Nodup := by
  unfold addLabelKeys
  induction labels generalizing s with
  | nil => simpa using h
  | cons e rest ih =>
    simp only [List.foldl_cons]
    exact ih _ (nodup_keySetAdd s e.1 h)

/-- The keys that a loop over the points of one kind leaves in the set. -/
theorem mem_addPointsKeys (points : List DataPoint) (s : List String) (k : String) :
    k ∈ addPointsKeys s points ↔ k ∈ s ∨ ∃ p ∈ points, k ∈ p.LabelsMap.map Prod.fst := by
  unfold addPointsKeys
  induction points generalizing s with
  | nil => simp
  | cons p rest ih =>
    simp only [List.foldl_cons, ih, mem_addLabelKeys, List.mem_cons, exists_eq_or_imp]
    tauto

/-- A loop over the points of one kind keeps the key set free of
duplicates. -/
theorem nodup_addPointsKeys (points : List DataPoint) (s : List String) (h : s.Nodup) :
    (addPointsKeys s points).Nodup := by
  unfold addPointsKeys
  induction points generalizing s with
  | nil => simpa using h
  | cons p rest ih =>
    simp only [List.foldl_cons]
    exact ih _ (nodup_addLabelKeys p.LabelsMap s h)

/-- Reading the index map after an assignment. -/
theorem mapGet_mapSet (m : List (String × Nat)) (k : String) (v : Nat) (k' : String) :
    mapGet (mapSet m k v) k' = if k = k' then some v else mapGet m k' := by
  induction m with
  | nil => simp [mapSet, mapGet]
  | cons e rest ih =>
    obtain ⟨k0, v0⟩ := e
    unfold mapSet
    by_cases h : k0 = k
    · subst h
      by_cases h2 : k0 = k' <;> simp [mapGet, h2]
    · by_cases h2 : k0 = k'
      · subst h2
        have h3 : ¬ k = k0 := fun h4 => h h4.symm
        simp [mapGet, h, h3]
      · simp [mapGet, h, h2, ih]

/-- The last loop of `collectLabelKeys` appends the sorted keys and maps each
of them to its position. -/
theorem indexLoop_spec (l : List String) (hl : l.Nodup) (i : Nat) (keys : List String)
    (indices : List (String × Nat)) :
    (indexLoop l i keys indices).1 = keys ++ l ∧
    ∀ k j, mapGet (indexLoop l i keys indices).2 k = some j ↔
      ((i ≤ j ∧ l[j - i]? = some k) ∨ (k ∉ l ∧ mapGet indices k = some j)) := by
  induction l generalizing i keys indices with
  | nil => simp [indexLoop]
  | cons key rest ih =>
    rw [List.nodup_cons] at hl
    obtain ⟨ih1, ih2⟩ := ih hl.2 (i + 1) (keys ++ [key]) (mapSet indices key i)
    unfold indexLoop
    refine ⟨by simp [ih1], ?_⟩
    intro k j
    rw [ih2, mapGet_mapSet]
    have hrest : ∀ n : Nat, rest[n]? = some key → False := by
      intro n hn
      exact hl.1 (List.getElem?_mem hn)
    by_cases hk : key = k
    · subst hk
      simp only [if_true, List.mem_cons, true_or, not_true_eq_false, false_and, or_false]
      constructor
      · rintro (⟨_, h2⟩ | ⟨_, h2⟩)
        · exact absurd h2 (fun h => hrest _ h)
        · have : i = j := by simpa using h2
          subst this
          simp
      · rintro ⟨h1, h2⟩
        rcases Nat.eq_or_lt_of_le h1 with h3 | h3
        · subst h3
          exact Or.inr ⟨hl.1, rfl⟩
        · obtain ⟨n, rfl⟩ : ∃ n, j = i + (n + 1) := ⟨j - i - 1, by omega⟩
          rw [Nat.add_sub_cancel_left, List.getElem?_cons_succ] at h2
          exact absurd h2 (fun h => hrest _ h)
    · have hk' : ¬ k = key := fun h => hk h.symm
      simp only [hk, if_false, List.mem_cons, hk', false_or]
      constructor
      · rintro (⟨h1, h2⟩ | h2)
        · left
          obtain ⟨n, rfl⟩ : ∃ n, j = i + (n + 1) := ⟨j - i - 1, by omega⟩
          refine ⟨by omega, ?_⟩
          rw [Nat.add_sub_cancel_left, List.getElem?_cons_succ]
          have : i + (n + 1) - (i + 1) = n := by omega
          rw [this] at h2
          exact h2
        · exact Or.inr h2
      · rintro (⟨h1, h2⟩ | h2)
        · rcases Nat.eq_or_lt_of_le h1 with h3 | h3
          · subst h3
            simp at h2
            exact absurd h2 hk
          · left
            obtain ⟨n, rfl⟩ : ∃ n, j = i + (n + 1) := ⟨j - i - 1, by omega⟩
            refine ⟨by omega, ?_⟩
            rw [Nat.add_sub_cancel_left, List.getElem?_cons_succ] at h2
            have : i + (n + 1) - (i + 1) = n := by omega
            rw [this]
            exact h2
        · exact Or.inr h2

/-- The function `sort.Strings` on keys without duplicates: the result is
strictly increasing and holds the same keys. -/
theorem sortStrings_spec (l : List String) (hl : l.Nodup) :
    (sortStrings l).Sorted (fun a b => a < b) ∧ (sortStrings l).Perm l := by
  have hperm : (sortStrings l).Perm l := List.perm_insertionSort _ l
  have hsorted : (sortStrings l).Sorted (fun a b => a ≤ b) := List.sorted_insertionSort _ l
  exact ⟨List.Sorted.lt_of_le hsorted (hperm.nodup_iff.2 hl), hperm⟩

/-- The key set that `collectLabelKeys` builds: the keys that occur on a
point, each once. -/
theorem keySet_spec (metric : Metric) :
    (addPointsKeys (addPointsKeys (addPointsKeys (addPointsKeys [] metric.Int64DataPoints)
      metric.DoubleDataPoints) metric.HistogramDataPoints) metric.SummaryDataPoints).Nodup ∧
    ∀ k, k ∈ addPointsKeys (addPointsKeys (addPointsKeys (addPointsKeys [] metric.Int64DataPoints)
      metric.DoubleDataPoints) metric.HistogramDataPoints) metric.SummaryDataPoints ↔
      occursIn metric k := by
  refine ⟨?_, ?_⟩
  · exact nodup_addPointsKeys _ _ (nodup_addPointsKeys _ _ (nodup_addPointsKeys _ _
      (nodup_addPointsKeys _ _ List.nodup_nil)))
  · intro k
    simp only [mem_addPointsKeys, occursIn, allPoints, List.mem_append, List.not_mem_nil,
      false_or]
    constructor
    · rintro (((⟨p, hp, hk⟩ | ⟨p, hp, hk⟩) | ⟨p, hp, hk⟩) | ⟨p, hp, hk⟩)
      · exact ⟨p, Or.inl (Or.inl (Or.inl hp)), hk⟩
      · exact ⟨p, Or.inl (Or.inl (Or.inr hp)), hk⟩
      · exact ⟨p, Or.inl (Or.inr hp), hk⟩
      · exact ⟨p, Or.inr hp, hk⟩
    · rintro ⟨p, (((hp | hp) | hp) | hp), hk⟩
      · exact Or.inl (Or.inl (Or.inl ⟨p, hp, hk⟩))
      · exact Or.inl (Or.inl (Or.inr ⟨p, hp, hk⟩))
      · exact Or.inl (Or.inr ⟨p, hp, hk⟩)
      · exact Or.inr ⟨p, hp, hk⟩

/-- C21: `collectLabelKeys` returns `nil` keys and `nil` indices when no data
point of the metric has a label. Otherwise the keys are strictly increasing
(sorted and free of duplicates), a key is in the list exactly when it occurs
on an int64, double, histogram or summary point of the metric, and the indices
map a key to `j` exactly when it is the key at position `j`. This holds for
every order in which the `range` over the key set yields the keys. -/
theorem collectLabelKeys_sorted_keys (rangeOrder : List String → List String)
    (horder : ∀ l, (rangeOrder l).Perm l) (metric : Metric) :
    ((∀ p ∈ allPoints metric, p.LabelsMap = []) →
      collectLabelKeys rangeOrder metric = { keys := none, keyIndices := none }) ∧
    ((∃ p ∈ allPoints metric, p.LabelsMap ≠ []) →
      ∃ ks idx,
        collectLabelKeys rangeOrder metric = { keys := some ks, keyIndices := some idx } ∧
        ks.Sorted (fun a b => a < b) ∧
        (∀ k, k ∈ ks ↔ occursIn metric k) ∧
        ∀ k j, mapGet idx k = some j ↔ ks[j]? = some k) := by
  obtain ⟨hnodup, hmem⟩ := keySet_spec metric
  have hEq : ∀ KS : List String,
      addPointsKeys (addPointsKeys (addPointsKeys (addPointsKeys []
        metric.Int64DataPoints) metric.DoubleDataPoints) metric.HistogramDataPoints)
        metric.SummaryDataPoints = KS →
      collectLabelKeys rangeOrder metric =
        if KS.length = 0 then { keys := none, keyIndices := none }
        else { keys := some (indexLoop (sortStrings (rangeOrder KS)) 0 [] []).1,
               keyIndices := some (indexLoop (sortStrings (rangeOrder KS)) 0 [] []).2 } := by
    intro KS hKS
    unfold collectLabelKeys
    dsimp only
    rw [hKS]
  generalize hKS : addPointsKeys (addPointsKeys (addPointsKeys (addPointsKeys []
      metric.Int64DataPoints) metric.DoubleDataPoints) metric.HistogramDataPoints)
      metric.SummaryDataPoints = KS at hnodup hmem
  rw [hEq KS hKS]
  refine ⟨?_, ?_⟩
  · intro hnone
    have hempty : KS = [] := by
      apply List.eq_nil_iff_forall_not_mem.2
      intro k hk
      obtain ⟨p, hp, hkp⟩ := (hmem k).1 hk
      rw [hnone p hp] at hkp
      simp at hkp
    simp [hempty]
  · rintro ⟨p, hp, hlabels⟩
    have hne : KS.length ≠ 0 := by
      obtain ⟨e, he⟩ := List.exists_mem_of_ne_nil _ hlabels
      have : e.1 ∈ KS := (hmem e.1).2 ⟨p, hp, List.mem_map_of_mem Prod.fst he⟩
      intro h0
      rw [List.length_eq_zero] at h0
      rw [h0] at this
      simp at this
    have hnd : (rangeOrder KS).Nodup := (horder _).nodup_iff.2 hnodup
    obtain ⟨hsorted, hperm⟩ := sortStrings_spec _ hnd
    obtain ⟨h1, h2⟩ := indexLoop_spec _ (hperm.nodup_iff.2 hnd) 0 [] []
    refine ⟨(indexLoop (sortStrings (rangeOrder KS)) 0 [] []).1,
      (indexLoop (sortStrings (rangeOrder KS)) 0 [] []).2, ?_, ?_, ?_, ?_⟩
    · simp only [hne, if_false]
    · rw [h1]
      simpa using hsorted
    · intro k
      rw [h1, List.nil_append, hperm.mem_iff, (horder _).mem_iff]
      exact hmem k
    · intro k j
      rw [h2, h1]
      simp [mapGet]

/-- Witness of C21 on `partlyLabelledMetric`, with the key set ranged over in
reverse. -/
theorem collectLabelKeys_sorted_keys_witness :
    ((∀ p ∈ allPoints partlyLabelledMetric, p.LabelsMap = []) →
      collectLabelKeys List.reverse partlyLabelledMetric =
        { keys := none, keyIndices := none }) ∧
    ((∃ p ∈ allPoints partlyLabelledMetric, p.LabelsMap ≠ []) →
      ∃ ks idx,
        collectLabelKeys List.reverse partlyLabelledMetric =
          { keys := some ks, keyIndices := some idx } ∧
        ks.Sorted (fun a b => a < b) ∧
        (∀ k, k ∈ ks ↔ occursIn partlyLabelledMetric k) ∧
        ∀ k j, mapGet idx k = some j ↔ ks[j]? = some k) :=
  collectLabelKeys_sorted_keys List.reverse (fun l => List.reverse_perm l) partlyLabelledMetric

/-- The keys of `partlyLabelledMetric`, and the keys of a metric without
labels. -/
theorem collectLabelKeys_replay :
    collectLabelKeys id partlyLabelledMetric =
      { keys := some ["host"], keyIndices := some [("host", 0)] } ∧
    collectLabelKeys id (namedMetric "a") = { keys := none, keyIndices := none } := by
  decide

/-! ## Facts about the label values -/

/-- A point without labels gets `nil` label values, whatever the label keys
of its metric are. -/
theorem labelValuesToOC_no_labels (lk : labelKeys) :
    labelValuesToOC [] lk = Except.ok none := by
  simp [labelValuesToOC]

/-- C22: the label values of a point do not always match the label keys of
its metric. In `partlyLabelledMetric` the keys are `host`; the point with the
label gets one value, but the point without labels gets `nil` label values
(length 0, not one default entry with `HasValue = false`), because
`labelValuesToOC` returns at once when the point has no labels. -/
theorem labelValuesToOC_unlabelled_point_gets_nil :
    (collectLabelKeys id partlyLabelledMetric).keys = some ["host"] ∧
    labelValuesToOC [("host", "a")] (collectLabelKeys id partlyLabelledMetric) =
      Except.ok (some [some { Value := "a", HasValue := true }]) ∧
    labelValuesToOC [] (collectLabelKeys id partlyLabelledMetric) = Except.ok none ∧
    metricToOC id partlyLabelledMetric =
      Except.ok
        { MetricDescriptor := some { Name := "cpu", LabelKeys := some ["host"] },
          Timeseries := some
            [{ LabelValues := some [some { Value := "a", HasValue := true }],
               kind := PointKind.int64, payload := 1 },
             { LabelValues := none, kind := PointKind.int64, payload := 2 }] } :=
  ⟨rfl, rfl, rfl, rfl⟩

/-! ## Facts about the metric lists -/

/-- The loop of `MetricDataToOC` appends one entry for each `ResourceMetrics`,
in order: the result of `ResourceMetricsToOC` on it. -/
theorem resourceMetricsLoop_spec (toOC : Nat → Nat × Nat)
    (rangeOrder : List String → List String) (rms : List ResourceMetrics)
    (out l : List MetricsData)
    (h : resourceMetricsLoop toOC rangeOrder rms out = Except.ok l) :
    ∃ ds, l = out ++ ds ∧
      List.Forall₂ (fun rm d => ResourceMetricsToOC toOC rangeOrder rm = Except.ok d) rms ds := by
  induction rms generalizing out with
  | nil =>
    simp only [resourceMetricsLoop, Except.ok.injEq] at h
    subst h
    exact ⟨[], by simp, List.Forall₂.nil⟩
  | cons rm rest ih =>
    unfold resourceMetricsLoop at h
    cases hd : ResourceMetricsToOC toOC rangeOrder rm with
    | error f => simp [hd] at h
    | ok d =>
      simp only [hd] at h
      obtain ⟨ds, h1, h2⟩ := ih (out ++ [d]) h
      exact ⟨d :: ds, by simp [h1], List.Forall₂.cons hd h2⟩

/-- The loop over the groups reads the groups that remain only for their
number: every pass translates the metrics of the first group. -/
theorem groupsLoop_congr (rangeOrder : List String → List String) (ilms : List (List Metric))
    (remaining remaining' : List (List Metric)) (ocMetrics : List OCMetric)
    (h : remaining.length = remaining'.length) :
    groupsLoop rangeOrder ilms remaining ocMetrics =
      groupsLoop rangeOrder ilms remaining' ocMetrics := by
  induction remaining generalizing remaining' ocMetrics with
  | nil =>
    cases remaining' with
    | nil => rfl
    | cons g rest => simp at h
  | cons g rest ih =>
    cases remaining' with
    | nil => simp at h
    | cons g' rest' =>
      have hlen : rest.length = rest'.length := by simpa using h
      unfold groupsLoop
      cases ilms[0]? with
      | none => rfl
      | some metrics =>
        dsimp only
        cases metricsLoop rangeOrder metrics ocMetrics with
        | error f => rfl
        | ok oc1 => exact ih rest' oc1 hlen

/-- C28: the list of OC metrics does not hold the metrics of every group. For
a `ResourceMetrics` with two groups, the first with the metric `a` and the
second with the metrics `b` and `c`, `ResourceMetricsToOC` returns the
translation of `a` twice (two entries, not three): each pass of the loop over
the groups reads `ilms.Get(0)`. -/
theorem ResourceMetricsToOC_repeats_first_group :
    ResourceMetricsToOC copyResource id twoGroups =
      Except.ok { Node := 7, Resource := 7,
                  Metrics := some [namedOCMetric "a", namedOCMetric "a"] } ∧
    (twoGroups.InstrumentationLibraryMetrics.map List.length).sum = 3 ∧
    MetricDataToOC copyResource id [twoGroups] =
      Except.ok (some [{ Node := 7, Resource := 7,
                         Metrics := some [namedOCMetric "a", namedOCMetric "a"] }]) ∧
    MetricDataToOC copyResource id [] = Except.ok none :=
  ⟨rfl, rfl, rfl, rfl⟩

end internaldata
